import Mathlib

/-!
The SQL recording driver of apitest.

A shallow embedding of `db.go` (package `apitest`) and of its copy under `x/db`
(package `db`): the proxies that wrap a `database/sql/driver` implementation and
append `MessageRequest` / `MessageResponse` events to a `Recorder`.

Conventions of the embedding

* A Go interface value that may be nil is an `Option`; a Go result pair
  `(value, error)` is a Lean pair of two options, both of which may be set.
* A method of the wrapped driver is a field of the structure that stands for the
  wrapped object; an optional interface (`driver.Queryer`, ...) is an optional field.
  The outcome of a wrapped method is a function of its arguments; the wrapped row
  set carries the number of `Next` calls it has served.  `context.Context`
  arguments carry no data the proxies read and are left out.
* Everything the proxies mutate lives in `World`: the events of the recorder, the
  lines written by `fmt.Println`, the clock read by `time.Now`, and a log of the
  calls forwarded to the wrapped driver.
* A nil dereference is the outcome `Outcome.panic`.
-/

namespace Apitest

/-! ## Values of `database/sql/driver` -/

/-- A Go `error`: the sentinel `io.EOF`, or an error made by `errors.New`. -/
inductive Error where
  | EOF
  | New (msg : String)
  deriving DecidableEq, Repr

/-- A `driver.Value`.  A `float64` and a `time.Time` are carried as the text `fmt`
prints for them. -/
inductive Value where
  | null
  | int64 (n : Int)
  | float64 (text : String)
  | bool (b : Bool)
  | bytes (bs : List Nat)
  | string (s : String)
  | time (text : String)
  deriving DecidableEq, Repr

/-- A `driver.NamedValue`. -/
structure NamedValue where
  Name : String
  Ordinal : Int
  Value : Value
  deriving DecidableEq, Repr

/-- A `driver.TxOptions`. -/
structure TxOptions where
  Isolation : Int
  ReadOnly : Bool
  deriving DecidableEq, Repr

/-- A call forwarded to the wrapped driver, as logged in `World.calls`. -/
inductive Call where
  | DriverOpen (name : String)
  | DriverOpenConnector (name : String)
  | ConnectorConnect
  | ConnPrepare (query : String)
  | ConnClose
  | ConnBegin
  | ConnQuery (query : String) (args : List Value)
  | ConnQueryContext (query : String) (args : List NamedValue)
  | ConnExec (query : String) (args : List Value)
  | ConnExecContext (query : String) (args : List NamedValue)
  | ConnPrepareContext (query : String)
  | ConnBeginTx (opts : TxOptions)
  | ConnPing
  | StmtClose
  | StmtNumInput
  | StmtExec (args : List Value)
  | StmtQuery (args : List Value)
  | StmtExecContext (args : List NamedValue)
  | StmtQueryContext (args : List NamedValue)
  | RowsColumns
  | RowsClose
  | RowsNext (dest : List Value)
  | ResultRowsAffected
  deriving DecidableEq, Repr

/-! ## The wrapped driver -/

/-- A `driver.Result`. -/
structure DriverResult where
  LastInsertId : Int × Option Error
  RowsAffected : Int × Option Error

/-- A `driver.Rows`: `Next k dest` is the outcome of the call of `Next(dest)` that
follows `k` earlier calls, and `served` counts the calls made so far. -/
structure DriverRows where
  Columns : List String
  Close : Option Error
  Next : Nat → List Value → Option Error
  served : Nat

/-- A `driver.Tx`. -/
structure DriverTx where
  Commit : Option Error
  Rollback : Option Error

/-- A `driver.Stmt`, with the optional `driver.StmtExecContext` and
`driver.StmtQueryContext`. -/
structure DriverStmt where
  Close : Option Error
  NumInput : Int
  Exec : List Value → Option DriverResult × Option Error
  Query : List Value → Option DriverRows × Option Error
  StmtExecContext : Option (List NamedValue → Option DriverResult × Option Error)
  StmtQueryContext : Option (List NamedValue → Option DriverRows × Option Error)

/-- A `driver.Conn`, with its seven optional interfaces. -/
structure DriverConn where
  Prepare : String → Option DriverStmt × Option Error
  Close : Option Error
  Begin : Option DriverTx × Option Error
  Queryer : Option (String → List Value → Option DriverRows × Option Error)
  QueryerContext : Option (String → List NamedValue → Option DriverRows × Option Error)
  Execer : Option (String → List Value → Option DriverResult × Option Error)
  ExecerContext : Option (String → List NamedValue → Option DriverResult × Option Error)
  ConnPrepareContext : Option (String → Option DriverStmt × Option Error)
  ConnBeginTx : Option (TxOptions → Option DriverTx × Option Error)
  Pinger : Option (Option Error)

/-- A `driver.Connector`: its `Connect`.  Its other method, `Driver()`, is given apart,
as a function `driverOf` from connectors to drivers, because a connector and the
driver it answers with refer to each other. -/
structure DriverConnector where
  Connect : Option DriverConn × Option Error

/-- A `driver.Driver`, with the optional `driver.DriverContext`. -/
structure Driver where
  Open : String → Option DriverConn × Option Error
  DriverContext : Option (String → Option DriverConnector × Option Error)

/-! ## The recorder and the world -/

/-- A `MessageRequest` event. -/
structure MessageRequest where
  Source : String
  Target : String
  Header : String
  Body : String
  Timestamp : Nat
  deriving DecidableEq, Repr

/-- A `MessageResponse` event. -/
structure MessageResponse where
  Source : String
  Target : String
  Header : String
  Body : String
  Timestamp : Nat
  deriving DecidableEq, Repr

/-- An element of `Recorder.Events`.  The two HTTP variants are written by the HTTP
layer only; their payload is not read here. -/
inductive Event where
  | HttpRequest
  | HttpResponse
  | MessageRequest (m : MessageRequest)
  | MessageResponse (m : MessageResponse)
  deriving DecidableEq, Repr

/-- A `*Recorder` held by a proxy: nil, or the recorder of the run, whose events are
`World.events`. -/
inductive RecorderPtr where
  | nil
  | run
  deriving DecidableEq, Repr

/-- The state the proxies act on.  `SystemUnderTestDefaultName` is the package
constant of that name: it is declared outside the files embedded here, so its value
is left free. -/
structure World where
  SystemUnderTestDefaultName : String
  events : List Event
  clock : Nat
  stdout : List String
  calls : List Call

/-- The outcome of a Go call: it returns, or it panics. -/
inductive Outcome (α : Type) where
  | ret (a : α)
  | panic

/-- Appends a line to standard output: `fmt.Println`. -/
def World.println (w : World) (line : String) : World :=
  { w with stdout := w.stdout ++ [line] }

/-- Logs a call forwarded to the wrapped driver. -/
def World.forward (w : World) (c : Call) : World :=
  { w with calls := w.calls ++ [c] }

/-- Reads the clock: `time.Now().UTC()`.  A timestamp is the ordinal of the reading. -/
def World.now (w : World) : Nat × World :=
  (w.clock, { w with clock := w.clock + 1 })

/-- Modelled from the spec: `Recorder.AddMessageRequest` is declared outside the
files embedded here; the recorder is an append-only ordered store of trace events. -/
def World.AddMessageRequest (w : World) (m : MessageRequest) : World :=
  { w with events := w.events ++ [Event.MessageRequest m] }

/-- Modelled from the spec: `Recorder.AddMessageResponse` is declared outside the
files embedded here; the recorder is an append-only ordered store of trace events. -/
def World.AddMessageResponse (w : World) (m : MessageResponse) : World :=
  { w with events := w.events ++ [Event.MessageResponse m] }

/-! ## Formatting -/

/-- The verb `%d` on an integer. -/
def fmtInt (n : Int) : String :=
  if n < 0 then "-" ++ Nat.repr n.natAbs else Nat.repr n.toNat

/-- The verb `%+v` on one `driver.Value` held in an interface. -/
def fmtValue : Value → String
  | Value.null => "<nil>"
  | Value.int64 n => fmtInt n
  | Value.float64 text => text
  | Value.bool b => if b then "true" else "false"
  | Value.bytes bs => "[" ++ " ".intercalate (bs.map Nat.repr) ++ "]"
  | Value.string s => s
  | Value.time text => text

/-- The verb `%+v` on a `[]driver.Value`. -/
def fmtValues (args : List Value) : String :=
  "[" ++ " ".intercalate (args.map fmtValue) ++ "]"

/-- The call `fmt.Sprintf("%s %+v", query, args)`. -/
def sprintfQueryArgs (query : String) (args : List Value) : String :=
  query ++ " " ++ fmtValues args

/-- The Go `int` of a 64-bit platform: the value of an integer after wrap-around. -/
def wrapInt (x : Int) : Int :=
  (x + 2 ^ 63) % 2 ^ 64 - 2 ^ 63

/-- The function `namedValueToValue`. -/
def namedValueToValue : List NamedValue → List Value × Option Error
  | [] => ([], none)
  | param :: rest =>
    if param.Name.length > 0 then
      ([], some (Error.New "sql: driver does not support the use of Named Parameters"))
    else
      match namedValueToValue rest with
      | (dargs, none) => (param.Value :: dargs, none)
      | (_, some err) => ([], some err)

/-! ## Go types of the proxies and their method sets -/

/-- The methods declared on the connection proxies. -/
inductive ConnMethod where
  | Prepare
  | Close
  | Begin
  | Query
  | QueryContext
  | Exec
  | ExecContext
  | PrepareContext
  | BeginTx
  | Ping
  deriving DecidableEq, Repr

/-- The optional interfaces of a `driver.Conn`. -/
inductive ConnCapability where
  | Queryer
  | QueryerContext
  | Execer
  | ExecerContext
  | ConnPrepareContext
  | ConnBeginTx
  | Pinger
  deriving DecidableEq, Repr

/-- The single method of each optional interface. -/
def ConnCapability.method : ConnCapability → ConnMethod
  | ConnCapability.Queryer => ConnMethod.Query
  | ConnCapability.QueryerContext => ConnMethod.QueryContext
  | ConnCapability.Execer => ConnMethod.Exec
  | ConnCapability.ExecerContext => ConnMethod.ExecContext
  | ConnCapability.ConnPrepareContext => ConnMethod.PrepareContext
  | ConnCapability.ConnBeginTx => ConnMethod.BeginTx
  | ConnCapability.Pinger => ConnMethod.Ping

/-- All seven optional interfaces. -/
def ConnCapability.all : List ConnCapability :=
  [ConnCapability.Queryer, ConnCapability.QueryerContext, ConnCapability.Execer,
   ConnCapability.ExecerContext, ConnCapability.ConnPrepareContext,
   ConnCapability.ConnBeginTx, ConnCapability.Pinger]

/-- The struct types of the connection proxies. -/
inductive ConnType where
  | RecordingConn
  | RecordingConnWithQuery
  | RecordingConnWithQueryContext
  | RecordingConnWithExec
  | RecordingConnWithExecContext
  | RecordingConnWithPrepareContext
  | RecordingConnWithBeginTx
  | RecordingConnWithPing
  | RecordingConnWithExecQuery
  | RecordingConnWithExecQueryPrepareContext
  deriving DecidableEq, Repr

/-- The methods declared with the type as receiver. -/
def ConnType.declared : ConnType → List ConnMethod
  | ConnType.RecordingConn => [ConnMethod.Prepare, ConnMethod.Close, ConnMethod.Begin]
  | ConnType.RecordingConnWithQuery => [ConnMethod.Query]
  | ConnType.RecordingConnWithQueryContext => [ConnMethod.QueryContext]
  | ConnType.RecordingConnWithExec => [ConnMethod.Exec]
  | ConnType.RecordingConnWithExecContext => [ConnMethod.ExecContext]
  | ConnType.RecordingConnWithPrepareContext => [ConnMethod.PrepareContext]
  | ConnType.RecordingConnWithBeginTx => [ConnMethod.BeginTx]
  | ConnType.RecordingConnWithPing => [ConnMethod.Ping]
  | ConnType.RecordingConnWithExecQuery => []
  | ConnType.RecordingConnWithExecQueryPrepareContext => []

/-- The types embedded in the struct. -/
def ConnType.embedded : ConnType → List ConnType
  | ConnType.RecordingConn => []
  | ConnType.RecordingConnWithQuery => [ConnType.RecordingConn]
  | ConnType.RecordingConnWithQueryContext => [ConnType.RecordingConn]
  | ConnType.RecordingConnWithExec => [ConnType.RecordingConn]
  | ConnType.RecordingConnWithExecContext => [ConnType.RecordingConn]
  | ConnType.RecordingConnWithPrepareContext => [ConnType.RecordingConn]
  | ConnType.RecordingConnWithBeginTx => [ConnType.RecordingConn]
  | ConnType.RecordingConnWithPing => [ConnType.RecordingConn]
  | ConnType.RecordingConnWithExecQuery =>
    [ConnType.RecordingConn, ConnType.RecordingConnWithExec, ConnType.RecordingConnWithQuery]
  | ConnType.RecordingConnWithExecQueryPrepareContext =>
    [ConnType.RecordingConn, ConnType.RecordingConnWithPrepareContext,
     ConnType.RecordingConnWithExecContext, ConnType.RecordingConnWithQueryContext,
     ConnType.RecordingConnWithBeginTx, ConnType.RecordingConnWithPing]

/-- The methods found at a given embedding depth of a struct type, with repetition. -/
def methodsAtDepth {T M : Type} (declared : T → List M) (embedded : T → List T) :
    Nat → T → List M
  | 0, t => declared t
  | d + 1, t => (embedded t).flatMap (methodsAtDepth declared embedded d)

/-- Go's selector rule: a method is promoted from the shallowest depth at which it
occurs, if it occurs there once. -/
def selects {T M : Type} [DecidableEq M] (declared : T → List M) (embedded : T → List T)
    (t : T) (m : M) : Nat → Nat → Bool
  | 0, _ => false
  | fuel + 1, d =>
    match (methodsAtDepth declared embedded d t).count m with
    | 0 => selects declared embedded t m fuel (d + 1)
    | 1 => true
    | _ => false

/-- Whether the method is in the method set of a pointer to the struct; no embedding
here is deeper than two. -/
def ConnType.hasMethod (t : ConnType) (m : ConnMethod) : Bool :=
  selects ConnType.declared ConnType.embedded t m 3 0

/-- The methods declared on the statement proxies. -/
inductive StmtMethod where
  | Close
  | NumInput
  | Exec
  | Query
  | ExecContext
  | QueryContext
  deriving DecidableEq, Repr

/-- The optional interfaces of a `driver.Stmt`. -/
inductive StmtCapability where
  | StmtExecContext
  | StmtQueryContext
  deriving DecidableEq, Repr

/-- The single method of each optional statement interface. -/
def StmtCapability.method : StmtCapability → StmtMethod
  | StmtCapability.StmtExecContext => StmtMethod.ExecContext
  | StmtCapability.StmtQueryContext => StmtMethod.QueryContext

/-- The struct types of the statement proxies. -/
inductive StmtType where
  | RecordingStmt
  | RecordingStmtWithExecContext
  | RecordingStmtWithQueryContext
  | RecordingStmtWithExecQueryContext
  deriving DecidableEq, Repr

/-- The methods declared with the statement type as receiver. -/
def StmtType.declared : StmtType → List StmtMethod
  | StmtType.RecordingStmt =>
    [StmtMethod.Close, StmtMethod.NumInput, StmtMethod.Exec, StmtMethod.Query]
  | StmtType.RecordingStmtWithExecContext => [StmtMethod.ExecContext]
  | StmtType.RecordingStmtWithQueryContext => [StmtMethod.QueryContext]
  | StmtType.RecordingStmtWithExecQueryContext => []

/-- The types embedded in the statement struct. -/
def StmtType.embedded : StmtType → List StmtType
  | StmtType.RecordingStmt => []
  | StmtType.RecordingStmtWithExecContext => [StmtType.RecordingStmt]
  | StmtType.RecordingStmtWithQueryContext => [StmtType.RecordingStmt]
  | StmtType.RecordingStmtWithExecQueryContext =>
    [StmtType.RecordingStmt, StmtType.RecordingStmtWithExecContext,
     StmtType.RecordingStmtWithQueryContext]

/-- Whether the method is in the method set of a pointer to the statement struct. -/
def StmtType.hasMethod (t : StmtType) (m : StmtMethod) : Bool :=
  selects StmtType.declared StmtType.embedded t m 3 0

/-! ## The proxies -/

/-- The struct `RecordingDriver`. -/
structure RecordingDriver where
  Driver : Option Driver
  recorder : RecorderPtr
  sourceName : String

/-- The struct `RecordingConnector`. -/
structure RecordingConnector where
  Connector : Option DriverConnector
  recorder : RecorderPtr
  sourceName : String

/-- The struct `RecordingConn`. -/
structure RecordingConn where
  Conn : Option DriverConn
  recorder : RecorderPtr
  sourceName : String

/-- The struct `RecordingStmt`. -/
structure RecordingStmt where
  Stmt : Option DriverStmt
  recorder : RecorderPtr
  sourceName : String
  query : String

/-- The struct `RecordingRows`. -/
structure RecordingRows where
  Rows : Option DriverRows
  recorder : RecorderPtr
  sourceName : String
  RowsFound : Int

/-- A `driver.Conn` returned by a proxy: nil, the wrapped connection itself, or a
pointer to one of the proxy structs, all of whose fragments share one
`RecordingConn`. -/
inductive ConnValue where
  | nil
  | real (c : DriverConn)
  | proxy (t : ConnType) (recordingConn : RecordingConn)

/-- A wrapped connection as the interface value the proxy hands back. -/
def ConnValue.ofDriver : Option DriverConn → ConnValue
  | none => ConnValue.nil
  | some c => ConnValue.real c

/-- The type assertion `conn.(X)` on a wrapped connection. -/
def DriverConn.implements (c : DriverConn) : ConnCapability → Bool
  | ConnCapability.Queryer => c.Queryer.isSome
  | ConnCapability.QueryerContext => c.QueryerContext.isSome
  | ConnCapability.Execer => c.Execer.isSome
  | ConnCapability.ExecerContext => c.ExecerContext.isSome
  | ConnCapability.ConnPrepareContext => c.ConnPrepareContext.isSome
  | ConnCapability.ConnBeginTx => c.ConnBeginTx.isSome
  | ConnCapability.Pinger => c.Pinger.isSome

/-- The type assertion `conn.(X)` on an interface value that may be nil. -/
def connImplements : Option DriverConn → ConnCapability → Bool
  | none, _ => false
  | some c, X => c.implements X

/-- The type assertion `conn.(X)` on a connection handed back by a proxy. -/
def ConnValue.implements : ConnValue → ConnCapability → Bool
  | ConnValue.nil, _ => false
  | ConnValue.real c, X => c.implements X
  | ConnValue.proxy t _, X => t.hasMethod X.method

/-- A `driver.Stmt` returned by a proxy: nil, the wrapped statement itself, or a
pointer to one of the statement proxy structs, whose fragments share one
`RecordingStmt`. -/
inductive StmtValue where
  | nil
  | real (s : DriverStmt)
  | proxy (t : StmtType) (recordingStmt : RecordingStmt)

/-- A wrapped statement as the interface value the proxy hands back. -/
def StmtValue.ofDriver : Option DriverStmt → StmtValue
  | none => StmtValue.nil
  | some s => StmtValue.real s

/-- A `driver.Rows` returned by a proxy: nil, the wrapped row set itself, or a
pointer to a `RecordingRows`. -/
inductive RowsValue where
  | nil
  | real (r : DriverRows)
  | proxy (rows : RecordingRows)

/-- A wrapped row set as the interface value the proxy hands back. -/
def RowsValue.ofDriver : Option DriverRows → RowsValue
  | none => RowsValue.nil
  | some r => RowsValue.real r

/-- The type assertion `stmt.(X)` on a wrapped statement. -/
def DriverStmt.implements (s : DriverStmt) : StmtCapability → Bool
  | StmtCapability.StmtExecContext => s.StmtExecContext.isSome
  | StmtCapability.StmtQueryContext => s.StmtQueryContext.isSome

/-- The type assertion `stmt.(X)` on an interface value that may be nil. -/
def stmtImplements : Option DriverStmt → StmtCapability → Bool
  | none, _ => false
  | some s, X => s.implements X

/-- The type assertion `stmt.(X)` on a statement handed back by a proxy. -/
def StmtValue.implements : StmtValue → StmtCapability → Bool
  | StmtValue.nil, _ => false
  | StmtValue.real s, X => s.implements X
  | StmtValue.proxy t _, X => t.hasMethod X.method

/-! ## The blocks the operations share -/

/-- The statement
`recorder.AddMessageRequest(MessageRequest{Source: SystemUnderTestDefaultName,
Target: sourceName, Header: "SQL Query", Body: recorderBody, Timestamp: time.Now().UTC()})`. -/
def World.recordRequest (w : World) (sourceName recorderBody : String) : World :=
  let t := w.now
  t.2.AddMessageRequest
    { Source := w.SystemUnderTestDefaultName, Target := sourceName, Header := "SQL Query",
      Body := recorderBody, Timestamp := t.1 }

/-- The statement
`recorder.AddMessageResponse(MessageResponse{Source: sourceName,
Target: SystemUnderTestDefaultName, Header: "SQL Result", Body: body,
Timestamp: time.Now().UTC()})`. -/
def World.recordResponse (w : World) (sourceName body : String) : World :=
  let t := w.now
  t.2.AddMessageResponse
    { Source := sourceName, Target := w.SystemUnderTestDefaultName, Header := "SQL Result",
      Body := body, Timestamp := t.1 }

/-- The block `recorderBody := query; if len(args) > 0 { recorderBody =
fmt.Sprintf("%s %+v", query, args) }` of the synchronous operations. -/
def recorderBody (query : String) (args : List Value) : String :=
  if args.length > 0 then sprintfQueryArgs query args else query

/-- The same block in the context-aware operations, where the arguments are first
converted by `namedValueToValue`: the body, or the `convertErr` the operation returns. -/
def recorderBodyNamed (query : String) (args : List NamedValue) : Except Error String :=
  if args.length > 0 then
    match namedValueToValue args with
    | (_, some convertErr) => Except.error convertErr
    | (convertedArgs, none) => Except.ok (sprintfQueryArgs query convertedArgs)
  else
    Except.ok query

/-- The block `if result != nil && recorder != nil { rowsAffected, _ :=
result.RowsAffected(); recorder.AddMessageResponse(...) }`; `body` renders the count. -/
def World.recordResult (w : World) (recorder : RecorderPtr) (sourceName : String)
    (result : Option DriverResult) (body : Int → String) : World :=
  match result with
  | none => w
  | some res =>
    if recorder ≠ RecorderPtr.nil then
      let rowsAffected := res.RowsAffected.1
      (w.forward Call.ResultRowsAffected).recordResponse sourceName (body rowsAffected)
    else
      w

/-- The format `"Affected rows: %d"`. -/
def affectedRows (rowsAffected : Int) : String :=
  "Affected rows: " ++ fmtInt rowsAffected

/-- The probing of the statement and the choice of the proxy type in
`RecordingConn.Prepare`. -/
def prepareStmtType (stmt : Option DriverStmt) : StmtType :=
  let isStmtQueryContext := stmtImplements stmt StmtCapability.StmtQueryContext
  let isStmtExecContext := stmtImplements stmt StmtCapability.StmtExecContext
  if isStmtQueryContext && isStmtExecContext then
    StmtType.RecordingStmtWithExecQueryContext
  else
    StmtType.RecordingStmt

/-- The probing of the statement and the choice of the proxy type in
`RecordingConnWithPrepareContext.PrepareContext`. -/
def prepareContextStmtType (stmt : Option DriverStmt) : StmtType :=
  let isStmtQueryContext := stmtImplements stmt StmtCapability.StmtQueryContext
  let isStmtExecContext := stmtImplements stmt StmtCapability.StmtExecContext
  if isStmtQueryContext && isStmtExecContext then
    StmtType.RecordingStmtWithExecQueryContext
  else if isStmtQueryContext then
    StmtType.RecordingStmtWithQueryContext
  else if isStmtExecContext then
    StmtType.RecordingStmtWithExecContext
  else
    StmtType.RecordingStmt

/-- The probing of the connection and the choice of the proxy type in
`RecordingDriver.Open` (and in the `Connect` of `x/db`). -/
def openConnType (conn : Option DriverConn) : ConnType :=
  let isConnQuery := connImplements conn ConnCapability.Queryer
  let isConnQueryCtx := connImplements conn ConnCapability.QueryerContext
  let isConnExec := connImplements conn ConnCapability.Execer
  let isConnExecCtx := connImplements conn ConnCapability.ExecerContext
  let isConnPrepareCtx := connImplements conn ConnCapability.ConnPrepareContext
  if isConnQueryCtx && isConnExecCtx && isConnPrepareCtx then
    ConnType.RecordingConnWithExecQueryPrepareContext
  else if isConnQuery && isConnExec then
    ConnType.RecordingConnWithExecQuery
  else
    ConnType.RecordingConn

/-! ## Package `apitest`: `db.go` -/

/-- The method `(*RecordingDriver).Open` of `db.go`. -/
def RecordingDriver.Open (d : RecordingDriver) (name : String) (w : World) :
    Outcome (ConnValue × Option Error) × World :=
  let w := w.println "Driver Debug: Driver Open"
  match d.Driver with
  | none => (Outcome.panic, w)
  | some drv =>
    let w := w.forward (Call.DriverOpen name)
    let out := drv.Open name
    let conn := out.1
    let err := out.2
    if err ≠ none then
      (Outcome.ret (ConnValue.ofDriver conn, err), w)
    else
      let recordingConn : RecordingConn :=
        { Conn := conn, recorder := d.recorder, sourceName := d.sourceName }
      (Outcome.ret (ConnValue.proxy (openConnType conn) recordingConn, none), w)

/-- The method `(*RecordingDriverContext).OpenConnector` of `db.go`. -/
def RecordingDriverContext.OpenConnector (d : RecordingDriver) (name : String) (w : World) :
    Outcome (Option RecordingConnector × Option Error) × World :=
  let w := w.println "Driver Debug: Driver OpenConnector"
  match d.Driver.bind Driver.DriverContext with
  | some openConnector =>
    let w := w.forward (Call.DriverOpenConnector name)
    let out := openConnector name
    let connector := out.1
    let err := out.2
    if err ≠ none then
      (Outcome.ret (none, err), w)
    else
      (Outcome.ret
        (some { recorder := d.recorder, sourceName := d.sourceName, Connector := connector },
         none), w)
  | none => (Outcome.ret (none, some (Error.New "OpenConnector not implemented")), w)

/-- The method `(*RecordingConnector).Connect` of `db.go`. -/
def RecordingConnector.Connect (c : RecordingConnector) (w : World) :
    Outcome (ConnValue × Option Error) × World :=
  let w := w.println "Driver Debug: Connector Connect"
  match c.Connector with
  | none => (Outcome.panic, w)
  | some connector =>
    let w := w.forward Call.ConnectorConnect
    let out := connector.Connect
    let conn := out.1
    let err := out.2
    if err ≠ none then
      (Outcome.ret (ConnValue.ofDriver conn, err), w)
    else
      let recordingConn : RecordingConn :=
        { Conn := conn, recorder := c.recorder, sourceName := c.sourceName }
      if connImplements conn ConnCapability.ConnPrepareContext then
        (Outcome.ret
          (ConnValue.proxy ConnType.RecordingConnWithPrepareContext recordingConn, none), w)
      else
        (Outcome.ret (ConnValue.proxy ConnType.RecordingConn recordingConn, none), w)

/-- The method `(*RecordingConn).Prepare` of `db.go`. -/
def RecordingConn.Prepare (conn : RecordingConn) (query : String) (w : World) :
    Outcome (StmtValue × Option Error) × World :=
  let w := w.println "Driver Debug: Conn Prepare"
  match conn.Conn with
  | none => (Outcome.panic, w)
  | some c =>
    let w := w.forward (Call.ConnPrepare query)
    let out := c.Prepare query
    let stmt := out.1
    let err := out.2
    if err ≠ none then
      (Outcome.ret (StmtValue.ofDriver stmt, err), w)
    else
      let s : RecordingStmt :=
        { Stmt := stmt, recorder := conn.recorder, query := query,
          sourceName := conn.sourceName }
      (Outcome.ret (StmtValue.proxy (prepareStmtType stmt) s, none), w)

/-- The method `(*RecordingConn).Close` of `db.go`. -/
def RecordingConn.Close (conn : RecordingConn) (w : World) :
    Outcome (Option Error) × World :=
  match conn.Conn with
  | none => (Outcome.panic, w)
  | some c => (Outcome.ret c.Close, w.forward Call.ConnClose)

/-- The method `(*RecordingConn).Begin` of `db.go`. -/
def RecordingConn.Begin (conn : RecordingConn) (w : World) :
    Outcome (Option DriverTx × Option Error) × World :=
  match conn.Conn with
  | none => (Outcome.panic, w)
  | some c => (Outcome.ret c.Begin, w.forward Call.ConnBegin)

/-- The method `(*RecordingConnWithQuery).Query` of `db.go`. -/
def RecordingConnWithQuery.Query (conn : RecordingConn) (query : String) (args : List Value)
    (w : World) : Outcome (RowsValue × Option Error) × World :=
  let w := w.println "Driver Debug: Conn Query"
  match conn.Conn.bind DriverConn.Queryer with
  | some connQuery =>
    let w := w.forward (Call.ConnQuery query args)
    let out := connQuery query args
    let rows := out.1
    let err := out.2
    if err ≠ none then
      (Outcome.ret (RowsValue.ofDriver rows, err), w)
    else
      let w :=
        if conn.recorder ≠ RecorderPtr.nil then
          w.recordRequest conn.sourceName (recorderBody query args)
        else w
      (Outcome.ret
        (RowsValue.proxy
          { Rows := rows, recorder := conn.recorder, sourceName := conn.sourceName,
            RowsFound := 0 }, err), w)
  | none => (Outcome.ret (RowsValue.nil, some (Error.New "Queryer not implemented")), w)

/-- The method `(*RecordingConnWithQueryContext).QueryContext` of `db.go`.  The
block that records the request stands after the `if` that forwards the call, not
inside it; `rows` and `err` stay nil when the call is not forwarded, so the early
`return rows, err` is taken after a forwarded call only. -/
def RecordingConnWithQueryContext.QueryContext (conn : RecordingConn) (query : String)
    (args : List NamedValue) (w : World) : Outcome (RowsValue × Option Error) × World :=
  let w := w.println "Driver Debug: Conn QueryContext"
  let forwarded : (Option DriverRows × Option Error) × World :=
    match conn.Conn.bind DriverConn.QueryerContext with
    | some connQueryCtx =>
      (connQueryCtx query args, w.forward (Call.ConnQueryContext query args))
    | none => ((none, none), w)
  let rows := forwarded.1.1
  let err := forwarded.1.2
  let w := forwarded.2
  if err ≠ none then
    (Outcome.ret (RowsValue.ofDriver rows, err), w)
  else if conn.recorder ≠ RecorderPtr.nil then
    match recorderBodyNamed query args with
    | Except.error convertErr => (Outcome.ret (RowsValue.nil, some convertErr), w)
    | Except.ok body =>
      let w := w.recordRequest conn.sourceName body
      (Outcome.ret
        (RowsValue.proxy
          { Rows := rows, recorder := conn.recorder, sourceName := conn.sourceName,
            RowsFound := 0 }, err), w)
  else
    (Outcome.ret (RowsValue.nil, some (Error.New "QueryerContext not implemented")), w)

/-- The method `(*RecordingConnWithExec).Exec` of `db.go`. -/
def RecordingConnWithExec.Exec (conn : RecordingConn) (query : String) (args : List Value)
    (w : World) : Outcome (Option DriverResult × Option Error) × World :=
  let w := w.println "Driver Debug: Conn Exec"
  match conn.Conn.bind DriverConn.Execer with
  | some connExec =>
    let w := w.forward (Call.ConnExec query args)
    let out := connExec query args
    let result := out.1
    let err := out.2
    if err ≠ none then
      (Outcome.ret (result, err), w)
    else
      let w :=
        if conn.recorder ≠ RecorderPtr.nil then
          w.recordRequest conn.sourceName (recorderBody query args)
        else w
      let w := w.recordResult conn.recorder conn.sourceName result affectedRows
      (Outcome.ret (result, err), w)
  | none => (Outcome.ret (none, some (Error.New "Execer not implemented")), w)

/-- The method `(*RecordingConnWithExecContext).ExecContext` of `db.go`. -/
def RecordingConnWithExecContext.ExecContext (conn : RecordingConn) (query : String)
    (args : List NamedValue) (w : World) :
    Outcome (Option DriverResult × Option Error) × World :=
  let w := w.println "Driver Debug: Conn ExecContext"
  match conn.Conn.bind DriverConn.ExecerContext with
  | some connExecCtx =>
    let w := w.forward (Call.ConnExecContext query args)
    let out := connExecCtx query args
    let result := out.1
    let err := out.2
    if err ≠ none then
      (Outcome.ret (result, err), w)
    else if conn.recorder ≠ RecorderPtr.nil then
      match recorderBodyNamed query args with
      | Except.error convertErr => (Outcome.ret (none, some convertErr), w)
      | Except.ok body =>
        let w := w.recordRequest conn.sourceName body
        let w := w.recordResult conn.recorder conn.sourceName result affectedRows
        (Outcome.ret (result, err), w)
    else
      let w := w.recordResult conn.recorder conn.sourceName result affectedRows
      (Outcome.ret (result, err), w)
  | none => (Outcome.ret (none, some (Error.New "ExecerContext not implemented")), w)

/-- The method `(*RecordingConnWithPrepareContext).PrepareContext` of `db.go`. -/
def RecordingConnWithPrepareContext.PrepareContext (conn : RecordingConn) (query : String)
    (w : World) : Outcome (StmtValue × Option Error) × World :=
  let w := w.println "Driver Debug: Conn PrepareContext"
  match conn.Conn.bind DriverConn.ConnPrepareContext with
  | some connPrepareCtx =>
    let w := w.forward (Call.ConnPrepareContext query)
    let out := connPrepareCtx query
    let stmt := out.1
    let err := out.2
    if err ≠ none then
      (Outcome.ret (StmtValue.ofDriver stmt, err), w)
    else
      let s : RecordingStmt :=
        { Stmt := stmt, recorder := conn.recorder, query := query,
          sourceName := conn.sourceName }
      (Outcome.ret (StmtValue.proxy (prepareContextStmtType stmt) s, none), w)
  | none =>
    (Outcome.ret (StmtValue.nil, some (Error.New "ConnPrepareContext not implemented")), w)

/-- The method `(*RecordingConnWithBeginTx).BeginTx` of `db.go`. -/
def RecordingConnWithBeginTx.BeginTx (conn : RecordingConn) (opts : TxOptions) (w : World) :
    Outcome (Option DriverTx × Option Error) × World :=
  let w := w.println "Driver Debug: Conn BeginTx"
  match conn.Conn.bind DriverConn.ConnBeginTx with
  | some connBeginTx => (Outcome.ret (connBeginTx opts), w.forward (Call.ConnBeginTx opts))
  | none => (Outcome.ret (none, some (Error.New "ConnBeginTx not implemented")), w)

/-- The method `(*RecordingConnWithPing).Ping` of `db.go`. -/
def RecordingConnWithPing.Ping (conn : RecordingConn) (w : World) :
    Outcome (Option Error) × World :=
  let w := w.println "Driver Debug: Conn Ping"
  match conn.Conn.bind DriverConn.Pinger with
  | some ping => (Outcome.ret ping, w.forward Call.ConnPing)
  | none => (Outcome.ret (some (Error.New "Pinger not implemented")), w)

/-- The method `(*RecordingStmt).Close` of `db.go`. -/
def RecordingStmt.Close (stmt : RecordingStmt) (w : World) :
    Outcome (Option Error) × World :=
  match stmt.Stmt with
  | none => (Outcome.panic, w)
  | some s => (Outcome.ret s.Close, w.forward Call.StmtClose)

/-- The method `(*RecordingStmt).NumInput` of `db.go`. -/
def RecordingStmt.NumInput (stmt : RecordingStmt) (w : World) : Outcome Int × World :=
  match stmt.Stmt with
  | none => (Outcome.panic, w)
  | some s => (Outcome.ret s.NumInput, w.forward Call.StmtNumInput)

/-- The method `(*RecordingStmt).Exec` of `db.go`. -/
def RecordingStmt.Exec (stmt : RecordingStmt) (args : List Value) (w : World) :
    Outcome (Option DriverResult × Option Error) × World :=
  let w := w.println "Driver Debug: Stmt Exec"
  match stmt.Stmt with
  | none => (Outcome.panic, w)
  | some s =>
    let w := w.forward (Call.StmtExec args)
    let out := s.Exec args
    let result := out.1
    let err := out.2
    let w :=
      if stmt.recorder ≠ RecorderPtr.nil then
        w.recordRequest stmt.sourceName (recorderBody stmt.query args)
      else w
    let w := w.recordResult stmt.recorder stmt.sourceName result affectedRows
    (Outcome.ret (result, err), w)

/-- The method `(*RecordingStmt).Query` of `db.go`. -/
def RecordingStmt.Query (stmt : RecordingStmt) (args : List Value) (w : World) :
    Outcome (RowsValue × Option Error) × World :=
  let w := w.println "Driver Debug: Stmt Query"
  match stmt.Stmt with
  | none => (Outcome.panic, w)
  | some s =>
    let w := w.forward (Call.StmtQuery args)
    let out := s.Query args
    let rows := out.1
    let err := out.2
    let w :=
      if stmt.recorder ≠ RecorderPtr.nil then
        w.recordRequest stmt.sourceName (recorderBody stmt.query args)
      else w
    (Outcome.ret
      (RowsValue.proxy
        { Rows := rows, recorder := stmt.recorder, sourceName := stmt.sourceName,
          RowsFound := 0 }, err), w)

/-- The method `(*RecordingStmtWithExecContext).ExecContext` of `db.go`; the body of
its response is `strconv.FormatInt(rowsAffected, 10)`. -/
def RecordingStmtWithExecContext.ExecContext (stmt : RecordingStmt) (args : List NamedValue)
    (w : World) : Outcome (Option DriverResult × Option Error) × World :=
  let w := w.println "Driver Debug: Stmt ExecContext"
  match stmt.Stmt.bind DriverStmt.StmtExecContext with
  | some stmtExecCtx =>
    let w := w.forward (Call.StmtExecContext args)
    let out := stmtExecCtx args
    let result := out.1
    let err := out.2
    if err ≠ none then
      (Outcome.ret (none, err), w)
    else if stmt.recorder ≠ RecorderPtr.nil then
      match recorderBodyNamed stmt.query args with
      | Except.error convertErr => (Outcome.ret (none, some convertErr), w)
      | Except.ok body =>
        let w := w.recordRequest stmt.sourceName body
        let w := w.recordResult stmt.recorder stmt.sourceName result fmtInt
        (Outcome.ret (result, err), w)
    else
      let w := w.recordResult stmt.recorder stmt.sourceName result fmtInt
      (Outcome.ret (result, err), w)
  | none => (Outcome.ret (none, some (Error.New "StmtExecContext not implemented")), w)

/-- The method `(*RecordingStmtWithQueryContext).QueryContext` of `db.go`. -/
def RecordingStmtWithQueryContext.QueryContext (stmt : RecordingStmt)
    (args : List NamedValue) (w : World) : Outcome (RowsValue × Option Error) × World :=
  let w := w.println "Driver Debug: Stmt QueryContext"
  match stmt.Stmt.bind DriverStmt.StmtQueryContext with
  | some stmtQueryCtx =>
    let w := w.forward (Call.StmtQueryContext args)
    let out := stmtQueryCtx args
    let rows := out.1
    let err := out.2
    if err ≠ none then
      (Outcome.ret (RowsValue.nil, err), w)
    else if stmt.recorder ≠ RecorderPtr.nil then
      match recorderBodyNamed stmt.query args with
      | Except.error convertErr => (Outcome.ret (RowsValue.nil, some convertErr), w)
      | Except.ok body =>
        let w := w.recordRequest stmt.sourceName body
        (Outcome.ret
          (RowsValue.proxy
            { Rows := rows, recorder := stmt.recorder, sourceName := stmt.sourceName,
              RowsFound := 0 }, err), w)
    else
      (Outcome.ret
        (RowsValue.proxy
          { Rows := rows, recorder := stmt.recorder, sourceName := stmt.sourceName,
            RowsFound := 0 }, err), w)
  | none => (Outcome.ret (RowsValue.nil, some (Error.New "StmtQueryContext not implemented")), w)

/-- The method `(*RecordingRows).Columns` of `db.go`. -/
def RecordingRows.Columns (rows : RecordingRows) (w : World) :
    Outcome (List String) × World :=
  match rows.Rows with
  | none => (Outcome.panic, w)
  | some r => (Outcome.ret r.Columns, w.forward Call.RowsColumns)

/-- The method `(*RecordingRows).Close` of `db.go`. -/
def RecordingRows.Close (rows : RecordingRows) (w : World) :
    Outcome (Option Error) × World :=
  let w := w.println "Driver Debug: Rows Close"
  let w :=
    if rows.recorder ≠ RecorderPtr.nil then
      w.recordResponse rows.sourceName ("Rows returned: " ++ fmtInt rows.RowsFound)
    else w
  match rows.Rows with
  | none => (Outcome.panic, w)
  | some r => (Outcome.ret r.Close, w.forward Call.RowsClose)

/-- The method `(*RecordingRows).Next` of `db.go`; it also gives the proxy after the
call, whose `RowsFound` and wrapped row set have moved on. -/
def RecordingRows.Next (rows : RecordingRows) (dest : List Value) (w : World) :
    Outcome (Option Error) × RecordingRows × World :=
  let w := w.println "Driver Debug: Rows Next"
  match rows.Rows with
  | none => (Outcome.panic, rows, w)
  | some r =>
    let w := w.forward (Call.RowsNext dest)
    let err := r.Next r.served dest
    let rows := { rows with Rows := some { r with served := r.served + 1 } }
    let rows :=
      if err ≠ some Error.EOF then
        { rows with RowsFound := wrapInt (rows.RowsFound + 1) }
      else rows
    (Outcome.ret err, rows, w)

/-! ## Package `db`: `x/db` -/

namespace Db

/-- The method `(*RecordingDriver).Open` of `x/db`. -/
def RecordingDriver.Open (d : RecordingDriver) (name : String) (w : World) :
    Outcome (ConnValue × Option Error) × World :=
  match d.Driver with
  | none => (Outcome.panic, w)
  | some drv =>
    let w := w.forward (Call.DriverOpen name)
    let out := drv.Open name
    let conn := out.1
    let err := out.2
    if err ≠ none then
      (Outcome.ret (ConnValue.nil, err), w)
    else
      let recordingConn : RecordingConn :=
        { Conn := conn, recorder := d.recorder, sourceName := d.sourceName }
      (Outcome.ret (ConnValue.proxy (openConnType conn) recordingConn, none), w)

/-- The method `(*RecordingDriverContext).OpenConnector` of `x/db`. -/
def RecordingDriverContext.OpenConnector (d : RecordingDriver) (name : String) (w : World) :
    Outcome (Option RecordingConnector × Option Error) × World :=
  match d.Driver.bind Driver.DriverContext with
  | some openConnector =>
    let w := w.forward (Call.DriverOpenConnector name)
    let out := openConnector name
    let connector := out.1
    let err := out.2
    if err ≠ none then
      (Outcome.ret (none, err), w)
    else
      (Outcome.ret
        (some { recorder := d.recorder, sourceName := d.sourceName, Connector := connector },
         none), w)
  | none => (Outcome.ret (none, some (Error.New "OpenConnector not implemented")), w)

/-- The method `(*RecordingConnector).Connect` of `x/db`. -/
def RecordingConnector.Connect (c : RecordingConnector) (w : World) :
    Outcome (ConnValue × Option Error) × World :=
  match c.Connector with
  | none => (Outcome.panic, w)
  | some connector =>
    let w := w.forward Call.ConnectorConnect
    let out := connector.Connect
    let conn := out.1
    let err := out.2
    if err ≠ none then
      (Outcome.ret (ConnValue.nil, err), w)
    else
      let recordingConn : RecordingConn :=
        { Conn := conn, recorder := c.recorder, sourceName := c.sourceName }
      (Outcome.ret (ConnValue.proxy (openConnType conn) recordingConn, none), w)

/-- The method `(*RecordingConn).Prepare` of `x/db`. -/
def RecordingConn.Prepare (conn : RecordingConn) (query : String) (w : World) :
    Outcome (StmtValue × Option Error) × World :=
  match conn.Conn with
  | none => (Outcome.panic, w)
  | some c =>
    let w := w.forward (Call.ConnPrepare query)
    let out := c.Prepare query
    let stmt := out.1
    let err := out.2
    if err ≠ none then
      (Outcome.ret (StmtValue.nil, err), w)
    else
      let s : RecordingStmt :=
        { Stmt := stmt, recorder := conn.recorder, query := query,
          sourceName := conn.sourceName }
      (Outcome.ret (StmtValue.proxy (prepareStmtType stmt) s, none), w)

/-- The method `(*RecordingConn).Close` of `x/db`. -/
def RecordingConn.Close (conn : RecordingConn) (w : World) :
    Outcome (Option Error) × World :=
  match conn.Conn with
  | none => (Outcome.panic, w)
  | some c => (Outcome.ret c.Close, w.forward Call.ConnClose)

/-- The method `(*RecordingConn).Begin` of `x/db`. -/
def RecordingConn.Begin (conn : RecordingConn) (w : World) :
    Outcome (Option DriverTx × Option Error) × World :=
  match conn.Conn with
  | none => (Outcome.panic, w)
  | some c => (Outcome.ret c.Begin, w.forward Call.ConnBegin)

/-- The method `(*RecordingConnWithQuery).Query` of `x/db`. -/
def RecordingConnWithQuery.Query (conn : RecordingConn) (query : String) (args : List Value)
    (w : World) : Outcome (RowsValue × Option Error) × World :=
  match conn.Conn.bind DriverConn.Queryer with
  | some connQuery =>
    let w := w.forward (Call.ConnQuery query args)
    let out := connQuery query args
    let rows := out.1
    let err := out.2
    if err ≠ none then
      (Outcome.ret (RowsValue.nil, err), w)
    else
      let w :=
        if conn.recorder ≠ RecorderPtr.nil then
          w.recordRequest conn.sourceName (recorderBody query args)
        else w
      (Outcome.ret
        (RowsValue.proxy
          { Rows := rows, recorder := conn.recorder, sourceName := conn.sourceName,
            RowsFound := 0 }, err), w)
  | none => (Outcome.ret (RowsValue.nil, some (Error.New "Queryer not implemented")), w)

/-- The method `(*RecordingConnWithQueryContext).QueryContext` of `x/db`. -/
def RecordingConnWithQueryContext.QueryContext (conn : RecordingConn) (query : String)
    (args : List NamedValue) (w : World) : Outcome (RowsValue × Option Error) × World :=
  match conn.Conn.bind DriverConn.QueryerContext with
  | some connQueryCtx =>
    let w := w.forward (Call.ConnQueryContext query args)
    let out := connQueryCtx query args
    let rows := out.1
    let err := out.2
    if err ≠ none then
      (Outcome.ret (RowsValue.nil, err), w)
    else if conn.recorder ≠ RecorderPtr.nil then
      match recorderBodyNamed query args with
      | Except.error convertErr => (Outcome.ret (RowsValue.nil, some convertErr), w)
      | Except.ok body =>
        let w := w.recordRequest conn.sourceName body
        (Outcome.ret
          (RowsValue.proxy
            { Rows := rows, recorder := conn.recorder, sourceName := conn.sourceName,
              RowsFound := 0 }, err), w)
    else
      (Outcome.ret
        (RowsValue.proxy
          { Rows := rows, recorder := conn.recorder, sourceName := conn.sourceName,
            RowsFound := 0 }, err), w)
  | none => (Outcome.ret (RowsValue.nil, some (Error.New "QueryerContext not implemented")), w)

/-- The method `(*RecordingConnWithExec).Exec` of `x/db`. -/
def RecordingConnWithExec.Exec (conn : RecordingConn) (query : String) (args : List Value)
    (w : World) : Outcome (Option DriverResult × Option Error) × World :=
  match conn.Conn.bind DriverConn.Execer with
  | some connExec =>
    let w := w.forward (Call.ConnExec query args)
    let out := connExec query args
    let result := out.1
    let err := out.2
    if err ≠ none then
      (Outcome.ret (none, err), w)
    else
      let w :=
        if conn.recorder ≠ RecorderPtr.nil then
          w.recordRequest conn.sourceName (recorderBody query args)
        else w
      let w := w.recordResult conn.recorder conn.sourceName result affectedRows
      (Outcome.ret (result, err), w)
  | none => (Outcome.ret (none, some (Error.New "Execer not implemented")), w)

/-- The method `(*RecordingConnWithExecContext).ExecContext` of `x/db`. -/
def RecordingConnWithExecContext.ExecContext (conn : RecordingConn) (query : String)
    (args : List NamedValue) (w : World) :
    Outcome (Option DriverResult × Option Error) × World :=
  match conn.Conn.bind DriverConn.ExecerContext with
  | some connExecCtx =>
    let w := w.forward (Call.ConnExecContext query args)
    let out := connExecCtx query args
    let result := out.1
    let err := out.2
    if err ≠ none then
      (Outcome.ret (none, err), w)
    else if conn.recorder ≠ RecorderPtr.nil then
      match recorderBodyNamed query args with
      | Except.error convertErr => (Outcome.ret (none, some convertErr), w)
      | Except.ok body =>
        let w := w.recordRequest conn.sourceName body
        let w := w.recordResult conn.recorder conn.sourceName result affectedRows
        (Outcome.ret (result, err), w)
    else
      let w := w.recordResult conn.recorder conn.sourceName result affectedRows
      (Outcome.ret (result, err), w)
  | none => (Outcome.ret (none, some (Error.New "ExecerContext not implemented")), w)

/-- The method `(*RecordingConnWithPrepareContext).PrepareContext` of `x/db`. -/
def RecordingConnWithPrepareContext.PrepareContext (conn : RecordingConn) (query : String)
    (w : World) : Outcome (StmtValue × Option Error) × World :=
  match conn.Conn.bind DriverConn.ConnPrepareContext with
  | some connPrepareCtx =>
    let w := w.forward (Call.ConnPrepareContext query)
    let out := connPrepareCtx query
    let stmt := out.1
    let err := out.2
    if err ≠ none then
      (Outcome.ret (StmtValue.nil, err), w)
    else
      let s : RecordingStmt :=
        { Stmt := stmt, recorder := conn.recorder, query := query,
          sourceName := conn.sourceName }
      (Outcome.ret (StmtValue.proxy (prepareContextStmtType stmt) s, none), w)
  | none =>
    (Outcome.ret (StmtValue.nil, some (Error.New "ConnPrepareContext not implemented")), w)

/-- The method `(*RecordingConnWithBeginTx).BeginTx` of `x/db`. -/
def RecordingConnWithBeginTx.BeginTx (conn : RecordingConn) (opts : TxOptions) (w : World) :
    Outcome (Option DriverTx × Option Error) × World :=
  match conn.Conn.bind DriverConn.ConnBeginTx with
  | some connBeginTx => (Outcome.ret (connBeginTx opts), w.forward (Call.ConnBeginTx opts))
  | none => (Outcome.ret (none, some (Error.New "ConnBeginTx not implemented")), w)

/-- The method `(*RecordingConnWithPing).Ping` of `x/db`. -/
def RecordingConnWithPing.Ping (conn : RecordingConn) (w : World) :
    Outcome (Option Error) × World :=
  match conn.Conn.bind DriverConn.Pinger with
  | some ping => (Outcome.ret ping, w.forward Call.ConnPing)
  | none => (Outcome.ret (some (Error.New "Pinger not implemented")), w)

/-- The method `(*RecordingStmt).Close` of `x/db`. -/
def RecordingStmt.Close (stmt : RecordingStmt) (w : World) :
    Outcome (Option Error) × World :=
  match stmt.Stmt with
  | none => (Outcome.panic, w)
  | some s => (Outcome.ret s.Close, w.forward Call.StmtClose)

/-- The method `(*RecordingStmt).NumInput` of `x/db`. -/
def RecordingStmt.NumInput (stmt : RecordingStmt) (w : World) : Outcome Int × World :=
  match stmt.Stmt with
  | none => (Outcome.panic, w)
  | some s => (Outcome.ret s.NumInput, w.forward Call.StmtNumInput)

/-- The method `(*RecordingStmt).Exec` of `x/db`. -/
def RecordingStmt.Exec (stmt : RecordingStmt) (args : List Value) (w : World) :
    Outcome (Option DriverResult × Option Error) × World :=
  match stmt.Stmt with
  | none => (Outcome.panic, w)
  | some s =>
    let w := w.forward (Call.StmtExec args)
    let out := s.Exec args
    let result := out.1
    let err := out.2
    let w :=
      if stmt.recorder ≠ RecorderPtr.nil then
        w.recordRequest stmt.sourceName (recorderBody stmt.query args)
      else w
    let w := w.recordResult stmt.recorder stmt.sourceName result affectedRows
    (Outcome.ret (result, err), w)

/-- The method `(*RecordingStmt).Query` of `x/db`. -/
def RecordingStmt.Query (stmt : RecordingStmt) (args : List Value) (w : World) :
    Outcome (RowsValue × Option Error) × World :=
  match stmt.Stmt with
  | none => (Outcome.panic, w)
  | some s =>
    let w := w.forward (Call.StmtQuery args)
    let out := s.Query args
    let rows := out.1
    let err := out.2
    let w :=
      if stmt.recorder ≠ RecorderPtr.nil then
        w.recordRequest stmt.sourceName (recorderBody stmt.query args)
      else w
    (Outcome.ret
      (RowsValue.proxy
        { Rows := rows, recorder := stmt.recorder, sourceName := stmt.sourceName,
          RowsFound := 0 }, err), w)

/-- The method `(*RecordingStmtWithExecContext).ExecContext` of `x/db`. -/
def RecordingStmtWithExecContext.ExecContext (stmt : RecordingStmt) (args : List NamedValue)
    (w : World) : Outcome (Option DriverResult × Option Error) × World :=
  match stmt.Stmt.bind DriverStmt.StmtExecContext with
  | some stmtExecCtx =>
    let w := w.forward (Call.StmtExecContext args)
    let out := stmtExecCtx args
    let result := out.1
    let err := out.2
    if err ≠ none then
      (Outcome.ret (none, err), w)
    else if stmt.recorder ≠ RecorderPtr.nil then
      match recorderBodyNamed stmt.query args with
      | Except.error convertErr => (Outcome.ret (none, some convertErr), w)
      | Except.ok body =>
        let w := w.recordRequest stmt.sourceName body
        let w := w.recordResult stmt.recorder stmt.sourceName result affectedRows
        (Outcome.ret (result, err), w)
    else
      let w := w.recordResult stmt.recorder stmt.sourceName result affectedRows
      (Outcome.ret (result, err), w)
  | none => (Outcome.ret (none, some (Error.New "StmtExecContext not implemented")), w)

/-- The method `(*RecordingStmtWithQueryContext).QueryContext` of `x/db`. -/
def RecordingStmtWithQueryContext.QueryContext (stmt : RecordingStmt)
    (args : List NamedValue) (w : World) : Outcome (RowsValue × Option Error) × World :=
  match stmt.Stmt.bind DriverStmt.StmtQueryContext with
  | some stmtQueryCtx =>
    let w := w.forward (Call.StmtQueryContext args)
    let out := stmtQueryCtx args
    let rows := out.1
    let err := out.2
    if err ≠ none then
      (Outcome.ret (RowsValue.nil, err), w)
    else if stmt.recorder ≠ RecorderPtr.nil then
      match recorderBodyNamed stmt.query args with
      | Except.error convertErr => (Outcome.ret (RowsValue.nil, some convertErr), w)
      | Except.ok body =>
        let w := w.recordRequest stmt.sourceName body
        (Outcome.ret
          (RowsValue.proxy
            { Rows := rows, recorder := stmt.recorder, sourceName := stmt.sourceName,
              RowsFound := 0 }, err), w)
    else
      (Outcome.ret
        (RowsValue.proxy
          { Rows := rows, recorder := stmt.recorder, sourceName := stmt.sourceName,
            RowsFound := 0 }, err), w)
  | none => (Outcome.ret (RowsValue.nil, some (Error.New "StmtQueryContext not implemented")), w)

/-- The method `(*RecordingRows).Columns` of `x/db`. -/
def RecordingRows.Columns (rows : RecordingRows) (w : World) :
    Outcome (List String) × World :=
  match rows.Rows with
  | none => (Outcome.panic, w)
  | some r => (Outcome.ret r.Columns, w.forward Call.RowsColumns)

/-- The method `(*RecordingRows).Close` of `x/db`. -/
def RecordingRows.Close (rows : RecordingRows) (w : World) :
    Outcome (Option Error) × World :=
  let w :=
    if rows.recorder ≠ RecorderPtr.nil then
      w.recordResponse rows.sourceName ("Rows returned: " ++ fmtInt rows.RowsFound)
    else w
  match rows.Rows with
  | none => (Outcome.panic, w)
  | some r => (Outcome.ret r.Close, w.forward Call.RowsClose)

/-- The method `(*RecordingRows).Next` of `x/db`; it also gives the proxy after the
call, whose `RowsFound` and wrapped row set have moved on. -/
def RecordingRows.Next (rows : RecordingRows) (dest : List Value) (w : World) :
    Outcome (Option Error) × RecordingRows × World :=
  match rows.Rows with
  | none => (Outcome.panic, rows, w)
  | some r =>
    let w := w.forward (Call.RowsNext dest)
    let err := r.Next r.served dest
    let rows := { rows with Rows := some { r with served := r.served + 1 } }
    let rows :=
      if err ≠ some Error.EOF then
        { rows with RowsFound := wrapInt (rows.RowsFound + 1) }
      else rows
    (Outcome.ret err, rows, w)

end Db

/-! ## Capability sets and sample drivers -/

/-- The optional interfaces a wrapped connection implements, in the order of
`ConnCapability.all`. -/
def connCapabilities (c : Option DriverConn) : List ConnCapability :=
  ConnCapability.all.filter (connImplements c)

/-- The optional interfaces a connection handed back by a proxy implements. -/
def ConnValue.capabilities (v : ConnValue) : List ConnCapability :=
  ConnCapability.all.filter v.implements

/-- The events of the world after an operation. -/
def eventsAfter {α : Type} (out : α × World) : List Event :=
  out.2.events

/-- The calls forwarded to the wrapped driver after an operation. -/
def callsAfter {α : Type} (out : α × World) : List Call :=
  out.2.calls

/-- A world in which nothing has happened yet. -/
def sampleWorld : World :=
  { SystemUnderTestDefaultName := "sut", events := [], clock := 0, stdout := [], calls := [] }

/-- A result reporting `m` affected rows. -/
def sampleResult (m : Int) : DriverResult :=
  { LastInsertId := (0, none), RowsAffected := (m, none) }

/-- A row set that yields `n` rows and then `io.EOF`. -/
def sampleRows (n : Nat) : DriverRows :=
  { Columns := ["id", "name"], Close := none,
    Next := fun k _ => if k < n then none else some Error.EOF, served := 0 }

/-- A statement without optional interfaces. -/
def sampleStmt : DriverStmt :=
  { Close := none, NumInput := 0,
    Exec := fun _ => (some (sampleResult 1), none),
    Query := fun _ => (some (sampleRows 2), none),
    StmtExecContext := none, StmtQueryContext := none }

/-- A statement with both optional interfaces. -/
def sampleContextStmt : DriverStmt :=
  { sampleStmt with
    StmtExecContext := some (fun _ => (some (sampleResult 1), none)),
    StmtQueryContext := some (fun _ => (some (sampleRows 2), none)) }

/-- A connection without optional interfaces. -/
def sampleConn : DriverConn :=
  { Prepare := fun _ => (some sampleStmt, none), Close := none,
    Begin := (some { Commit := none, Rollback := none }, none),
    Queryer := none, QueryerContext := none, Execer := none, ExecerContext := none,
    ConnPrepareContext := none, ConnBeginTx := none, Pinger := none }

/-- A connection with exactly `driver.Queryer`. -/
def sampleQueryerConn : DriverConn :=
  { sampleConn with Queryer := some (fun _ _ => (some (sampleRows 2), none)) }

/-- A connection with exactly the synchronous `driver.Queryer` and `driver.Execer`. -/
def sampleSyncConn : DriverConn :=
  { sampleConn with
    Queryer := some (fun _ _ => (some (sampleRows 2), none)),
    Execer := some (fun _ _ => (some (sampleResult 1), none)) }

/-- A connection with exactly `driver.QueryerContext`, `driver.ExecerContext` and
`driver.ConnPrepareContext`. -/
def sampleContextConn : DriverConn :=
  { sampleConn with
    QueryerContext := some (fun _ _ => (some (sampleRows 2), none)),
    ExecerContext := some (fun _ _ => (some (sampleResult 1), none)),
    ConnPrepareContext := some (fun _ => (some sampleContextStmt, none)) }

/-- A connection with exactly the five context-aware interfaces. -/
def sampleFullContextConn : DriverConn :=
  { sampleContextConn with
    ConnBeginTx := some (fun _ => (some { Commit := none, Rollback := none }, none)),
    Pinger := some none }

/-- A driver whose `Open` yields the given connection. -/
def sampleDriver (c : DriverConn) : Driver :=
  { Open := fun _ => (some c, none), DriverContext := none }

/-- A driver proxy over `sampleDriver`, recording to the recorder of the run. -/
def sampleRecordingDriver (c : DriverConn) : RecordingDriver :=
  { Driver := some (sampleDriver c), recorder := RecorderPtr.run, sourceName := "db" }

/-- The error an operation returned, if it returned one. -/
def returnedError {α : Type} (out : Outcome (α × Option Error) × World) : Option Error :=
  match out.1 with
  | Outcome.ret (_, err) => err
  | Outcome.panic => none

/-- The error `namedValueToValue` makes. -/
def namedParametersError : Error :=
  Error.New "sql: driver does not support the use of Named Parameters"

/-- A statement whose `Exec` and `Query` fail without a result. -/
def sampleFailingStmt : DriverStmt :=
  { sampleStmt with
    Exec := fun _ => (none, some (Error.New "boom")),
    Query := fun _ => (none, some (Error.New "boom")) }

/-- A statement proxy over `sampleFailingStmt`, recording to the recorder of the run. -/
def sampleFailingRecordingStmt : RecordingStmt :=
  { Stmt := some sampleFailingStmt, recorder := RecorderPtr.run, sourceName := "db",
    query := "DELETE FROM users WHERE id = 1" }

/-- What C4 says of an exec-family call made in world `w`: it returns the result of
the wrapped call with a nil error, and it appends exactly two events, a
`MessageRequest` with the given body and then a `MessageResponse`. -/
def execRecorded (w : World) (body : String) (res : DriverResult)
    (out : Outcome (Option DriverResult × Option Error) × World) : Prop :=
  out.1 = Outcome.ret (some res, none) ∧
  ∃ req resp, out.2.events = w.events ++ [Event.MessageRequest req, Event.MessageResponse resp] ∧
    req.Body = body

/-- A result whose `RowsAffected` fails. -/
def sampleResultWithoutCount : DriverResult :=
  { LastInsertId := (0, none), RowsAffected := (0, some (Error.New "no RowsAffected")) }

/-- A statement with both optional interfaces whose results cannot report the
affected rows. -/
def sampleUncountedStmt : DriverStmt :=
  { sampleStmt with
    Exec := fun _ => (some sampleResultWithoutCount, none),
    StmtExecContext := some (fun _ => (some sampleResultWithoutCount, none)),
    StmtQueryContext := some (fun _ => (some (sampleRows 2), none)) }

/-- A connection with every optional interface whose results cannot report the
affected rows. -/
def sampleUncountedConn : DriverConn :=
  { sampleFullContextConn with
    Queryer := some (fun _ _ => (some (sampleRows 2), none)),
    Execer := some (fun _ _ => (some sampleResultWithoutCount, none)),
    ExecerContext := some (fun _ _ => (some sampleResultWithoutCount, none)) }

/-- A connection proxy over `sampleUncountedConn`, recording to the recorder of the
run. -/
def sampleUncountedRecordingConn : RecordingConn :=
  { Conn := some sampleUncountedConn, recorder := RecorderPtr.run, sourceName := "db" }

/-- A statement proxy over `sampleUncountedStmt`, recording to the recorder of the
run. -/
def sampleUncountedRecordingStmt : RecordingStmt :=
  { Stmt := some sampleUncountedStmt, recorder := RecorderPtr.run, sourceName := "db",
    query := "DELETE FROM users WHERE id = 1" }

/-- The type of the method `RecordingRows.Next` in this embedding. -/
abbrev NextOp : Type :=
  RecordingRows → List Value → World → Outcome (Option Error) × RecordingRows × World

/-- The type of the method `RecordingRows.Close` in this embedding. -/
abbrev CloseOp : Type :=
  RecordingRows → World → Outcome (Option Error) × World

/-- The caller's run of `Next` calls on a rows proxy, one for each destination in
turn, with the `Next` of either package; it stops at a panic.  It gives the errors
returned, the proxy after the calls and the world after the calls. -/
def nextAll
    (next : NextOp)
    (rows : RecordingRows) :
    List (List Value) → World → Outcome (List (Option Error)) × RecordingRows × World
  | [], w => (Outcome.ret [], rows, w)
  | dest :: rest, w =>
    match next rows dest w with
    | (Outcome.panic, rows1, w1) => (Outcome.panic, rows1, w1)
    | (Outcome.ret err, rows1, w1) =>
      match nextAll next rows1 rest w1 with
      | (Outcome.panic, rows2, w2) => (Outcome.panic, rows2, w2)
      | (Outcome.ret errs, rows2, w2) => (Outcome.ret (err :: errs), rows2, w2)

/-- What C5 says of a query-family call made in world `w`, for the `Next` and `Close`
of the same package: the call returns a rows proxy and a nil error and appends exactly
one `MessageRequest` with the given body; after any run of `Next` calls on that proxy
the recorder still ends with that request; a `Close` after the run appends exactly one
`MessageResponse`. -/
def queryRecorded
    (next : NextOp)
    (close : CloseOp)
    (w : World) (body : String) (out : Outcome (RowsValue × Option Error) × World) : Prop :=
  ∃ rows req,
    out.1 = Outcome.ret (RowsValue.proxy rows, none) ∧
    out.2.events = w.events ++ [Event.MessageRequest req] ∧
    req.Body = body ∧
    ∀ dests : List (List Value),
      (nextAll next rows dests out.2).2.2.events = w.events ++ [Event.MessageRequest req] ∧
      ∃ resp,
        (close (nextAll next rows dests out.2).2.1 (nextAll next rows dests out.2).2.2).2.events =
          w.events ++ [Event.MessageRequest req, Event.MessageResponse resp]

/-- One named parameter. -/
def sampleNamedArgs : List NamedValue :=
  [{ Name := "id", Ordinal := 1, Value := Value.int64 1 }]

/-- A connection proxy over `sampleUncountedConn` without a recorder. -/
def sampleSilentRecordingConn : RecordingConn :=
  { Conn := some sampleUncountedConn, recorder := RecorderPtr.nil, sourceName := "db" }

/-- A connection whose `ExecContext` fails with the error `boom`. -/
def sampleFailingConn : DriverConn :=
  { sampleFullContextConn with
    ExecerContext := some (fun _ _ => (none, some (Error.New "boom"))) }

/-- A connection proxy over `sampleFailingConn`, recording to the recorder of the run. -/
def sampleFailingRecordingConn : RecordingConn :=
  { Conn := some sampleFailingConn, recorder := RecorderPtr.run, sourceName := "db" }

/-- The body C8 describes for a request: the query text, followed, when there are
arguments, by one space and the rendered values in call order, space-separated inside
square brackets. -/
def describedBody (q : String) (rendered : List String) : String :=
  match rendered with
  | [] => q
  | _ :: _ => q ++ " " ++ ("[" ++ " ".intercalate rendered ++ "]")

/-- The first event an operation appended in world `w` is a `MessageRequest` with the
given body. -/
def requestBodyIs {α : Type} (w : World) (body : String) (out : α × World) : Prop :=
  ∃ req rest, out.2.events = w.events ++ Event.MessageRequest req :: rest ∧ req.Body = body

/-- The arguments `"Peter", 24` of the spec's example. -/
def samplePeterArgs : List Value :=
  [Value.string "Peter", Value.int64 24]

/-- The arguments `"Peter", 24` as positional parameters of a context-aware call. -/
def samplePeterNamedArgs : List NamedValue :=
  [{ Name := "", Ordinal := 1, Value := Value.string "Peter" },
   { Name := "", Ordinal := 2, Value := Value.int64 24 }]

/-- A statement proxy for the spec's example, prepared with its query text. -/
def sampleInsertRecordingStmt : RecordingStmt :=
  { Stmt := some sampleUncountedStmt, recorder := RecorderPtr.run, sourceName := "db",
    query := "INSERT INTO users(name, age) VALUES(?, ?)" }

/-- The wrapped row set yields `n` rows and then end-of-data: its first `n` calls of
`Next` return nil and the call after them returns `io.EOF`. -/
def yieldsRows (r : DriverRows) (n : Nat) : Prop :=
  (∀ k dest, k < n → r.Next k dest = none) ∧ ∀ dest, r.Next n dest = some Error.EOF

/-- The caller's use of a rows proxy, with the `Next` and `Close` of either package: a
run of `Next` calls and then `Close`.  It gives the errors of the `Next` calls and the
error of `Close`; a panic ends it. -/
def iterateAndClose
    (next : NextOp)
    (close : CloseOp)
    (rows : RecordingRows) (dests : List (List Value)) (w : World) :
    Outcome (List (Option Error) × Option Error) × World :=
  match nextAll next rows dests w with
  | (Outcome.panic, _, w1) => (Outcome.panic, w1)
  | (Outcome.ret errs, rows1, w1) =>
    match close rows1 w1 with
    | (Outcome.panic, w2) => (Outcome.panic, w2)
    | (Outcome.ret err, w2) => (Outcome.ret (errs, err), w2)

/-- The end-to-end scenario on package `apitest`: `Open`; on the connection proxy, if
it has the methods `Query` and `Exec`, `Query(q1)` without arguments; on the rows
proxy a run of `Next` calls and `Close`; then `Exec(q2)` without arguments.  It is
`none` when a step does not hand back what the next step needs. -/
def endToEnd (d : RecordingDriver) (name q1 q2 : String) (dests : List (List Value))
    (w : World) : Option (Outcome (Option DriverResult × Option Error) × World) :=
  match RecordingDriver.Open d name w with
  | (Outcome.ret (ConnValue.proxy t conn, none), w1) =>
    if t.hasMethod ConnMethod.Query && t.hasMethod ConnMethod.Exec then
      match RecordingConnWithQuery.Query conn q1 [] w1 with
      | (Outcome.ret (RowsValue.proxy rows, none), w2) =>
        match iterateAndClose RecordingRows.Next RecordingRows.Close rows dests w2 with
        | (Outcome.ret _, w3) => some (RecordingConnWithExec.Exec conn q2 [] w3)
        | (Outcome.panic, _) => none
      | _ => none
    else none
  | _ => none

/-- The end-to-end scenario on package `db` of `x/db`. -/
def Db.endToEnd (d : RecordingDriver) (name q1 q2 : String) (dests : List (List Value))
    (w : World) : Option (Outcome (Option DriverResult × Option Error) × World) :=
  match Db.RecordingDriver.Open d name w with
  | (Outcome.ret (ConnValue.proxy t conn, none), w1) =>
    if t.hasMethod ConnMethod.Query && t.hasMethod ConnMethod.Exec then
      match Db.RecordingConnWithQuery.Query conn q1 [] w1 with
      | (Outcome.ret (RowsValue.proxy rows, none), w2) =>
        match iterateAndClose Db.RecordingRows.Next Db.RecordingRows.Close rows dests w2 with
        | (Outcome.ret _, w3) => some (Db.RecordingConnWithExec.Exec conn q2 [] w3)
        | (Outcome.panic, _) => none
      | _ => none
    else none
  | _ => none

/-- The behaviour of `RecordingRows.Next` that the two packages share, on a proxy over
the row set `r`: it returns what the wrapped `Next` returns, moves the wrapped row set
on, adds one to `RowsFound` unless the error is `io.EOF`, and leaves the events, the
clock and the package constant as they were. -/
def NextSpec
    (next : NextOp) :
    Prop :=
  ∀ (rows : RecordingRows) (r : DriverRows) (dest : List Value) (w : World),
    rows.Rows = some r →
    ∃ w1, next rows dest w =
        (Outcome.ret (r.Next r.served dest),
         { rows with
           Rows := some { r with served := r.served + 1 },
           RowsFound :=
             if r.Next r.served dest ≠ some Error.EOF then wrapInt (rows.RowsFound + 1)
             else rows.RowsFound }, w1) ∧
      w1.events = w.events ∧ w1.clock = w.clock ∧
      w1.SystemUnderTestDefaultName = w.SystemUnderTestDefaultName

/-- The behaviour of `RecordingRows.Close` that the two packages share, on a proxy
with a recorder over the row set `r`: it appends one `MessageResponse` that reports
`RowsFound`, reads the clock once, and returns what the wrapped `Close` returns. -/
def CloseSpec (close : CloseOp) : Prop :=
  ∀ (rows : RecordingRows) (r : DriverRows) (w : World),
    rows.Rows = some r → rows.recorder ≠ RecorderPtr.nil →
    ∃ w1, close rows w = (Outcome.ret r.Close, w1) ∧
      w1.events = w.events ++ [Event.MessageResponse
        { Source := rows.sourceName, Target := w.SystemUnderTestDefaultName,
          Header := "SQL Result", Body := "Rows returned: " ++ fmtInt rows.RowsFound,
          Timestamp := w.clock }] ∧
      w1.clock = w.clock + 1 ∧
      w1.SystemUnderTestDefaultName = w.SystemUnderTestDefaultName

/-- A fresh rows proxy over a row set of `n` rows, recording to the recorder of the
run. -/
def sampleRecordingRows (n : Nat) : RecordingRows :=
  { Rows := some (sampleRows n), recorder := RecorderPtr.run, sourceName := "db",
    RowsFound := 0 }

/-! ## Errors returned, and more sample objects -/

/-- The error returned by an operation whose only result is an error, if it
returned one. -/
def onlyError (o : Outcome (Option Error)) : Option Error :=
  match o with
  | Outcome.ret err => err
  | Outcome.panic => none

/-- A connection proxy over `sampleConn`, which has no optional interface, recording
to the recorder of the run. -/
def samplePlainRecordingConn : RecordingConn :=
  { Conn := some sampleConn, recorder := RecorderPtr.run, sourceName := "db" }

/-- A statement proxy over `sampleContextStmt`, whose results report one affected row,
recording to the recorder of the run. -/
def sampleContextRecordingStmt : RecordingStmt :=
  { Stmt := some sampleContextStmt, recorder := RecorderPtr.run, sourceName := "db",
    query := "DELETE FROM users WHERE id = 1" }

/-- A driver whose `Open` and `OpenConnector` fail with the error `refused`. -/
def sampleRefusingDriver : Driver :=
  { Open := fun _ => (none, some (Error.New "refused")),
    DriverContext := some (fun _ => (none, some (Error.New "refused"))) }

/-- A driver proxy over `sampleRefusingDriver`, recording to the recorder of the run. -/
def sampleRefusingRecordingDriver : RecordingDriver :=
  { Driver := some sampleRefusingDriver, recorder := RecorderPtr.run, sourceName := "db" }

/-- A connector whose `Connect` fails with the error `refused`. -/
def sampleRefusingConnector : DriverConnector :=
  { Connect := (none, some (Error.New "refused")) }

/-- A connector proxy over `sampleRefusingConnector`, recording to the recorder of the
run. -/
def sampleRefusingRecordingConnector : RecordingConnector :=
  { Connector := some sampleRefusingConnector, recorder := RecorderPtr.run,
    sourceName := "db" }

/-- What C14 says of an exec-family call made in world `w`: it returns the result of
the wrapped call with a nil error, and the wrapped operation was invoked, before any
other forwarded call, with the arguments logged in `call`. -/
def passedThrough (w : World) (call : Call) (res : Option DriverResult)
    (out : Outcome (Option DriverResult × Option Error) × World) : Prop :=
  out.1 = Outcome.ret (res, none) ∧ ∃ rest, out.2.calls = w.calls ++ call :: rest

/-- The attribution of an event recorded for the source name `s`, with `sut` the
package constant `SystemUnderTestDefaultName`: a request goes from `sut` to `s` under
the header `SQL Query`, a response from `s` to `sut` under the header `SQL Result`. -/
def attributed (sut s : String) : Event → Prop
  | Event.MessageRequest m => m.Source = sut ∧ m.Target = s ∧ m.Header = "SQL Query"
  | Event.MessageResponse m => m.Source = s ∧ m.Target = sut ∧ m.Header = "SQL Result"
  | Event.HttpRequest => False
  | Event.HttpResponse => False

/-- The world `w1` comes from the world `w` by appending events that are all attributed
to the source name `s`. -/
def recordsFor (s : String) (w w1 : World) : Prop :=
  w1.SystemUnderTestDefaultName = w.SystemUnderTestDefaultName ∧
  ∃ appended, w1.events = w.events ++ appended ∧
    ∀ e ∈ appended, attributed w.SystemUnderTestDefaultName s e

/-! ## `WrapWithRecorder` -/

/-- The methods declared on the driver proxies. -/
inductive DriverMethod where
  | Open
  | OpenConnector
  deriving DecidableEq, Repr

/-- The struct types of the driver proxies. -/
inductive DriverType where
  | RecordingDriver
  | RecordingDriverContext
  deriving DecidableEq, Repr

/-- The methods declared with the driver type as receiver. -/
def DriverType.declared : DriverType → List DriverMethod
  | DriverType.RecordingDriver => [DriverMethod.Open]
  | DriverType.RecordingDriverContext => [DriverMethod.OpenConnector]

/-- The types embedded in the driver struct. -/
def DriverType.embedded : DriverType → List DriverType
  | DriverType.RecordingDriver => []
  | DriverType.RecordingDriverContext => [DriverType.RecordingDriver]

/-- Whether the method is in the method set of a pointer to the driver struct. -/
def DriverType.hasMethod (t : DriverType) (m : DriverMethod) : Bool :=
  selects DriverType.declared DriverType.embedded t m 3 0

/-- The `driver.Driver` that `WrapWithRecorder` returns: a pointer to one of the
driver proxy structs, over one `RecordingDriver`. -/
structure DriverValue where
  goType : DriverType
  recordingDriver : RecordingDriver

/-- A `*sql.DB` fresh from `sql.Open`, as far as `sqlDriverNameToDriver` reads it: its
connector, which is the `dsnConnector` that `database/sql` builds around a driver
without `driver.DriverContext`, or else what the `OpenConnector` of the driver handed
back. -/
inductive DB where
  | ofDriver (driver : Driver)
  | ofConnector (connector : Option DriverConnector)

/-- The function `sql.Open` of the Go standard library (package `database/sql`, which
is not part of this repository), over the registry `drivers` that `sql.Register` fills:
an unknown name is an error; a driver that implements `driver.DriverContext` is asked
for a connector, and its error is returned; any other driver is put in a
`dsnConnector`.  No connection is opened. -/
def sqlOpen (drivers : String → Option Driver) (driverName dataSourceName : String)
    (w : World) : (Option DB × Option Error) × World :=
  match drivers driverName with
  | none =>
    ((none,
      some (Error.New ("sql: unknown driver " ++ driverName.quote ++ " (forgotten import?)"))),
     w)
  | some driveri =>
    match driveri.DriverContext with
    | some openConnector =>
      let w := w.forward (Call.DriverOpenConnector dataSourceName)
      let out := openConnector dataSourceName
      let connector := out.1
      let err := out.2
      if err ≠ none then
        ((none, err), w)
      else
        ((some (DB.ofConnector connector), none), w)
    | none => ((some (DB.ofDriver driveri), none), w)

/-- The method `(*sql.DB).Driver` of the Go standard library: `db.connector.Driver()`.
A `dsnConnector` answers with its driver; any other connector answers what its own
`Driver()` returns, given by `driverOf`; on a nil connector the call panics. -/
def DB.Driver (driverOf : DriverConnector → Option Driver) : DB → Outcome (Option Driver)
  | DB.ofDriver driver => Outcome.ret (some driver)
  | DB.ofConnector (some connector) => Outcome.ret (driverOf connector)
  | DB.ofConnector none => Outcome.panic

/-- The function `sqlDriverNameToDriver` (the same in both packages); `driverOf` is the
`Driver()` of the connectors.  `db.Close()` on the fresh database has no connection to
close. -/
def sqlDriverNameToDriver (drivers : String → Option Driver)
    (driverOf : DriverConnector → Option Driver) (driverName : String) (w : World) :
    Outcome (Option Driver) × World :=
  let out := sqlOpen drivers driverName "" w
  let db := out.1.1
  match db with
  | some db => (DB.Driver driverOf db, out.2)
  | none => (Outcome.ret none, out.2)

/-- The function `WrapWithRecorder` of `db.go`, over the registry `drivers` of
`database/sql` and the `Driver()` of the connectors, `driverOf`. -/
def WrapWithRecorder (drivers : String → Option Driver)
    (driverOf : DriverConnector → Option Driver) (driverName : String)
    (recorder : RecorderPtr) (w : World) : Outcome DriverValue × World :=
  match sqlDriverNameToDriver drivers driverOf driverName w with
  | (Outcome.panic, w) => (Outcome.panic, w)
  | (Outcome.ret sqlDriver, w) =>
    if (sqlDriver.bind Driver.DriverContext).isSome then
      (Outcome.ret
        { goType := DriverType.RecordingDriverContext,
          recordingDriver :=
            { sourceName := driverName, Driver := sqlDriver, recorder := recorder } }, w)
    else
      (Outcome.ret
        { goType := DriverType.RecordingDriver,
          recordingDriver :=
            { sourceName := driverName, Driver := sqlDriver, recorder := recorder } }, w)

/-- The function `WrapWithRecorder` of `x/db`. -/
def Db.WrapWithRecorder (drivers : String → Option Driver)
    (driverOf : DriverConnector → Option Driver) (driverName : String)
    (recorder : RecorderPtr) (w : World) : Outcome DriverValue × World :=
  match sqlDriverNameToDriver drivers driverOf driverName w with
  | (Outcome.panic, w) => (Outcome.panic, w)
  | (Outcome.ret sqlDriver, w) =>
    let recordingDriver : RecordingDriver :=
      { sourceName := driverName, Driver := sqlDriver, recorder := recorder }
    if (sqlDriver.bind Driver.DriverContext).isSome then
      (Outcome.ret
        { goType := DriverType.RecordingDriverContext, recordingDriver := recordingDriver }, w)
    else
      (Outcome.ret
        { goType := DriverType.RecordingDriver, recordingDriver := recordingDriver }, w)

/-- A driver that implements `driver.DriverContext` and refuses an empty data source
name. -/
def sampleStrictDriver : Driver :=
  { Open := fun _ => (some sampleConn, none),
    DriverContext := some (fun dsn =>
      if dsn = "" then (none, some (Error.New "empty data source name"))
      else (some { Connect := (some sampleConn, none) }, none)) }

/-- A driver that implements `driver.DriverContext` and accepts every data source
name. -/
def sampleConnectorDriver : Driver :=
  { Open := fun _ => (some sampleConn, none),
    DriverContext := some (fun _ => (some { Connect := (some sampleConn, none) }, none)) }

/-- A `Driver()` by which every connector answers with `sampleConnectorDriver`. -/
def sampleDriverOf (_ : DriverConnector) : Option Driver :=
  some sampleConnectorDriver

/-- A `Driver()` by which every connector answers with a driver that is not registered
and has no `driver.DriverContext`. -/
def sampleForeignDriverOf (_ : DriverConnector) : Option Driver :=
  some (sampleDriver sampleConn)

/-- A registry with three drivers: `plain` without `driver.DriverContext`, `connector`
and `strict` with it. -/
def sampleRegistry (driverName : String) : Option Driver :=
  if driverName = "plain" then some (sampleDriver sampleSyncConn)
  else if driverName = "connector" then some sampleConnectorDriver
  else if driverName = "strict" then some sampleStrictDriver
  else none

/-- A statement with `driver.StmtExecContext` alone. -/
def sampleExecOnlyStmt : DriverStmt :=
  { sampleStmt with StmtExecContext := some (fun _ => (some (sampleResult 1), none)) }

/-- A connection whose `Prepare` and `PrepareContext` hand back `sampleExecOnlyStmt`. -/
def sampleExecOnlyConn : DriverConn :=
  { sampleConn with
    Prepare := fun _ => (some sampleExecOnlyStmt, none),
    ConnPrepareContext := some (fun _ => (some sampleExecOnlyStmt, none)) }

/-- A connection proxy over `sampleExecOnlyConn`, recording to the recorder of the
run. -/
def sampleExecOnlyRecordingConn : RecordingConn :=
  { Conn := some sampleExecOnlyConn, recorder := RecorderPtr.run, sourceName := "db" }

/-! ## The connector's `Driver`, and what the behaviour claims speak of -/

/-- The method `(*RecordingConnector).Driver` of `db.go`; `driverOf` is the `Driver()`
of the wrapped connector. -/
def RecordingConnector.Driver (c : RecordingConnector)
    (driverOf : DriverConnector → Option Driver) (w : World) :
    Outcome (Option Driver) × World :=
  let w := w.println "Driver Debug: Driver Driver"
  match c.Connector with
  | none => (Outcome.panic, w)
  | some connector => (Outcome.ret (driverOf connector), w)

/-- The method `(*RecordingConnector).Driver` of `x/db`. -/
def Db.RecordingConnector.Driver (c : RecordingConnector)
    (driverOf : DriverConnector → Option Driver) (w : World) :
    Outcome (Option Driver) × World :=
  match c.Connector with
  | none => (Outcome.panic, w)
  | some connector => (Outcome.ret (driverOf connector), w)

/-- A connector whose `Connect` yields the given connection. -/
def sampleConnector (c : DriverConn) : DriverConnector :=
  { Connect := (some c, none) }

/-- A connector proxy over `sampleConnector`, recording to the recorder of the run. -/
def sampleRecordingConnector (c : DriverConn) : RecordingConnector :=
  { Connector := some (sampleConnector c), recorder := RecorderPtr.run, sourceName := "db" }

/-- The wrapped operation was invoked, before any other forwarded call, with the
arguments logged in `call`. -/
def invoked {α : Type} (w : World) (call : Call) (out : α × World) : Prop :=
  ∃ rest, out.2.calls = w.calls ++ call :: rest

/-- The suffixes one call may append to the events: nothing, one request, one
response, or a request and then a response. -/
def suffixShape : List Event → Bool
  | [] => true
  | [Event.MessageRequest _] => true
  | [Event.MessageResponse _] => true
  | [Event.MessageRequest _, Event.MessageResponse _] => true
  | _ => false

/-- The events of `w1` are the events of `w` followed by a suffix of one of the four
shapes. -/
def appendsSuffix (w w1 : World) : Prop :=
  ∃ S, w1.events = w.events ++ S ∧ suffixShape S = true

/-- A row set that yields two rows and then fails with an error that is not
`io.EOF`. -/
def sampleBrokenRows : DriverRows :=
  { Columns := ["id", "name"], Close := none,
    Next := fun k _ => if k < 2 then none else some (Error.New "connection lost"),
    served := 0 }

/-- A fresh rows proxy over `sampleBrokenRows`, recording to the recorder of the
run. -/
def sampleBrokenRecordingRows : RecordingRows :=
  { Rows := some sampleBrokenRows, recorder := RecorderPtr.run, sourceName := "db",
    RowsFound := 0 }

/-- The number of calls of `Next` that yielded a row: those that returned a nil
error. -/
def rowsYielded (errs : List (Option Error)) : Nat :=
  errs.countP (fun err => err.isNone)

/-- The number of calls of `Next` that returned anything but `io.EOF`. -/
def notEOF (errs : List (Option Error)) : Nat :=
  errs.countP (fun err => decide (err ≠ some Error.EOF))

/-- A statement whose `Exec` returns a result together with an error. -/
def sampleHalfFailingStmt : DriverStmt :=
  { sampleStmt with Exec := fun _ => (some (sampleResult 1), some (Error.New "boom")) }

/-- A statement proxy over `sampleHalfFailingStmt`, recording to the recorder of the
run. -/
def sampleHalfFailingRecordingStmt : RecordingStmt :=
  { Stmt := some sampleHalfFailingStmt, recorder := RecorderPtr.run, sourceName := "db",
    query := "DELETE FROM users WHERE id = 1" }

/-! ## The world after each step -/

@[simp] theorem World.println_events (w : World) (l : String) :
    (w.println l).events = w.events := rfl

@[simp] theorem World.println_calls (w : World) (l : String) :
    (w.println l).calls = w.calls := rfl

@[simp] theorem World.println_clock (w : World) (l : String) :
    (w.println l).clock = w.clock := rfl

@[simp] theorem World.println_sut (w : World) (l : String) :
    (w.println l).SystemUnderTestDefaultName = w.SystemUnderTestDefaultName := rfl

@[simp] theorem World.forward_events (w : World) (c : Call) :
    (w.forward c).events = w.events := rfl

@[simp] theorem World.forward_calls (w : World) (c : Call) :
    (w.forward c).calls = w.calls ++ [c] := rfl

@[simp] theorem World.forward_clock (w : World) (c : Call) :
    (w.forward c).clock = w.clock := rfl

@[simp] theorem World.forward_sut (w : World) (c : Call) :
    (w.forward c).SystemUnderTestDefaultName = w.SystemUnderTestDefaultName := rfl

@[simp] theorem World.recordRequest_events (w : World) (s b : String) :
    (w.recordRequest s b).events =
      w.events ++ [Event.MessageRequest
        { Source := w.SystemUnderTestDefaultName, Target := s, Header := "SQL Query",
          Body := b, Timestamp := w.clock }] := rfl

@[simp] theorem World.recordRequest_calls (w : World) (s b : String) :
    (w.recordRequest s b).calls = w.calls := rfl

@[simp] theorem World.recordRequest_clock (w : World) (s b : String) :
    (w.recordRequest s b).clock = w.clock + 1 := rfl

@[simp] theorem World.recordRequest_sut (w : World) (s b : String) :
    (w.recordRequest s b).SystemUnderTestDefaultName = w.SystemUnderTestDefaultName := rfl

@[simp] theorem World.recordResponse_events (w : World) (s b : String) :
    (w.recordResponse s b).events =
      w.events ++ [Event.MessageResponse
        { Source := s, Target := w.SystemUnderTestDefaultName, Header := "SQL Result",
          Body := b, Timestamp := w.clock }] := rfl

@[simp] theorem World.recordResponse_calls (w : World) (s b : String) :
    (w.recordResponse s b).calls = w.calls := rfl

@[simp] theorem World.recordResponse_clock (w : World) (s b : String) :
    (w.recordResponse s b).clock = w.clock + 1 := rfl

@[simp] theorem World.recordResponse_sut (w : World) (s b : String) :
    (w.recordResponse s b).SystemUnderTestDefaultName = w.SystemUnderTestDefaultName := rfl

theorem World.recordResult_some (w : World) (r : RecorderPtr) (s : String)
    (res : DriverResult) (body : Int → String) (hr : r ≠ RecorderPtr.nil) :
    w.recordResult r s (some res) body =
      (w.forward Call.ResultRowsAffected).recordResponse s (body res.RowsAffected.1) := by
  simp [World.recordResult, hr]

@[simp] theorem World.recordResult_none (w : World) (r : RecorderPtr) (s : String)
    (body : Int → String) : w.recordResult r s none body = w := rfl

@[simp] theorem World.recordResult_nil (w : World) (s : String)
    (result : Option DriverResult) (body : Int → String) :
    w.recordResult RecorderPtr.nil s result body = w := by
  cases result <;> simp [World.recordResult]

/-! ## Rows: `Next` and `Close` -/

theorem rowsNext_events (rows : RecordingRows) (dest : List Value) (w : World) :
    (RecordingRows.Next rows dest w).2.2.events = w.events := by
  unfold RecordingRows.Next
  cases rows.Rows <;> simp

theorem rowsNext_recorder (rows : RecordingRows) (dest : List Value) (w : World) :
    (RecordingRows.Next rows dest w).2.1.recorder = rows.recorder := by
  unfold RecordingRows.Next
  cases rows.Rows
  · simp
  · simp only
    split_ifs <;> rfl

theorem dbRowsNext_events (rows : RecordingRows) (dest : List Value) (w : World) :
    (Db.RecordingRows.Next rows dest w).2.2.events = w.events := by
  unfold Db.RecordingRows.Next
  cases rows.Rows <;> simp

theorem dbRowsNext_recorder (rows : RecordingRows) (dest : List Value)
    (w : World) : (Db.RecordingRows.Next rows dest w).2.1.recorder = rows.recorder := by
  unfold Db.RecordingRows.Next
  cases rows.Rows
  · simp
  · simp only
    split_ifs <;> rfl

theorem nextAll_events
    (next : NextOp)
    (hev : ∀ rows dest w, (next rows dest w).2.2.events = w.events)
    (hrec : ∀ rows dest w, (next rows dest w).2.1.recorder = rows.recorder)
    (dests : List (List Value)) :
    ∀ (rows : RecordingRows) (w : World),
      (nextAll next rows dests w).2.2.events = w.events ∧
      (nextAll next rows dests w).2.1.recorder = rows.recorder := by
  induction dests with
  | nil => intro rows w; exact ⟨rfl, rfl⟩
  | cons dest rest ih =>
    intro rows w
    have h1 := hev rows dest w
    have h2 := hrec rows dest w
    unfold nextAll
    rcases hn : next rows dest w with ⟨o, rows1, w1⟩
    rw [hn] at h1 h2
    cases o with
    | panic => exact ⟨h1, h2⟩
    | ret err =>
      have ih1 := ih rows1 w1
      simp only
      rcases hm : nextAll next rows1 rest w1 with ⟨o2, rows2, w2⟩
      rw [hm] at ih1
      simp only at h1 h2 ih1
      cases o2 with
      | panic => exact ⟨ih1.1.trans h1, ih1.2.trans h2⟩
      | ret errs => exact ⟨ih1.1.trans h1, ih1.2.trans h2⟩

theorem rowsClose_events (rows : RecordingRows) (w : World)
    (hrec : rows.recorder ≠ RecorderPtr.nil) :
    (RecordingRows.Close rows w).2.events =
      w.events ++ [Event.MessageResponse
        { Source := rows.sourceName, Target := w.SystemUnderTestDefaultName,
          Header := "SQL Result", Body := "Rows returned: " ++ fmtInt rows.RowsFound,
          Timestamp := w.clock }] := by
  unfold RecordingRows.Close
  cases rows.Rows <;> simp [hrec]

theorem dbRowsClose_events (rows : RecordingRows) (w : World)
    (hrec : rows.recorder ≠ RecorderPtr.nil) :
    (Db.RecordingRows.Close rows w).2.events =
      w.events ++ [Event.MessageResponse
        { Source := rows.sourceName, Target := w.SystemUnderTestDefaultName,
          Header := "SQL Result", Body := "Rows returned: " ++ fmtInt rows.RowsFound,
          Timestamp := w.clock }] := by
  unfold Db.RecordingRows.Close
  cases rows.Rows <;> simp [hrec]

theorem queryRecorded_root (w w1 : World) (body : String) (rows : RecordingRows)
    (req : MessageRequest) (hrec : rows.recorder ≠ RecorderPtr.nil)
    (hev : w1.events = w.events ++ [Event.MessageRequest req]) (hbody : req.Body = body) :
    queryRecorded RecordingRows.Next RecordingRows.Close w body
      (Outcome.ret (RowsValue.proxy rows, none), w1) := by
  refine ⟨rows, req, rfl, hev, hbody, fun dests => ?_⟩
  have h := nextAll_events RecordingRows.Next rowsNext_events
    rowsNext_recorder dests rows w1
  simp only at h ⊢
  refine ⟨h.1.trans hev, ?_⟩
  rw [rowsClose_events _ _ (by rw [h.2]; exact hrec), h.1, hev]
  exact ⟨_, by rw [List.append_assoc]; rfl⟩

theorem queryRecorded_db (w w1 : World) (body : String) (rows : RecordingRows)
    (req : MessageRequest) (hrec : rows.recorder ≠ RecorderPtr.nil)
    (hev : w1.events = w.events ++ [Event.MessageRequest req]) (hbody : req.Body = body) :
    queryRecorded Db.RecordingRows.Next Db.RecordingRows.Close w body
      (Outcome.ret (RowsValue.proxy rows, none), w1) := by
  refine ⟨rows, req, rfl, hev, hbody, fun dests => ?_⟩
  have h := nextAll_events Db.RecordingRows.Next dbRowsNext_events
    dbRowsNext_recorder dests rows w1
  simp only at h ⊢
  refine ⟨h.1.trans hev, ?_⟩
  rw [dbRowsClose_events _ _ (by rw [h.2]; exact hrec), h.1, hev]
  exact ⟨_, by rw [List.append_assoc]; rfl⟩

/-! ## Named parameters -/

theorem name_length_pos (s : String) : s.length > 0 ↔ s ≠ "" := by
  rcases s with ⟨data⟩
  cases data with
  | nil => simp [String.length]
  | cons a l => simp [String.length, String.ext_iff]

theorem namedValueToValue_named (args : List NamedValue)
    (hnamed : ∃ p ∈ args, p.Name ≠ "") :
    namedValueToValue args = ([], some namedParametersError) := by
  induction args with
  | nil => simp at hnamed
  | cons a rest ih =>
    unfold namedValueToValue
    by_cases ha : a.Name.length > 0
    · simp [ha, namedParametersError]
    · have hrest : ∃ p ∈ rest, p.Name ≠ "" := by
        rcases hnamed with ⟨p, hp, hne⟩
        rcases List.mem_cons.mp hp with h | h
        · exact absurd ((name_length_pos _).mpr (h ▸ hne)) ha
        · exact ⟨p, h, hne⟩
      simp [ha, ih hrest]

theorem namedValueToValue_positional (args : List NamedValue)
    (hpos : ∀ p ∈ args, p.Name = "") :
    namedValueToValue args = (args.map NamedValue.Value, none) := by
  induction args with
  | nil => rfl
  | cons a rest ih =>
    unfold namedValueToValue
    have ha : ¬ a.Name.length > 0 := by
      rw [name_length_pos]
      simp [hpos a (List.mem_cons_self _ _)]
    simp [ha, ih (fun p hp => hpos p (List.mem_cons_of_mem _ hp))]

theorem recorderBodyNamed_named (query : String) (args : List NamedValue)
    (hnamed : ∃ p ∈ args, p.Name ≠ "") :
    recorderBodyNamed query args = Except.error namedParametersError := by
  have hlen : args.length > 0 := by
    rcases hnamed with ⟨p, hp, _⟩
    exact List.length_pos_of_mem hp
  simp [recorderBodyNamed, hlen, namedValueToValue_named args hnamed]

theorem recorderBodyNamed_positional (query : String) (args : List NamedValue)
    (hpos : ∀ p ∈ args, p.Name = "") :
    recorderBodyNamed query args =
      Except.ok (recorderBody query (args.map NamedValue.Value)) := by
  simp only [recorderBodyNamed, recorderBody, namedValueToValue_positional args hpos,
    List.length_map]
  split_ifs <;> rfl

theorem named_appends_nothing (conn : RecordingConn) (stmt : RecordingStmt) (query : String)
    (args : List NamedValue) (w : World) (hnamed : ∃ p ∈ args, p.Name ≠ "") :
    eventsAfter (RecordingConnWithQueryContext.QueryContext conn query args w) = w.events ∧
    eventsAfter (Db.RecordingConnWithQueryContext.QueryContext conn query args w) = w.events ∧
    eventsAfter (RecordingConnWithExecContext.ExecContext conn query args w) = w.events ∧
    eventsAfter (Db.RecordingConnWithExecContext.ExecContext conn query args w) = w.events ∧
    eventsAfter (RecordingStmtWithExecContext.ExecContext stmt args w) = w.events ∧
    eventsAfter (Db.RecordingStmtWithExecContext.ExecContext stmt args w) = w.events ∧
    eventsAfter (RecordingStmtWithQueryContext.QueryContext stmt args w) = w.events ∧
    eventsAfter (Db.RecordingStmtWithQueryContext.QueryContext stmt args w) = w.events := by
  refine ⟨?_, ?_, ?_, ?_, ?_, ?_, ?_, ?_⟩
  · rcases hb : conn.Conn.bind DriverConn.QueryerContext with _ | f
    all_goals simp only [RecordingConnWithQueryContext.QueryContext, hb,
        recorderBodyNamed_named _ _ hnamed, eventsAfter]
    all_goals (try split_ifs)
    all_goals (try simp_all)
  · rcases hb : conn.Conn.bind DriverConn.QueryerContext with _ | f
    all_goals simp only [Db.RecordingConnWithQueryContext.QueryContext, hb,
        recorderBodyNamed_named _ _ hnamed, eventsAfter]
    all_goals (try split_ifs)
    all_goals (try simp_all)
  · rcases hb : conn.Conn.bind DriverConn.ExecerContext with _ | f
    all_goals simp only [RecordingConnWithExecContext.ExecContext, hb,
        recorderBodyNamed_named _ _ hnamed, eventsAfter]
    all_goals (try split_ifs)
    all_goals (try simp_all)
  · rcases hb : conn.Conn.bind DriverConn.ExecerContext with _ | f
    all_goals simp only [Db.RecordingConnWithExecContext.ExecContext, hb,
        recorderBodyNamed_named _ _ hnamed, eventsAfter]
    all_goals (try split_ifs)
    all_goals (try simp_all)
  · rcases hb : stmt.Stmt.bind DriverStmt.StmtExecContext with _ | f
    all_goals simp only [RecordingStmtWithExecContext.ExecContext, hb,
        recorderBodyNamed_named _ _ hnamed, eventsAfter]
    all_goals (try split_ifs)
    all_goals (try simp_all)
  · rcases hb : stmt.Stmt.bind DriverStmt.StmtExecContext with _ | f
    all_goals simp only [Db.RecordingStmtWithExecContext.ExecContext, hb,
        recorderBodyNamed_named _ _ hnamed, eventsAfter]
    all_goals (try split_ifs)
    all_goals (try simp_all)
  · rcases hb : stmt.Stmt.bind DriverStmt.StmtQueryContext with _ | f
    all_goals simp only [RecordingStmtWithQueryContext.QueryContext, hb,
        recorderBodyNamed_named _ _ hnamed, eventsAfter]
    all_goals (try split_ifs)
    all_goals (try simp_all)
  · rcases hb : stmt.Stmt.bind DriverStmt.StmtQueryContext with _ | f
    all_goals simp only [Db.RecordingStmtWithQueryContext.QueryContext, hb,
        recorderBodyNamed_named _ _ hnamed, eventsAfter]
    all_goals (try split_ifs)
    all_goals (try simp_all)

/-! ## The body of a request -/

theorem recorderBody_eq_describedBody (query : String) (args : List Value) :
    recorderBody query args = describedBody query (args.map fmtValue) := by
  cases args with
  | nil => rfl
  | cons a rest =>
    simp [recorderBody, describedBody, sprintfQueryArgs, fmtValues]

theorem recordResult_events_append (w : World) (r : RecorderPtr) (s : String)
    (result : Option DriverResult) (body : Int → String) :
    ∃ rest, (w.recordResult r s result body).events = w.events ++ rest := by
  cases result with
  | none => exact ⟨[], by simp⟩
  | some res =>
    by_cases hr : r = RecorderPtr.nil
    · exact ⟨[], by simp [hr]⟩
    · refine ⟨[Event.MessageResponse
        { Source := s, Target := w.SystemUnderTestDefaultName, Header := "SQL Result",
          Body := body res.RowsAffected.1, Timestamp := w.clock }], ?_⟩
      rw [World.recordResult_some _ _ _ _ _ hr]
      simp

theorem requestBodyIs_recordRequest {α : Type} (w w0 : World) (src body : String) (v : α)
    (hev : w0.events = w.events) : requestBodyIs w body (v, w0.recordRequest src body) :=
  ⟨_, [], by rw [World.recordRequest_events, hev], rfl⟩

theorem requestBodyIs_recordResult {α : Type} (w w0 : World) (src body : String) (v : α)
    (r : RecorderPtr) (s : String) (result : Option DriverResult) (fmt : Int → String)
    (hev : w0.events = w.events) :
    requestBodyIs w body (v, (w0.recordRequest src body).recordResult r s result fmt) := by
  rcases recordResult_events_append (w0.recordRequest src body) r s result fmt with ⟨rest, h⟩
  exact ⟨_, rest, by rw [h, World.recordRequest_events, hev, List.append_assoc]; rfl, rfl⟩

/-! ## Counting rows -/

theorem wrapInt_succ (a : Int) : wrapInt (wrapInt a + 1) = wrapInt (a + 1) := by
  unfold wrapInt
  norm_num
  omega

theorem wrapInt_of_lt (n : Nat) (h : n < 2 ^ 63) : wrapInt n = n := by
  unfold wrapInt
  norm_num at h ⊢
  omega

theorem fmtInt_natCast (n : Nat) : fmtInt (n : Int) = Nat.repr n := by
  simp [fmtInt]

theorem rowsNext_spec : NextSpec RecordingRows.Next := by
  intro rows r dest w hrows
  refine ⟨(w.println "Driver Debug: Rows Next").forward (Call.RowsNext dest), ?_, rfl, rfl, rfl⟩
  simp only [RecordingRows.Next, hrows]
  split_ifs <;> rfl

theorem dbRowsNext_spec : NextSpec Db.RecordingRows.Next := by
  intro rows r dest w hrows
  refine ⟨w.forward (Call.RowsNext dest), ?_, rfl, rfl, rfl⟩
  simp only [Db.RecordingRows.Next, hrows]
  split_ifs <;> rfl

theorem nextAll_yielding
    (next : NextOp)
    (hnext : NextSpec next) (dests : List (List Value)) :
    ∀ (rows : RecordingRows) (r : DriverRows) (w : World) (x : Int),
      rows.Rows = some r → rows.RowsFound = wrapInt x →
      (∀ k dest, r.served ≤ k → k < r.served + dests.length → r.Next k dest = none) →
      ∃ rows1 w1,
        nextAll next rows dests w =
          (Outcome.ret (List.replicate dests.length none), rows1, w1) ∧
        rows1.Rows = some { r with served := r.served + dests.length } ∧
        rows1.RowsFound = wrapInt (x + dests.length) ∧
        rows1.recorder = rows.recorder ∧ rows1.sourceName = rows.sourceName ∧
        w1.events = w.events ∧ w1.clock = w.clock ∧
        w1.SystemUnderTestDefaultName = w.SystemUnderTestDefaultName := by
  induction dests with
  | nil =>
    intro rows r w x hrows hfound _
    exact ⟨rows, w, rfl, by simp [hrows], by simp [hfound], rfl, rfl, rfl, rfl, rfl⟩
  | cons dest rest ih =>
    intro rows r w x hrows hfound hnil
    rcases hnext rows r dest w hrows with ⟨w1, hstep, he1, hc1, hs1⟩
    have hfirst : r.Next r.served dest = none :=
      hnil r.served dest (Nat.le_refl _) (by simp)
    rw [hfirst] at hstep
    simp only [ne_eq, reduceCtorEq, not_false_eq_true, if_true] at hstep
    have hrest := ih
      { rows with
        Rows := some { r with served := r.served + 1 },
        RowsFound := wrapInt (rows.RowsFound + 1) }
      { r with served := r.served + 1 } w1 (x + 1) rfl
      (by simp only [hfound]; exact wrapInt_succ x)
      (fun k d hk1 hk2 => hnil k d (by simp only at hk1; omega)
        (by simp only [List.length_cons] at hk2 ⊢; omega))
    rcases hrest with ⟨rows2, w2, hrun, hr2, hf2, hrec2, hsrc2, he2, hc2, hs2⟩
    refine ⟨rows2, w2, ?_, ?_, ?_, hrec2, hsrc2, he2.trans he1, hc2.trans hc1, hs2.trans hs1⟩
    · unfold nextAll
      rw [hstep]
      simp only
      rw [hrun]
      simp [List.replicate_succ]
    · rw [hr2]
      simp only [List.length_cons]
      congr 2
      omega
    · rw [hf2]
      simp only [List.length_cons]
      push_cast
      congr 1
      omega

theorem rowsClose_spec : CloseSpec RecordingRows.Close := by
  intro rows r w hrows hrec
  refine ⟨(((w.println "Driver Debug: Rows Close")).recordResponse rows.sourceName
    ("Rows returned: " ++ fmtInt rows.RowsFound)).forward Call.RowsClose, ?_, ?_, ?_, ?_⟩
  · simp only [RecordingRows.Close, hrows, hrec, ne_eq, not_false_eq_true, if_true]
  · simp
  · simp
  · simp

theorem dbRowsClose_spec : CloseSpec Db.RecordingRows.Close := by
  intro rows r w hrows hrec
  refine ⟨((w).recordResponse rows.sourceName
    ("Rows returned: " ++ fmtInt rows.RowsFound)).forward Call.RowsClose, ?_, ?_, ?_, ?_⟩
  · simp only [Db.RecordingRows.Close, hrows, hrec, ne_eq, not_false_eq_true, if_true]
  · simp
  · simp
  · simp

theorem nextAll_until_eof
    (next : NextOp)
    (hnext : NextSpec next) (dests : List (List Value)) :
    ∀ (rows : RecordingRows) (r : DriverRows) (w : World) (x : Int) (m : Nat),
      rows.Rows = some r → rows.RowsFound = wrapInt x → dests.length = m + 1 →
      (∀ k dest, r.served ≤ k → k < r.served + m → r.Next k dest = none) →
      (∀ dest, r.Next (r.served + m) dest = some Error.EOF) →
      ∃ rows1 w1,
        nextAll next rows dests w =
          (Outcome.ret (List.replicate m none ++ [some Error.EOF]), rows1, w1) ∧
        rows1.Rows = some { r with served := r.served + m + 1 } ∧
        rows1.RowsFound = wrapInt (x + m) ∧
        rows1.recorder = rows.recorder ∧ rows1.sourceName = rows.sourceName ∧
        w1.events = w.events ∧ w1.clock = w.clock ∧
        w1.SystemUnderTestDefaultName = w.SystemUnderTestDefaultName := by
  induction dests with
  | nil =>
    intro rows r w x m _ _ hlen
    simp at hlen
  | cons dest rest ih =>
    intro rows r w x m hrows hfound hlen hnil heof
    rcases hnext rows r dest w hrows with ⟨w1, hstep, he1, hc1, hs1⟩
    cases m with
    | zero =>
      have hrest : rest = [] := by
        simp only [List.length_cons, zero_add, add_left_eq_self] at hlen
        exact List.length_eq_zero.mp hlen
      have hlast : r.Next r.served dest = some Error.EOF := by
        have := heof dest
        simpa using this
      rw [hlast] at hstep
      simp only [ne_eq, not_true_eq_false, if_false] at hstep
      refine ⟨{ rows with
          Rows := some { r with served := r.served + 1 },
          RowsFound := rows.RowsFound }, w1, ?_, rfl, ?_, rfl, rfl, he1, hc1, hs1⟩
      · rw [hrest]
        simp only [nextAll, hstep, List.replicate_zero, List.nil_append]
      · simp [hfound]
    | succ m =>
      have hfirst : r.Next r.served dest = none :=
        hnil r.served dest (Nat.le_refl _) (by omega)
      rw [hfirst] at hstep
      simp only [ne_eq, reduceCtorEq, not_false_eq_true, if_true] at hstep
      have hrun := ih
        { rows with
          Rows := some { r with served := r.served + 1 },
          RowsFound := wrapInt (rows.RowsFound + 1) }
        { r with served := r.served + 1 } w1 (x + 1) m rfl
        (by simp only [hfound]; exact wrapInt_succ x)
        (by simp only [List.length_cons] at hlen; omega)
        (fun k d hk1 hk2 => hnil k d (by simp only at hk1; omega)
          (by simp only at hk2; omega))
        (fun d => by
          have := heof d
          simp only
          rw [← this]
          congr 1
          omega)
      rcases hrun with ⟨rows2, w2, hrun, hr2, hf2, hrec2, hsrc2, he2, hc2, hs2⟩
      refine ⟨rows2, w2, ?_, ?_, ?_, hrec2, hsrc2, he2.trans he1, hc2.trans hc1,
        hs2.trans hs1⟩
      · unfold nextAll
        rw [hstep]
        simp only
        rw [hrun]
        simp [List.replicate_succ]
      · rw [hr2]
        congr 2
        simp only
        omega
      · rw [hf2]
        push_cast
        congr 1
        omega

theorem iterateAndClose_yielding
    (next : NextOp)
    (close : CloseOp)
    (hnext : NextSpec next) (hclose : CloseSpec close)
    (rows : RecordingRows) (r : DriverRows) (n : Nat) (dests : List (List Value)) (w : World)
    (hrows : rows.Rows = some r) (hserved : r.served = 0) (hfound : rows.RowsFound = 0)
    (hyield : yieldsRows r n) (hlen : dests.length = n + 1)
    (hrec : rows.recorder ≠ RecorderPtr.nil) :
    ∃ w1,
      iterateAndClose next close rows dests w =
        (Outcome.ret (List.replicate n none ++ [some Error.EOF], r.Close), w1) ∧
      w1.events = w.events ++ [Event.MessageResponse
        { Source := rows.sourceName, Target := w.SystemUnderTestDefaultName,
          Header := "SQL Result", Body := "Rows returned: " ++ fmtInt (wrapInt n),
          Timestamp := w.clock }] ∧
      w1.clock = w.clock + 1 ∧
      w1.SystemUnderTestDefaultName = w.SystemUnderTestDefaultName := by
  rcases nextAll_until_eof next hnext dests rows r w 0 n hrows
      (by rw [hfound]; rfl) hlen
      (fun k d _ hk => hyield.1 k d (by omega))
      (fun d => by rw [hserved, Nat.zero_add]; exact hyield.2 d) with
    ⟨rows1, w1, hrun, hr1, hf1, hrec1, hsrc1, he1, hc1, hs1⟩
  rcases hclose rows1 _ w1 hr1 (by rw [hrec1]; exact hrec) with ⟨w2, hcl, he2, hc2, hs2⟩
  refine ⟨w2, ?_, ?_, ?_, ?_⟩
  · unfold iterateAndClose
    rw [hrun]
    simp only
    rw [hcl]
  · rw [he2, he1, hsrc1, hf1, hs1, hc1, zero_add]
  · rw [hc2, hc1]
  · rw [hs2, hs1]

theorem sampleRows_yields (n : Nat) : yieldsRows (sampleRows n) n := by
  constructor
  · intro k dest hk
    simp [sampleRows, hk]
  · intro dest
    simp [sampleRows]

theorem openConnType_sync (c : Option DriverConn)
    (h : connCapabilities c = [ConnCapability.Queryer, ConnCapability.Execer]) :
    openConnType c = ConnType.RecordingConnWithExecQuery := by
  revert h
  simp only [openConnType, connCapabilities, ConnCapability.all, List.filter_cons,
    List.filter_nil]
  generalize connImplements c ConnCapability.Queryer = q
  generalize connImplements c ConnCapability.QueryerContext = qc
  generalize connImplements c ConnCapability.Execer = e
  generalize connImplements c ConnCapability.ExecerContext = ec
  generalize connImplements c ConnCapability.ConnPrepareContext = pc
  generalize connImplements c ConnCapability.ConnBeginTx = bt
  generalize connImplements c ConnCapability.Pinger = pg
  cases q <;> cases qc <;> cases e <;> cases ec <;> cases pc <;> cases bt <;> cases pg <;>
    decide

/-! ## Failure of the wrapped call in the operations that check it -/

theorem delegate_error_appends_nothing (conn : RecordingConn) (c : DriverConn)
    (stmt : RecordingStmt) (s : DriverStmt) (query : String) (args : List Value)
    (nargs : List NamedValue) (w : World) (hconn : conn.Conn = some c)
    (hstmt : stmt.Stmt = some s) :
    (∀ f, c.Queryer = some f → (f query args).2 ≠ none →
      eventsAfter (RecordingConnWithQuery.Query conn query args w) = w.events ∧
      eventsAfter (Db.RecordingConnWithQuery.Query conn query args w) = w.events) ∧
    (∀ f, c.QueryerContext = some f → (f query nargs).2 ≠ none →
      eventsAfter (RecordingConnWithQueryContext.QueryContext conn query nargs w) = w.events ∧
      eventsAfter (Db.RecordingConnWithQueryContext.QueryContext conn query nargs w) =
        w.events) ∧
    (∀ f, c.Execer = some f → (f query args).2 ≠ none →
      eventsAfter (RecordingConnWithExec.Exec conn query args w) = w.events ∧
      eventsAfter (Db.RecordingConnWithExec.Exec conn query args w) = w.events) ∧
    (∀ f, c.ExecerContext = some f → (f query nargs).2 ≠ none →
      eventsAfter (RecordingConnWithExecContext.ExecContext conn query nargs w) = w.events ∧
      eventsAfter (Db.RecordingConnWithExecContext.ExecContext conn query nargs w) =
        w.events) ∧
    (∀ f, s.StmtExecContext = some f → (f nargs).2 ≠ none →
      eventsAfter (RecordingStmtWithExecContext.ExecContext stmt nargs w) = w.events ∧
      eventsAfter (Db.RecordingStmtWithExecContext.ExecContext stmt nargs w) = w.events) ∧
    (∀ f, s.StmtQueryContext = some f → (f nargs).2 ≠ none →
      eventsAfter (RecordingStmtWithQueryContext.QueryContext stmt nargs w) = w.events ∧
      eventsAfter (Db.RecordingStmtWithQueryContext.QueryContext stmt nargs w) = w.events) := by
  refine ⟨?_, ?_, ?_, ?_, ?_, ?_⟩
  · intro f hf herr
    simp [eventsAfter, RecordingConnWithQuery.Query, Db.RecordingConnWithQuery.Query, hconn,
      hf, herr]
  · intro f hf herr
    simp [eventsAfter, RecordingConnWithQueryContext.QueryContext,
      Db.RecordingConnWithQueryContext.QueryContext, hconn, hf, herr]
  · intro f hf herr
    simp [eventsAfter, RecordingConnWithExec.Exec, Db.RecordingConnWithExec.Exec, hconn,
      hf, herr]
  · intro f hf herr
    simp [eventsAfter, RecordingConnWithExecContext.ExecContext,
      Db.RecordingConnWithExecContext.ExecContext, hconn, hf, herr]
  · intro f hf herr
    simp [eventsAfter, RecordingStmtWithExecContext.ExecContext,
      Db.RecordingStmtWithExecContext.ExecContext, hstmt, hf, herr]
  · intro f hf herr
    simp [eventsAfter, RecordingStmtWithQueryContext.QueryContext,
      Db.RecordingStmtWithQueryContext.QueryContext, hstmt, hf, herr]

/-! ## Capability transparency of `Open` (C1, C2) -/

theorem openConnType_implements (c : Option DriverConn) (rc : RecordingConn)
    (X : ConnCapability) :
    (ConnValue.proxy (openConnType c) rc).implements X =
      if connImplements c ConnCapability.QueryerContext &&
          connImplements c ConnCapability.ExecerContext &&
          connImplements c ConnCapability.ConnPrepareContext then
        decide (X ∈ [ConnCapability.QueryerContext, ConnCapability.ExecerContext,
          ConnCapability.ConnPrepareContext, ConnCapability.ConnBeginTx,
          ConnCapability.Pinger])
      else if connImplements c ConnCapability.Queryer &&
          connImplements c ConnCapability.Execer then
        decide (X ∈ [ConnCapability.Queryer, ConnCapability.Execer])
      else false := by
  unfold openConnType
  simp only [ConnValue.implements]
  split_ifs <;> cases X <;> decide

theorem forall_connCapability (P : ConnCapability → Prop) :
    (∀ X, P X) ↔
      P ConnCapability.Queryer ∧ P ConnCapability.QueryerContext ∧ P ConnCapability.Execer ∧
      P ConnCapability.ExecerContext ∧ P ConnCapability.ConnPrepareContext ∧
      P ConnCapability.ConnBeginTx ∧ P ConnCapability.Pinger := by
  constructor
  · intro h
    exact ⟨h _, h _, h _, h _, h _, h _, h _⟩
  · rintro ⟨h1, h2, h3, h4, h5, h6, h7⟩ X
    cases X <;> assumption

theorem open_transparent_iff (c : Option DriverConn) (rc : RecordingConn) :
    (∀ X, (ConnValue.proxy (openConnType c) rc).implements X = connImplements c X) ↔
      (connCapabilities c = [] ∨
       connCapabilities c = [ConnCapability.Queryer, ConnCapability.Execer] ∨
       connCapabilities c =
        [ConnCapability.QueryerContext, ConnCapability.ExecerContext,
         ConnCapability.ConnPrepareContext, ConnCapability.ConnBeginTx,
         ConnCapability.Pinger]) := by
  rw [forall_connCapability]
  simp only [openConnType_implements, connCapabilities, ConnCapability.all, List.filter_cons,
    List.filter_nil]
  generalize connImplements c ConnCapability.Queryer = q
  generalize connImplements c ConnCapability.QueryerContext = qc
  generalize connImplements c ConnCapability.Execer = e
  generalize connImplements c ConnCapability.ExecerContext = ec
  generalize connImplements c ConnCapability.ConnPrepareContext = pc
  generalize connImplements c ConnCapability.ConnBeginTx = bt
  generalize connImplements c ConnCapability.Pinger = pg
  cases q <;> cases qc <;> cases e <;> cases ec <;> cases pc <;> cases bt <;> cases pg <;>
    decide

/-- C1 as stated fails.  A connection that implements `driver.Queryer` alone gets a
proxy that does not implement it (a capability is removed), and a connection that
implements `QueryerContext`, `ExecerContext` and `ConnPrepareContext` but not
`Pinger` gets a proxy that implements `Pinger` (a capability is added). -/
theorem C1_counterexample :
    (∃ v : ConnValue,
      (RecordingDriver.Open (sampleRecordingDriver sampleQueryerConn) "dsn" sampleWorld).1 =
        Outcome.ret (v, none) ∧
      v.implements ConnCapability.Queryer = false ∧
      sampleQueryerConn.implements ConnCapability.Queryer = true) ∧
    (∃ v : ConnValue,
      (RecordingDriver.Open (sampleRecordingDriver sampleContextConn) "dsn" sampleWorld).1 =
        Outcome.ret (v, none) ∧
      v.implements ConnCapability.Pinger = true ∧
      sampleContextConn.implements ConnCapability.Pinger = false) :=
  ⟨⟨_, rfl, by decide, by decide⟩, ⟨_, rfl, by decide, by decide⟩⟩

/-- C1 (amended): for every connection `c` that the wrapped driver's `Open` returns
without error, `RecordingDriver.Open` of both packages returns the same proxy, whose
optional interfaces are: the five context-aware ones (`QueryerContext`,
`ExecerContext`, `ConnPrepareContext`, `ConnBeginTx`, `Pinger`) when `c` implements
`QueryerContext`, `ExecerContext` and `ConnPrepareContext`; otherwise `Queryer` and
`Execer` when `c` implements both; otherwise none.  The proxy implements every `X`
exactly when `c` does if and only if the capability set of `c` is one of these three
sets. -/
theorem C1_open_capability_set (d : RecordingDriver) (drv : Driver) (name : String)
    (w : World) (c : Option DriverConn) (hd : d.Driver = some drv)
    (hopen : drv.Open name = (c, none)) :
    ∃ v : ConnValue,
      (RecordingDriver.Open d name w).1 = Outcome.ret (v, none) ∧
      (Db.RecordingDriver.Open d name w).1 = Outcome.ret (v, none) ∧
      (∀ X, v.implements X =
        if connImplements c ConnCapability.QueryerContext &&
            connImplements c ConnCapability.ExecerContext &&
            connImplements c ConnCapability.ConnPrepareContext then
          decide (X ∈ [ConnCapability.QueryerContext, ConnCapability.ExecerContext,
            ConnCapability.ConnPrepareContext, ConnCapability.ConnBeginTx,
            ConnCapability.Pinger])
        else if connImplements c ConnCapability.Queryer &&
            connImplements c ConnCapability.Execer then
          decide (X ∈ [ConnCapability.Queryer, ConnCapability.Execer])
        else false) ∧
      ((∀ X, v.implements X = connImplements c X) ↔
        (connCapabilities c = [] ∨
         connCapabilities c = [ConnCapability.Queryer, ConnCapability.Execer] ∨
         connCapabilities c =
          [ConnCapability.QueryerContext, ConnCapability.ExecerContext,
           ConnCapability.ConnPrepareContext, ConnCapability.ConnBeginTx,
           ConnCapability.Pinger])) := by
  refine ⟨ConnValue.proxy (openConnType c)
    { Conn := c, recorder := d.recorder, sourceName := d.sourceName }, ?_, ?_,
    fun X => openConnType_implements c _ X, open_transparent_iff c _⟩
  · simp [RecordingDriver.Open, hd, hopen]
  · simp [Db.RecordingDriver.Open, hd, hopen]

/-- C1 (amended) at a driver whose connection implements `Queryer` alone. -/
theorem C1_open_capability_set_witness :
    (sampleRecordingDriver sampleQueryerConn).Driver = some (sampleDriver sampleQueryerConn) ∧
    (sampleDriver sampleQueryerConn).Open "dsn" = (some sampleQueryerConn, none) ∧
    ∃ v : ConnValue,
      (RecordingDriver.Open (sampleRecordingDriver sampleQueryerConn) "dsn" sampleWorld).1 =
        Outcome.ret (v, none) ∧
      (Db.RecordingDriver.Open (sampleRecordingDriver sampleQueryerConn) "dsn" sampleWorld).1 =
        Outcome.ret (v, none) ∧
      (∀ X, v.implements X =
        if connImplements (some sampleQueryerConn) ConnCapability.QueryerContext &&
            connImplements (some sampleQueryerConn) ConnCapability.ExecerContext &&
            connImplements (some sampleQueryerConn) ConnCapability.ConnPrepareContext then
          decide (X ∈ [ConnCapability.QueryerContext, ConnCapability.ExecerContext,
            ConnCapability.ConnPrepareContext, ConnCapability.ConnBeginTx,
            ConnCapability.Pinger])
        else if connImplements (some sampleQueryerConn) ConnCapability.Queryer &&
            connImplements (some sampleQueryerConn) ConnCapability.Execer then
          decide (X ∈ [ConnCapability.Queryer, ConnCapability.Execer])
        else false) ∧
      ((∀ X, v.implements X = connImplements (some sampleQueryerConn) X) ↔
        (connCapabilities (some sampleQueryerConn) = [] ∨
         connCapabilities (some sampleQueryerConn) =
          [ConnCapability.Queryer, ConnCapability.Execer] ∨
         connCapabilities (some sampleQueryerConn) =
          [ConnCapability.QueryerContext, ConnCapability.ExecerContext,
           ConnCapability.ConnPrepareContext, ConnCapability.ConnBeginTx,
           ConnCapability.Pinger])) :=
  ⟨rfl, rfl,
    C1_open_capability_set (sampleRecordingDriver sampleQueryerConn)
      (sampleDriver sampleQueryerConn) "dsn" sampleWorld (some sampleQueryerConn) rfl rfl⟩

/-- C2: when the capability set of the connection `c` returned by the wrapped
driver's `Open` is one of the three supported combinations (no optional interface;
exactly `Queryer` and `Execer`; exactly `QueryerContext`, `ExecerContext`,
`ConnPrepareContext`, `ConnBeginTx` and `Pinger`), the proxy returned by
`RecordingDriver.Open`, in both packages, implements each of the seven optional
interfaces if and only if `c` implements it. -/
theorem C2_supported_combinations_transparent (d : RecordingDriver) (drv : Driver)
    (name : String) (w : World) (c : Option DriverConn) (hd : d.Driver = some drv)
    (hopen : drv.Open name = (c, none))
    (hsupported :
      connCapabilities c = [] ∨
      connCapabilities c = [ConnCapability.Queryer, ConnCapability.Execer] ∨
      connCapabilities c =
        [ConnCapability.QueryerContext, ConnCapability.ExecerContext,
         ConnCapability.ConnPrepareContext, ConnCapability.ConnBeginTx,
         ConnCapability.Pinger]) :
    ∃ v : ConnValue,
      (RecordingDriver.Open d name w).1 = Outcome.ret (v, none) ∧
      (Db.RecordingDriver.Open d name w).1 = Outcome.ret (v, none) ∧
      ∀ X, (v.implements X = true ↔ connImplements c X = true) := by
  refine ⟨ConnValue.proxy (openConnType c)
    { Conn := c, recorder := d.recorder, sourceName := d.sourceName }, ?_, ?_, ?_⟩
  · simp [RecordingDriver.Open, hd, hopen]
  · simp [Db.RecordingDriver.Open, hd, hopen]
  · intro X
    rw [(open_transparent_iff c _).mpr hsupported X]

/-- C2 at a driver whose connection implements exactly the five context-aware
interfaces. -/
theorem C2_supported_combinations_transparent_witness :
    (sampleRecordingDriver sampleFullContextConn).Driver =
      some (sampleDriver sampleFullContextConn) ∧
    (sampleDriver sampleFullContextConn).Open "dsn" = (some sampleFullContextConn, none) ∧
    connCapabilities (some sampleFullContextConn) =
      [ConnCapability.QueryerContext, ConnCapability.ExecerContext,
       ConnCapability.ConnPrepareContext, ConnCapability.ConnBeginTx,
       ConnCapability.Pinger] ∧
    ∃ v : ConnValue,
      (RecordingDriver.Open (sampleRecordingDriver sampleFullContextConn) "dsn"
        sampleWorld).1 = Outcome.ret (v, none) ∧
      (Db.RecordingDriver.Open (sampleRecordingDriver sampleFullContextConn) "dsn"
        sampleWorld).1 = Outcome.ret (v, none) ∧
      ∀ X, (v.implements X = true ↔
        connImplements (some sampleFullContextConn) X = true) :=
  ⟨rfl, rfl, by decide,
    C2_supported_combinations_transparent (sampleRecordingDriver sampleFullContextConn)
      (sampleDriver sampleFullContextConn) "dsn" sampleWorld (some sampleFullContextConn)
      rfl rfl (Or.inr (Or.inr (by decide)))⟩

/-! ## Failure of the wrapped call (C3) -/

/-- C3 fails on the synchronous statement operations: with a recorder that holds no
event and a wrapped statement whose `Exec` and `Query` return no result and the error
`boom`, `RecordingStmt.Exec` and `RecordingStmt.Query` of both packages return that
error and leave one `MessageRequest` in the recorder. -/
theorem C3_stmt_records_failed_call :
    returnedError (RecordingStmt.Exec sampleFailingRecordingStmt [] sampleWorld) =
      some (Error.New "boom") ∧
    eventsAfter (RecordingStmt.Exec sampleFailingRecordingStmt [] sampleWorld) =
      [Event.MessageRequest
        { Source := "sut", Target := "db", Header := "SQL Query",
          Body := "DELETE FROM users WHERE id = 1", Timestamp := 0 }] ∧
    returnedError (RecordingStmt.Query sampleFailingRecordingStmt [] sampleWorld) =
      some (Error.New "boom") ∧
    eventsAfter (RecordingStmt.Query sampleFailingRecordingStmt [] sampleWorld) =
      [Event.MessageRequest
        { Source := "sut", Target := "db", Header := "SQL Query",
          Body := "DELETE FROM users WHERE id = 1", Timestamp := 0 }] ∧
    eventsAfter (Db.RecordingStmt.Exec sampleFailingRecordingStmt [] sampleWorld) =
      [Event.MessageRequest
        { Source := "sut", Target := "db", Header := "SQL Query",
          Body := "DELETE FROM users WHERE id = 1", Timestamp := 0 }] ∧
    eventsAfter (Db.RecordingStmt.Query sampleFailingRecordingStmt [] sampleWorld) =
      [Event.MessageRequest
        { Source := "sut", Target := "db", Header := "SQL Query",
          Body := "DELETE FROM users WHERE id = 1", Timestamp := 0 }] := by
  refine ⟨rfl, ?_, rfl, ?_, ?_, ?_⟩ <;> decide

/-! ## Successful exec calls without arguments (C4) -/

/-- C4: an exec-family call (connection `Exec` and `ExecContext`, statement `Exec`
and `ExecContext`, in both packages) with no argument and a non-nil recorder, whose
wrapped call returns a result and no error, appends exactly a `MessageRequest` whose
body is the query text and then a `MessageResponse`, and returns that result with a
nil error.  Nothing is assumed of `RowsAffected`, so this holds also when it fails. -/
theorem C4_exec_success_two_events (conn : RecordingConn) (c : DriverConn)
    (stmt : RecordingStmt) (s : DriverStmt) (query : String) (res : DriverResult) (w : World)
    (hconn : conn.Conn = some c) (hrec : conn.recorder ≠ RecorderPtr.nil)
    (hstmt : stmt.Stmt = some s) (hsrec : stmt.recorder ≠ RecorderPtr.nil) :
    (∀ f, c.Execer = some f → f query [] = (some res, none) →
      execRecorded w query res (RecordingConnWithExec.Exec conn query [] w) ∧
      execRecorded w query res (Db.RecordingConnWithExec.Exec conn query [] w)) ∧
    (∀ f, c.ExecerContext = some f → f query [] = (some res, none) →
      execRecorded w query res (RecordingConnWithExecContext.ExecContext conn query [] w) ∧
      execRecorded w query res (Db.RecordingConnWithExecContext.ExecContext conn query [] w)) ∧
    (s.Exec [] = (some res, none) →
      execRecorded w stmt.query res (RecordingStmt.Exec stmt [] w) ∧
      execRecorded w stmt.query res (Db.RecordingStmt.Exec stmt [] w)) ∧
    (∀ f, s.StmtExecContext = some f → f [] = (some res, none) →
      execRecorded w stmt.query res (RecordingStmtWithExecContext.ExecContext stmt [] w) ∧
      execRecorded w stmt.query res
        (Db.RecordingStmtWithExecContext.ExecContext stmt [] w)) := by
  refine ⟨?_, ?_, ?_, ?_⟩
  · intro f hf hres
    constructor
    · simp [execRecorded, RecordingConnWithExec.Exec, hconn, hf, hres, hrec,
        World.recordResult_some, recorderBody]
    · simp [execRecorded, Db.RecordingConnWithExec.Exec, hconn, hf, hres, hrec,
        World.recordResult_some, recorderBody]
  · intro f hf hres
    constructor
    · simp [execRecorded, RecordingConnWithExecContext.ExecContext, hconn, hf, hres, hrec,
        World.recordResult_some, recorderBodyNamed]
    · simp [execRecorded, Db.RecordingConnWithExecContext.ExecContext, hconn, hf, hres, hrec,
        World.recordResult_some, recorderBodyNamed]
  · intro hres
    constructor
    · simp [execRecorded, RecordingStmt.Exec, hstmt, hres, hsrec,
        World.recordResult_some, recorderBody]
    · simp [execRecorded, Db.RecordingStmt.Exec, hstmt, hres, hsrec,
        World.recordResult_some, recorderBody]
  · intro f hf hres
    constructor
    · simp [execRecorded, RecordingStmtWithExecContext.ExecContext, hstmt, hf, hres, hsrec,
        World.recordResult_some, recorderBodyNamed]
    · simp [execRecorded, Db.RecordingStmtWithExecContext.ExecContext, hstmt, hf, hres, hsrec,
        World.recordResult_some, recorderBodyNamed]

/-- C4 at a connection and a statement whose results cannot report the affected rows. -/
theorem C4_exec_success_two_events_witness :
    sampleUncountedRecordingConn.Conn = some sampleUncountedConn ∧
    sampleUncountedRecordingConn.recorder ≠ RecorderPtr.nil ∧
    sampleUncountedRecordingStmt.Stmt = some sampleUncountedStmt ∧
    sampleUncountedRecordingStmt.recorder ≠ RecorderPtr.nil ∧
    sampleResultWithoutCount.RowsAffected.2 ≠ none ∧
    execRecorded sampleWorld "DELETE FROM users" sampleResultWithoutCount
      (RecordingConnWithExec.Exec sampleUncountedRecordingConn "DELETE FROM users" []
        sampleWorld) ∧
    execRecorded sampleWorld "DELETE FROM users" sampleResultWithoutCount
      (Db.RecordingConnWithExecContext.ExecContext sampleUncountedRecordingConn
        "DELETE FROM users" [] sampleWorld) ∧
    execRecorded sampleWorld "DELETE FROM users WHERE id = 1" sampleResultWithoutCount
      (RecordingStmt.Exec sampleUncountedRecordingStmt [] sampleWorld) ∧
    execRecorded sampleWorld "DELETE FROM users WHERE id = 1" sampleResultWithoutCount
      (RecordingStmtWithExecContext.ExecContext sampleUncountedRecordingStmt [] sampleWorld) :=
  have h := C4_exec_success_two_events sampleUncountedRecordingConn sampleUncountedConn
    sampleUncountedRecordingStmt sampleUncountedStmt "DELETE FROM users"
    sampleResultWithoutCount sampleWorld rfl (by decide) rfl (by decide)
  ⟨rfl, by decide, rfl, by decide, by decide, (h.1 _ rfl rfl).1, (h.2.1 _ rfl rfl).2,
    (h.2.2.1 rfl).1, (h.2.2.2 _ rfl rfl).1⟩

/-! ## Successful query calls without arguments (C5) -/

/-- C5: a query-family call (connection `Query` and `QueryContext`, statement `Query`
and `QueryContext`, in both packages) with no argument and a non-nil recorder, whose
wrapped call returns no error, returns a rows proxy and appends exactly one
`MessageRequest` whose body is the query text; any run of `Next` calls on that proxy
appends nothing, so without a `Close` no response is recorded; a `Close` after the run
appends exactly one `MessageResponse`, which leaves the request and then the response
as the two events appended. -/
theorem C5_query_success_request_then_response (conn : RecordingConn) (c : DriverConn)
    (stmt : RecordingStmt) (s : DriverStmt) (query : String) (w : World)
    (hconn : conn.Conn = some c) (hrec : conn.recorder ≠ RecorderPtr.nil)
    (hstmt : stmt.Stmt = some s) (hsrec : stmt.recorder ≠ RecorderPtr.nil) :
    (∀ f, c.Queryer = some f → (f query []).2 = none →
      queryRecorded RecordingRows.Next RecordingRows.Close w query
        (RecordingConnWithQuery.Query conn query [] w) ∧
      queryRecorded Db.RecordingRows.Next Db.RecordingRows.Close w query
        (Db.RecordingConnWithQuery.Query conn query [] w)) ∧
    (∀ f, c.QueryerContext = some f → (f query []).2 = none →
      queryRecorded RecordingRows.Next RecordingRows.Close w query
        (RecordingConnWithQueryContext.QueryContext conn query [] w) ∧
      queryRecorded Db.RecordingRows.Next Db.RecordingRows.Close w query
        (Db.RecordingConnWithQueryContext.QueryContext conn query [] w)) ∧
    ((s.Query []).2 = none →
      queryRecorded RecordingRows.Next RecordingRows.Close w stmt.query
        (RecordingStmt.Query stmt [] w) ∧
      queryRecorded Db.RecordingRows.Next Db.RecordingRows.Close w stmt.query
        (Db.RecordingStmt.Query stmt [] w)) ∧
    (∀ f, s.StmtQueryContext = some f → (f []).2 = none →
      queryRecorded RecordingRows.Next RecordingRows.Close w stmt.query
        (RecordingStmtWithQueryContext.QueryContext stmt [] w) ∧
      queryRecorded Db.RecordingRows.Next Db.RecordingRows.Close w stmt.query
        (Db.RecordingStmtWithQueryContext.QueryContext stmt [] w)) := by
  refine ⟨?_, ?_, ?_, ?_⟩
  · intro f hf hres
    constructor
    · simp only [RecordingConnWithQuery.Query, hconn, Option.bind, hf, hres, hrec, recorderBody,
        ne_eq, not_true_eq_false, not_false_eq_true, if_true, if_false, List.length_nil,
        gt_iff_lt, lt_self_iff_false]
      exact queryRecorded_root w _ query _ _ hrec (World.recordRequest_events _ _ _) rfl
    · simp only [Db.RecordingConnWithQuery.Query, hconn, Option.bind, hf, hres, hrec,
        recorderBody, ne_eq, not_true_eq_false, not_false_eq_true, if_true, if_false,
        List.length_nil, gt_iff_lt, lt_self_iff_false]
      exact queryRecorded_db w _ query _ _ hrec (World.recordRequest_events _ _ _) rfl
  · intro f hf hres
    constructor
    · simp only [RecordingConnWithQueryContext.QueryContext, hconn, Option.bind, hf, hres, hrec,
        recorderBodyNamed, ne_eq, not_true_eq_false, not_false_eq_true, if_true, if_false,
        List.length_nil, gt_iff_lt, lt_self_iff_false]
      exact queryRecorded_root w _ query _ _ hrec (World.recordRequest_events _ _ _) rfl
    · simp only [Db.RecordingConnWithQueryContext.QueryContext, hconn, Option.bind, hf, hres,
        hrec, recorderBodyNamed, ne_eq, not_true_eq_false, not_false_eq_true, if_true,
        if_false, List.length_nil, gt_iff_lt, lt_self_iff_false]
      exact queryRecorded_db w _ query _ _ hrec (World.recordRequest_events _ _ _) rfl
  · intro hres
    constructor
    · simp only [RecordingStmt.Query, hstmt, hres, hsrec, recorderBody, ne_eq,
        not_true_eq_false, not_false_eq_true, if_true, if_false, List.length_nil, gt_iff_lt,
        lt_self_iff_false]
      exact queryRecorded_root w _ stmt.query _ _ hsrec (World.recordRequest_events _ _ _) rfl
    · simp only [Db.RecordingStmt.Query, hstmt, hres, hsrec, recorderBody, ne_eq,
        not_true_eq_false, not_false_eq_true, if_true, if_false, List.length_nil, gt_iff_lt,
        lt_self_iff_false]
      exact queryRecorded_db w _ stmt.query _ _ hsrec (World.recordRequest_events _ _ _) rfl
  · intro f hf hres
    constructor
    · simp only [RecordingStmtWithQueryContext.QueryContext, hstmt, Option.bind, hf, hres,
        hsrec, recorderBodyNamed, ne_eq, not_true_eq_false, not_false_eq_true, if_true,
        if_false, List.length_nil, gt_iff_lt, lt_self_iff_false]
      exact queryRecorded_root w _ stmt.query _ _ hsrec (World.recordRequest_events _ _ _) rfl
    · simp only [Db.RecordingStmtWithQueryContext.QueryContext, hstmt, Option.bind, hf, hres,
        hsrec, recorderBodyNamed, ne_eq, not_true_eq_false, not_false_eq_true, if_true,
        if_false, List.length_nil, gt_iff_lt, lt_self_iff_false]
      exact queryRecorded_db w _ stmt.query _ _ hsrec (World.recordRequest_events _ _ _) rfl

/-- C5 at a connection and a statement that implement every optional interface. -/
theorem C5_query_success_request_then_response_witness :
    sampleUncountedRecordingConn.Conn = some sampleUncountedConn ∧
    sampleUncountedRecordingConn.recorder ≠ RecorderPtr.nil ∧
    sampleUncountedRecordingStmt.Stmt = some sampleUncountedStmt ∧
    sampleUncountedRecordingStmt.recorder ≠ RecorderPtr.nil ∧
    queryRecorded RecordingRows.Next RecordingRows.Close sampleWorld "SELECT id FROM users"
      (RecordingConnWithQuery.Query sampleUncountedRecordingConn "SELECT id FROM users" []
        sampleWorld) ∧
    queryRecorded Db.RecordingRows.Next Db.RecordingRows.Close sampleWorld
      "SELECT id FROM users"
      (Db.RecordingConnWithQueryContext.QueryContext sampleUncountedRecordingConn
        "SELECT id FROM users" [] sampleWorld) ∧
    queryRecorded RecordingRows.Next RecordingRows.Close sampleWorld
      "DELETE FROM users WHERE id = 1"
      (RecordingStmt.Query sampleUncountedRecordingStmt [] sampleWorld) ∧
    queryRecorded RecordingRows.Next RecordingRows.Close sampleWorld
      "DELETE FROM users WHERE id = 1"
      (RecordingStmtWithQueryContext.QueryContext sampleUncountedRecordingStmt [] sampleWorld) :=
  have h := C5_query_success_request_then_response sampleUncountedRecordingConn
    sampleUncountedConn sampleUncountedRecordingStmt sampleUncountedStmt
    "SELECT id FROM users" sampleWorld rfl (by decide) rfl (by decide)
  ⟨rfl, by decide, rfl, by decide, (h.1 _ rfl rfl).1, (h.2.1 _ rfl rfl).2,
    (h.2.2.1 rfl).1, (h.2.2.2 _ rfl rfl).1⟩

/-! ## Named parameters in the context-aware calls (C6, C7) -/

/-- C6 as stated fails.  With one named parameter, `ExecContext` on a connection proxy
without a recorder returns the result of the wrapped call and no error, and
`ExecContext` on a proxy whose wrapped call fails returns the error of the wrapped
call, `boom`. -/
theorem C6_counterexample :
    (∃ p ∈ sampleNamedArgs, p.Name ≠ "") ∧
    returnedError (RecordingConnWithExecContext.ExecContext sampleSilentRecordingConn
      "UPDATE users SET age = 1 WHERE id = :id" sampleNamedArgs sampleWorld) = none ∧
    returnedError (Db.RecordingConnWithExecContext.ExecContext sampleSilentRecordingConn
      "UPDATE users SET age = 1 WHERE id = :id" sampleNamedArgs sampleWorld) = none ∧
    returnedError (RecordingConnWithExecContext.ExecContext sampleFailingRecordingConn
      "UPDATE users SET age = 1 WHERE id = :id" sampleNamedArgs sampleWorld) =
        some (Error.New "boom") ∧
    some (Error.New "boom") ≠ some namedParametersError := by
  refine ⟨⟨_, List.mem_singleton.mpr rfl, by decide⟩, rfl, rfl, rfl, by decide⟩

/-- C6 (amended): a context-aware call (connection `QueryContext` and `ExecContext`,
statement `ExecContext` and `QueryContext`, in both packages) whose argument list holds
a parameter with a non-empty `Name` appends no event; and when the recorder is not nil
and the wrapped operation, which the wrapped object implements, returned no error,
the call returns the error
`sql: driver does not support the use of Named Parameters`. -/
theorem C6_named_parameters_rejected (conn : RecordingConn) (c : DriverConn)
    (stmt : RecordingStmt) (s : DriverStmt) (query : String) (args : List NamedValue)
    (w : World) (hconn : conn.Conn = some c) (hstmt : stmt.Stmt = some s)
    (hnamed : ∃ p ∈ args, p.Name ≠ "") :
    (eventsAfter (RecordingConnWithQueryContext.QueryContext conn query args w) = w.events ∧
     eventsAfter (Db.RecordingConnWithQueryContext.QueryContext conn query args w) = w.events ∧
     eventsAfter (RecordingConnWithExecContext.ExecContext conn query args w) = w.events ∧
     eventsAfter (Db.RecordingConnWithExecContext.ExecContext conn query args w) = w.events ∧
     eventsAfter (RecordingStmtWithExecContext.ExecContext stmt args w) = w.events ∧
     eventsAfter (Db.RecordingStmtWithExecContext.ExecContext stmt args w) = w.events ∧
     eventsAfter (RecordingStmtWithQueryContext.QueryContext stmt args w) = w.events ∧
     eventsAfter (Db.RecordingStmtWithQueryContext.QueryContext stmt args w) = w.events) ∧
    (∀ f, c.QueryerContext = some f → (f query args).2 = none →
      conn.recorder ≠ RecorderPtr.nil →
      returnedError (RecordingConnWithQueryContext.QueryContext conn query args w) =
        some namedParametersError ∧
      returnedError (Db.RecordingConnWithQueryContext.QueryContext conn query args w) =
        some namedParametersError) ∧
    (∀ f, c.ExecerContext = some f → (f query args).2 = none →
      conn.recorder ≠ RecorderPtr.nil →
      returnedError (RecordingConnWithExecContext.ExecContext conn query args w) =
        some namedParametersError ∧
      returnedError (Db.RecordingConnWithExecContext.ExecContext conn query args w) =
        some namedParametersError) ∧
    (∀ f, s.StmtExecContext = some f → (f args).2 = none →
      stmt.recorder ≠ RecorderPtr.nil →
      returnedError (RecordingStmtWithExecContext.ExecContext stmt args w) =
        some namedParametersError ∧
      returnedError (Db.RecordingStmtWithExecContext.ExecContext stmt args w) =
        some namedParametersError) ∧
    (∀ f, s.StmtQueryContext = some f → (f args).2 = none →
      stmt.recorder ≠ RecorderPtr.nil →
      returnedError (RecordingStmtWithQueryContext.QueryContext stmt args w) =
        some namedParametersError ∧
      returnedError (Db.RecordingStmtWithQueryContext.QueryContext stmt args w) =
        some namedParametersError) := by
  refine ⟨named_appends_nothing conn stmt query args w hnamed, ?_, ?_, ?_, ?_⟩
  · intro f hf hres hrec
    have hb : conn.Conn.bind DriverConn.QueryerContext = some f := by simp [hconn, hf]
    constructor
    · simp [RecordingConnWithQueryContext.QueryContext, hb, hres, hrec,
        recorderBodyNamed_named _ _ hnamed, returnedError]
    · simp [Db.RecordingConnWithQueryContext.QueryContext, hb, hres, hrec,
        recorderBodyNamed_named _ _ hnamed, returnedError]
  · intro f hf hres hrec
    have hb : conn.Conn.bind DriverConn.ExecerContext = some f := by simp [hconn, hf]
    constructor
    · simp [RecordingConnWithExecContext.ExecContext, hb, hres, hrec,
        recorderBodyNamed_named _ _ hnamed, returnedError]
    · simp [Db.RecordingConnWithExecContext.ExecContext, hb, hres, hrec,
        recorderBodyNamed_named _ _ hnamed, returnedError]
  · intro f hf hres hrec
    have hb : stmt.Stmt.bind DriverStmt.StmtExecContext = some f := by simp [hstmt, hf]
    constructor
    · simp [RecordingStmtWithExecContext.ExecContext, hb, hres, hrec,
        recorderBodyNamed_named _ _ hnamed, returnedError]
    · simp [Db.RecordingStmtWithExecContext.ExecContext, hb, hres, hrec,
        recorderBodyNamed_named _ _ hnamed, returnedError]
  · intro f hf hres hrec
    have hb : stmt.Stmt.bind DriverStmt.StmtQueryContext = some f := by simp [hstmt, hf]
    constructor
    · simp [RecordingStmtWithQueryContext.QueryContext, hb, hres, hrec,
        recorderBodyNamed_named _ _ hnamed, returnedError]
    · simp [Db.RecordingStmtWithQueryContext.QueryContext, hb, hres, hrec,
        recorderBodyNamed_named _ _ hnamed, returnedError]

/-- C6 (amended) at a connection and a statement that implement every optional
interface, with one named parameter. -/
theorem C6_named_parameters_rejected_witness :
    sampleUncountedRecordingConn.Conn = some sampleUncountedConn ∧
    sampleUncountedRecordingStmt.Stmt = some sampleUncountedStmt ∧
    (∃ p ∈ sampleNamedArgs, p.Name ≠ "") ∧
    eventsAfter (RecordingConnWithQueryContext.QueryContext sampleUncountedRecordingConn
      "SELECT name FROM users WHERE id = :id" sampleNamedArgs sampleWorld) =
        sampleWorld.events ∧
    returnedError (RecordingConnWithQueryContext.QueryContext sampleUncountedRecordingConn
      "SELECT name FROM users WHERE id = :id" sampleNamedArgs sampleWorld) =
        some namedParametersError ∧
    returnedError (Db.RecordingConnWithExecContext.ExecContext sampleUncountedRecordingConn
      "SELECT name FROM users WHERE id = :id" sampleNamedArgs sampleWorld) =
        some namedParametersError ∧
    returnedError (RecordingStmtWithExecContext.ExecContext sampleUncountedRecordingStmt
      sampleNamedArgs sampleWorld) = some namedParametersError ∧
    returnedError (Db.RecordingStmtWithQueryContext.QueryContext sampleUncountedRecordingStmt
      sampleNamedArgs sampleWorld) = some namedParametersError :=
  have hnamed : ∃ p ∈ sampleNamedArgs, p.Name ≠ "" :=
    ⟨_, List.mem_singleton.mpr rfl, by decide⟩
  have h := C6_named_parameters_rejected sampleUncountedRecordingConn sampleUncountedConn
    sampleUncountedRecordingStmt sampleUncountedStmt "SELECT name FROM users WHERE id = :id"
    sampleNamedArgs sampleWorld rfl rfl hnamed
  ⟨rfl, rfl, hnamed, h.1.1, (h.2.1 _ rfl rfl (by decide)).1, (h.2.2.1 _ rfl rfl (by decide)).2,
    (h.2.2.2.1 _ rfl rfl (by decide)).1, (h.2.2.2.2 _ rfl rfl (by decide)).2⟩

/-- C7 as stated fails.  `ExecContext` on a connection proxy, given one named
parameter, returns the named-parameter error, and the log of forwarded calls then
holds the `ExecContext` of the wrapped connection: the wrapped operation has run. -/
theorem C7_counterexample :
    returnedError (RecordingConnWithExecContext.ExecContext sampleUncountedRecordingConn
      "UPDATE users SET age = 1 WHERE id = :id" sampleNamedArgs sampleWorld) =
        some namedParametersError ∧
    callsAfter (RecordingConnWithExecContext.ExecContext sampleUncountedRecordingConn
      "UPDATE users SET age = 1 WHERE id = :id" sampleNamedArgs sampleWorld) =
        [Call.ConnExecContext "UPDATE users SET age = 1 WHERE id = :id" sampleNamedArgs] ∧
    returnedError (Db.RecordingStmtWithQueryContext.QueryContext sampleUncountedRecordingStmt
      sampleNamedArgs sampleWorld) = some namedParametersError ∧
    callsAfter (Db.RecordingStmtWithQueryContext.QueryContext sampleUncountedRecordingStmt
      sampleNamedArgs sampleWorld) = [Call.StmtQueryContext sampleNamedArgs] := by
  refine ⟨rfl, ?_, rfl, ?_⟩ <;> decide

/-- C7 (amended): when a context-aware call (connection `QueryContext` and
`ExecContext`, statement `ExecContext` and `QueryContext`, in both packages) on a proxy
whose wrapped object implements the operation returns the named-parameter error, the
call has been forwarded before: the operation of the wrapped object was invoked
exactly once, with the arguments of the call, and the rejection came after it. -/
theorem C7_named_rejection_follows_forwarding (conn : RecordingConn) (c : DriverConn)
    (stmt : RecordingStmt) (s : DriverStmt) (query : String) (args : List NamedValue)
    (w : World) (hconn : conn.Conn = some c) (hstmt : stmt.Stmt = some s) :
    (∀ f, c.QueryerContext = some f →
      (returnedError (RecordingConnWithQueryContext.QueryContext conn query args w) = some namedParametersError →
        callsAfter (RecordingConnWithQueryContext.QueryContext conn query args w) =
          w.calls ++ [Call.ConnQueryContext query args]) ∧
      (returnedError (Db.RecordingConnWithQueryContext.QueryContext conn query args w) = some namedParametersError →
        callsAfter (Db.RecordingConnWithQueryContext.QueryContext conn query args w) =
          w.calls ++ [Call.ConnQueryContext query args])) ∧
    (∀ f, c.ExecerContext = some f →
      (returnedError (RecordingConnWithExecContext.ExecContext conn query args w) = some namedParametersError →
        callsAfter (RecordingConnWithExecContext.ExecContext conn query args w) =
          w.calls ++ [Call.ConnExecContext query args]) ∧
      (returnedError (Db.RecordingConnWithExecContext.ExecContext conn query args w) = some namedParametersError →
        callsAfter (Db.RecordingConnWithExecContext.ExecContext conn query args w) =
          w.calls ++ [Call.ConnExecContext query args])) ∧
    (∀ f, s.StmtExecContext = some f →
      (returnedError (RecordingStmtWithExecContext.ExecContext stmt args w) = some namedParametersError →
        callsAfter (RecordingStmtWithExecContext.ExecContext stmt args w) =
          w.calls ++ [Call.StmtExecContext args]) ∧
      (returnedError (Db.RecordingStmtWithExecContext.ExecContext stmt args w) = some namedParametersError →
        callsAfter (Db.RecordingStmtWithExecContext.ExecContext stmt args w) =
          w.calls ++ [Call.StmtExecContext args])) ∧
    (∀ f, s.StmtQueryContext = some f →
      (returnedError (RecordingStmtWithQueryContext.QueryContext stmt args w) = some namedParametersError →
        callsAfter (RecordingStmtWithQueryContext.QueryContext stmt args w) =
          w.calls ++ [Call.StmtQueryContext args]) ∧
      (returnedError (Db.RecordingStmtWithQueryContext.QueryContext stmt args w) = some namedParametersError →
        callsAfter (Db.RecordingStmtWithQueryContext.QueryContext stmt args w) =
          w.calls ++ [Call.StmtQueryContext args])) := by
  refine ⟨?_, ?_, ?_, ?_⟩
  · intro f hf
    have hb : conn.Conn.bind DriverConn.QueryerContext = some f := by simp [hconn, hf]
    constructor
    · intro herr
      simp only [RecordingConnWithQueryContext.QueryContext, hb, returnedError, callsAfter] at herr ⊢
      by_cases h1 : (f query args).2 = none
      · by_cases h2 : conn.recorder = RecorderPtr.nil
        · simp [h1, h2, namedParametersError] at herr
        · cases hrb : recorderBodyNamed query args with
          | error e => simp [h1, h2, hrb]
          | ok b => simp [h1, h2, hrb] at herr
      · simp [h1]
    · intro herr
      simp only [Db.RecordingConnWithQueryContext.QueryContext, hb, returnedError, callsAfter] at herr ⊢
      by_cases h1 : (f query args).2 = none
      · by_cases h2 : conn.recorder = RecorderPtr.nil
        · simp [h1, h2, namedParametersError] at herr
        · cases hrb : recorderBodyNamed query args with
          | error e => simp [h1, h2, hrb]
          | ok b => simp [h1, h2, hrb] at herr
      · simp [h1]
  · intro f hf
    have hb : conn.Conn.bind DriverConn.ExecerContext = some f := by simp [hconn, hf]
    constructor
    · intro herr
      simp only [RecordingConnWithExecContext.ExecContext, hb, returnedError, callsAfter] at herr ⊢
      by_cases h1 : (f query args).2 = none
      · by_cases h2 : conn.recorder = RecorderPtr.nil
        · simp [h1, h2, namedParametersError] at herr
        · cases hrb : recorderBodyNamed query args with
          | error e => simp [h1, h2, hrb]
          | ok b => simp [h1, h2, hrb] at herr
      · simp [h1]
    · intro herr
      simp only [Db.RecordingConnWithExecContext.ExecContext, hb, returnedError, callsAfter] at herr ⊢
      by_cases h1 : (f query args).2 = none
      · by_cases h2 : conn.recorder = RecorderPtr.nil
        · simp [h1, h2, namedParametersError] at herr
        · cases hrb : recorderBodyNamed query args with
          | error e => simp [h1, h2, hrb]
          | ok b => simp [h1, h2, hrb] at herr
      · simp [h1]
  · intro f hf
    have hb : stmt.Stmt.bind DriverStmt.StmtExecContext = some f := by simp [hstmt, hf]
    constructor
    · intro herr
      simp only [RecordingStmtWithExecContext.ExecContext, hb, returnedError, callsAfter] at herr ⊢
      by_cases h1 : (f args).2 = none
      · by_cases h2 : stmt.recorder = RecorderPtr.nil
        · simp [h1, h2, namedParametersError] at herr
        · cases hrb : recorderBodyNamed stmt.query args with
          | error e => simp [h1, h2, hrb]
          | ok b => simp [h1, h2, hrb] at herr
      · simp [h1]
    · intro herr
      simp only [Db.RecordingStmtWithExecContext.ExecContext, hb, returnedError, callsAfter] at herr ⊢
      by_cases h1 : (f args).2 = none
      · by_cases h2 : stmt.recorder = RecorderPtr.nil
        · simp [h1, h2, namedParametersError] at herr
        · cases hrb : recorderBodyNamed stmt.query args with
          | error e => simp [h1, h2, hrb]
          | ok b => simp [h1, h2, hrb] at herr
      · simp [h1]
  · intro f hf
    have hb : stmt.Stmt.bind DriverStmt.StmtQueryContext = some f := by simp [hstmt, hf]
    constructor
    · intro herr
      simp only [RecordingStmtWithQueryContext.QueryContext, hb, returnedError, callsAfter] at herr ⊢
      by_cases h1 : (f args).2 = none
      · by_cases h2 : stmt.recorder = RecorderPtr.nil
        · simp [h1, h2, namedParametersError] at herr
        · cases hrb : recorderBodyNamed stmt.query args with
          | error e => simp [h1, h2, hrb]
          | ok b => simp [h1, h2, hrb] at herr
      · simp [h1]
    · intro herr
      simp only [Db.RecordingStmtWithQueryContext.QueryContext, hb, returnedError, callsAfter] at herr ⊢
      by_cases h1 : (f args).2 = none
      · by_cases h2 : stmt.recorder = RecorderPtr.nil
        · simp [h1, h2, namedParametersError] at herr
        · cases hrb : recorderBodyNamed stmt.query args with
          | error e => simp [h1, h2, hrb]
          | ok b => simp [h1, h2, hrb] at herr
      · simp [h1]

/-- C7 (amended) at a connection and a statement that implement every optional
interface, with one named parameter. -/
theorem C7_named_rejection_follows_forwarding_witness :
    sampleUncountedRecordingConn.Conn = some sampleUncountedConn ∧
    sampleUncountedRecordingStmt.Stmt = some sampleUncountedStmt ∧
    returnedError (RecordingConnWithQueryContext.QueryContext sampleUncountedRecordingConn
      "SELECT name FROM users WHERE id = :id" sampleNamedArgs sampleWorld) =
        some namedParametersError ∧
    callsAfter (RecordingConnWithQueryContext.QueryContext sampleUncountedRecordingConn
      "SELECT name FROM users WHERE id = :id" sampleNamedArgs sampleWorld) =
        sampleWorld.calls ++
          [Call.ConnQueryContext "SELECT name FROM users WHERE id = :id" sampleNamedArgs] ∧
    callsAfter (Db.RecordingStmtWithExecContext.ExecContext sampleUncountedRecordingStmt
      sampleNamedArgs sampleWorld) =
        sampleWorld.calls ++ [Call.StmtExecContext sampleNamedArgs] :=
  have h := C7_named_rejection_follows_forwarding sampleUncountedRecordingConn
    sampleUncountedConn sampleUncountedRecordingStmt sampleUncountedStmt
    "SELECT name FROM users WHERE id = :id" sampleNamedArgs sampleWorld rfl rfl
  ⟨rfl, rfl, rfl, (h.1 _ rfl).1 rfl, (h.2.2.1 _ rfl).2 rfl⟩

/-! ## The body of the request (C8) -/

/-- C8: the `MessageRequest` an instrumented operation records has as body the query
text when the argument list is empty and otherwise the query text, one space, and the
values in call order, space-separated inside square brackets.  For the statement
operations the query text is the one given to `Prepare` or `PrepareContext`, which
store it in the statement proxy; for the context-aware operations, given positional
parameters, the values are those of the parameters in order.  For the query
`INSERT INTO users(name, age) VALUES(?, ?)` and the arguments `Peter` and `24` the
body is `INSERT INTO users(name, age) VALUES(?, ?) [Peter 24]`. -/
theorem C8_request_body (conn : RecordingConn) (c : DriverConn) (stmt : RecordingStmt)
    (s : DriverStmt) (query : String) (args : List Value) (nargs : List NamedValue)
    (w : World) (hconn : conn.Conn = some c) (hrec : conn.recorder ≠ RecorderPtr.nil)
    (hstmt : stmt.Stmt = some s) (hsrec : stmt.recorder ≠ RecorderPtr.nil)
    (hpos : ∀ p ∈ nargs, p.Name = "") :
    (∀ f, c.Queryer = some f → (f query args).2 = none →
      requestBodyIs w (describedBody query (args.map fmtValue))
        (RecordingConnWithQuery.Query conn query args w) ∧
      requestBodyIs w (describedBody query (args.map fmtValue))
        (Db.RecordingConnWithQuery.Query conn query args w)) ∧
    (∀ f, c.Execer = some f → (f query args).2 = none →
      requestBodyIs w (describedBody query (args.map fmtValue))
        (RecordingConnWithExec.Exec conn query args w) ∧
      requestBodyIs w (describedBody query (args.map fmtValue))
        (Db.RecordingConnWithExec.Exec conn query args w)) ∧
    (∀ f, c.QueryerContext = some f → (f query nargs).2 = none →
      requestBodyIs w (describedBody query (nargs.map (fun p => fmtValue p.Value)))
        (RecordingConnWithQueryContext.QueryContext conn query nargs w) ∧
      requestBodyIs w (describedBody query (nargs.map (fun p => fmtValue p.Value)))
        (Db.RecordingConnWithQueryContext.QueryContext conn query nargs w)) ∧
    (∀ f, c.ExecerContext = some f → (f query nargs).2 = none →
      requestBodyIs w (describedBody query (nargs.map (fun p => fmtValue p.Value)))
        (RecordingConnWithExecContext.ExecContext conn query nargs w) ∧
      requestBodyIs w (describedBody query (nargs.map (fun p => fmtValue p.Value)))
        (Db.RecordingConnWithExecContext.ExecContext conn query nargs w)) ∧
    (∀ f, s.StmtExecContext = some f → (f nargs).2 = none →
      requestBodyIs w (describedBody stmt.query (nargs.map (fun p => fmtValue p.Value)))
        (RecordingStmtWithExecContext.ExecContext stmt nargs w) ∧
      requestBodyIs w (describedBody stmt.query (nargs.map (fun p => fmtValue p.Value)))
        (Db.RecordingStmtWithExecContext.ExecContext stmt nargs w)) ∧
    (∀ f, s.StmtQueryContext = some f → (f nargs).2 = none →
      requestBodyIs w (describedBody stmt.query (nargs.map (fun p => fmtValue p.Value)))
        (RecordingStmtWithQueryContext.QueryContext stmt nargs w) ∧
      requestBodyIs w (describedBody stmt.query (nargs.map (fun p => fmtValue p.Value)))
        (Db.RecordingStmtWithQueryContext.QueryContext stmt nargs w)) ∧
    (requestBodyIs w (describedBody stmt.query (args.map fmtValue))
        (RecordingStmt.Exec stmt args w) ∧
      requestBodyIs w (describedBody stmt.query (args.map fmtValue))
        (Db.RecordingStmt.Exec stmt args w)) ∧
    (requestBodyIs w (describedBody stmt.query (args.map fmtValue))
        (RecordingStmt.Query stmt args w) ∧
      requestBodyIs w (describedBody stmt.query (args.map fmtValue))
        (Db.RecordingStmt.Query stmt args w)) ∧
    ((c.Prepare query).2 = none →
      (∃ t rs, (RecordingConn.Prepare conn query w).1 =
          Outcome.ret (StmtValue.proxy t rs, none) ∧ rs.query = query) ∧
      (∃ t rs, (Db.RecordingConn.Prepare conn query w).1 =
          Outcome.ret (StmtValue.proxy t rs, none) ∧ rs.query = query)) ∧
    (∀ f, c.ConnPrepareContext = some f → (f query).2 = none →
      (∃ t rs, (RecordingConnWithPrepareContext.PrepareContext conn query w).1 =
          Outcome.ret (StmtValue.proxy t rs, none) ∧ rs.query = query) ∧
      (∃ t rs, (Db.RecordingConnWithPrepareContext.PrepareContext conn query w).1 =
          Outcome.ret (StmtValue.proxy t rs, none) ∧ rs.query = query)) ∧
    describedBody "INSERT INTO users(name, age) VALUES(?, ?)" (samplePeterArgs.map fmtValue) =
      "INSERT INTO users(name, age) VALUES(?, ?) [Peter 24]" := by
  refine ⟨?_, ?_, ?_, ?_, ?_, ?_, ?_, ?_, ?_, ?_, ?_⟩
  · intro f hf hres
    have hb : conn.Conn.bind DriverConn.Queryer = some f := by simp [hconn, hf]
    rw [← recorderBody_eq_describedBody]
    constructor
    · simp only [RecordingConnWithQuery.Query, hb, hres, hrec, ne_eq, not_true_eq_false,
        not_false_eq_true, if_true, if_false]
      exact requestBodyIs_recordRequest _ _ _ _ _ rfl
    · simp only [Db.RecordingConnWithQuery.Query, hb, hres, hrec, ne_eq, not_true_eq_false,
        not_false_eq_true, if_true, if_false]
      exact requestBodyIs_recordRequest _ _ _ _ _ rfl
  · intro f hf hres
    have hb : conn.Conn.bind DriverConn.Execer = some f := by simp [hconn, hf]
    rw [← recorderBody_eq_describedBody]
    constructor
    · simp only [RecordingConnWithExec.Exec, hb, hres, hrec, ne_eq, not_true_eq_false,
        not_false_eq_true, if_true, if_false]
      exact requestBodyIs_recordResult _ _ _ _ _ _ _ _ _ rfl
    · simp only [Db.RecordingConnWithExec.Exec, hb, hres, hrec, ne_eq, not_true_eq_false,
        not_false_eq_true, if_true, if_false]
      exact requestBodyIs_recordResult _ _ _ _ _ _ _ _ _ rfl
  · intro f hf hres
    have hb : conn.Conn.bind DriverConn.QueryerContext = some f := by simp [hconn, hf]
    have hd : describedBody query (nargs.map (fun p => fmtValue p.Value)) =
        recorderBody query (nargs.map NamedValue.Value) := by
      rw [recorderBody_eq_describedBody, List.map_map]; rfl
    rw [hd]
    constructor
    · simp only [RecordingConnWithQueryContext.QueryContext, hb, hres, hrec, ne_eq, not_true_eq_false,
        not_false_eq_true, if_true, if_false, recorderBodyNamed_positional _ _ hpos]
      exact requestBodyIs_recordRequest _ _ _ _ _ rfl
    · simp only [Db.RecordingConnWithQueryContext.QueryContext, hb, hres, hrec, ne_eq, not_true_eq_false,
        not_false_eq_true, if_true, if_false, recorderBodyNamed_positional _ _ hpos]
      exact requestBodyIs_recordRequest _ _ _ _ _ rfl
  · intro f hf hres
    have hb : conn.Conn.bind DriverConn.ExecerContext = some f := by simp [hconn, hf]
    have hd : describedBody query (nargs.map (fun p => fmtValue p.Value)) =
        recorderBody query (nargs.map NamedValue.Value) := by
      rw [recorderBody_eq_describedBody, List.map_map]; rfl
    rw [hd]
    constructor
    · simp only [RecordingConnWithExecContext.ExecContext, hb, hres, hrec, ne_eq, not_true_eq_false,
        not_false_eq_true, if_true, if_false, recorderBodyNamed_positional _ _ hpos]
      exact requestBodyIs_recordResult _ _ _ _ _ _ _ _ _ rfl
    · simp only [Db.RecordingConnWithExecContext.ExecContext, hb, hres, hrec, ne_eq, not_true_eq_false,
        not_false_eq_true, if_true, if_false, recorderBodyNamed_positional _ _ hpos]
      exact requestBodyIs_recordResult _ _ _ _ _ _ _ _ _ rfl
  · intro f hf hres
    have hb : stmt.Stmt.bind DriverStmt.StmtExecContext = some f := by simp [hstmt, hf]
    have hd : describedBody stmt.query (nargs.map (fun p => fmtValue p.Value)) =
        recorderBody stmt.query (nargs.map NamedValue.Value) := by
      rw [recorderBody_eq_describedBody, List.map_map]; rfl
    rw [hd]
    constructor
    · simp only [RecordingStmtWithExecContext.ExecContext, hb, hres, hsrec, ne_eq, not_true_eq_false,
        not_false_eq_true, if_true, if_false, recorderBodyNamed_positional _ _ hpos]
      exact requestBodyIs_recordResult _ _ _ _ _ _ _ _ _ rfl
    · simp only [Db.RecordingStmtWithExecContext.ExecContext, hb, hres, hsrec, ne_eq, not_true_eq_false,
        not_false_eq_true, if_true, if_false, recorderBodyNamed_positional _ _ hpos]
      exact requestBodyIs_recordResult _ _ _ _ _ _ _ _ _ rfl
  · intro f hf hres
    have hb : stmt.Stmt.bind DriverStmt.StmtQueryContext = some f := by simp [hstmt, hf]
    have hd : describedBody stmt.query (nargs.map (fun p => fmtValue p.Value)) =
        recorderBody stmt.query (nargs.map NamedValue.Value) := by
      rw [recorderBody_eq_describedBody, List.map_map]; rfl
    rw [hd]
    constructor
    · simp only [RecordingStmtWithQueryContext.QueryContext, hb, hres, hsrec, ne_eq, not_true_eq_false,
        not_false_eq_true, if_true, if_false, recorderBodyNamed_positional _ _ hpos]
      exact requestBodyIs_recordRequest _ _ _ _ _ rfl
    · simp only [Db.RecordingStmtWithQueryContext.QueryContext, hb, hres, hsrec, ne_eq, not_true_eq_false,
        not_false_eq_true, if_true, if_false, recorderBodyNamed_positional _ _ hpos]
      exact requestBodyIs_recordRequest _ _ _ _ _ rfl
  · rw [← recorderBody_eq_describedBody]
    constructor
    · simp only [RecordingStmt.Exec, hstmt, hsrec, ne_eq, not_true_eq_false,
        not_false_eq_true, if_true, if_false]
      exact requestBodyIs_recordResult _ _ _ _ _ _ _ _ _ rfl
    · simp only [Db.RecordingStmt.Exec, hstmt, hsrec, ne_eq, not_true_eq_false,
        not_false_eq_true, if_true, if_false]
      exact requestBodyIs_recordResult _ _ _ _ _ _ _ _ _ rfl
  · rw [← recorderBody_eq_describedBody]
    constructor
    · simp only [RecordingStmt.Query, hstmt, hsrec, ne_eq, not_true_eq_false,
        not_false_eq_true, if_true, if_false]
      exact requestBodyIs_recordRequest _ _ _ _ _ rfl
    · simp only [Db.RecordingStmt.Query, hstmt, hsrec, ne_eq, not_true_eq_false,
        not_false_eq_true, if_true, if_false]
      exact requestBodyIs_recordRequest _ _ _ _ _ rfl
  · intro hres
    constructor
    · refine ⟨prepareStmtType (c.Prepare query).1,
        { Stmt := (c.Prepare query).1, recorder := conn.recorder, query := query,
          sourceName := conn.sourceName }, ?_, rfl⟩
      simp [RecordingConn.Prepare, hconn, hres]
    · refine ⟨prepareStmtType (c.Prepare query).1,
        { Stmt := (c.Prepare query).1, recorder := conn.recorder, query := query,
          sourceName := conn.sourceName }, ?_, rfl⟩
      simp [Db.RecordingConn.Prepare, hconn, hres]
  · intro f hf hres
    have hb : conn.Conn.bind DriverConn.ConnPrepareContext = some f := by simp [hconn, hf]
    constructor
    · refine ⟨prepareContextStmtType (f query).1,
        { Stmt := (f query).1, recorder := conn.recorder, query := query,
          sourceName := conn.sourceName }, ?_, rfl⟩
      simp [RecordingConnWithPrepareContext.PrepareContext, hb, hres]
    · refine ⟨prepareContextStmtType (f query).1,
        { Stmt := (f query).1, recorder := conn.recorder, query := query,
          sourceName := conn.sourceName }, ?_, rfl⟩
      simp [Db.RecordingConnWithPrepareContext.PrepareContext, hb, hres]
  · decide

/-- C8 at the spec's example: the query `INSERT INTO users(name, age) VALUES(?, ?)`
with the arguments `Peter` and `24`, on a connection and a statement that implement
every optional interface. -/
theorem C8_request_body_witness :
    sampleUncountedRecordingConn.Conn = some sampleUncountedConn ∧
    sampleUncountedRecordingConn.recorder ≠ RecorderPtr.nil ∧
    sampleInsertRecordingStmt.Stmt = some sampleUncountedStmt ∧
    sampleInsertRecordingStmt.recorder ≠ RecorderPtr.nil ∧
    (∀ p ∈ samplePeterNamedArgs, p.Name = "") ∧
    requestBodyIs sampleWorld
      (describedBody "INSERT INTO users(name, age) VALUES(?, ?)"
        (samplePeterArgs.map fmtValue))
      (RecordingConnWithExec.Exec sampleUncountedRecordingConn
        "INSERT INTO users(name, age) VALUES(?, ?)" samplePeterArgs sampleWorld) ∧
    requestBodyIs sampleWorld
      (describedBody "INSERT INTO users(name, age) VALUES(?, ?)"
        (samplePeterNamedArgs.map (fun p => fmtValue p.Value)))
      (Db.RecordingConnWithQueryContext.QueryContext sampleUncountedRecordingConn
        "INSERT INTO users(name, age) VALUES(?, ?)" samplePeterNamedArgs sampleWorld) ∧
    requestBodyIs sampleWorld
      (describedBody "INSERT INTO users(name, age) VALUES(?, ?)"
        (samplePeterArgs.map fmtValue))
      (RecordingStmt.Exec sampleInsertRecordingStmt samplePeterArgs sampleWorld) ∧
    describedBody "INSERT INTO users(name, age) VALUES(?, ?)" (samplePeterArgs.map fmtValue) =
      "INSERT INTO users(name, age) VALUES(?, ?) [Peter 24]" :=
  have h := C8_request_body sampleUncountedRecordingConn sampleUncountedConn
    sampleInsertRecordingStmt sampleUncountedStmt "INSERT INTO users(name, age) VALUES(?, ?)"
    samplePeterArgs samplePeterNamedArgs sampleWorld rfl (by decide) rfl (by decide)
    (by decide)
  ⟨rfl, by decide, rfl, by decide, by decide, (h.2.1 _ rfl rfl).1, (h.2.2.1 _ rfl rfl).2,
    h.2.2.2.2.2.2.1.1, h.2.2.2.2.2.2.2.2.2.2⟩

/-! ## The row count reported by `Close` (C9) -/

/-- C9 as stated fails at `N = 2 ^ 63`: `RowsFound` is a Go `int`, so after `2 ^ 63`
rows on a 64-bit platform it has wrapped around, and `Close` reports
`Rows returned: -9223372036854775808`. -/
theorem C9_counterexample :
    yieldsRows (sampleRows (2 ^ 63)) (2 ^ 63) ∧
    eventsAfter (iterateAndClose RecordingRows.Next RecordingRows.Close
      (sampleRecordingRows (2 ^ 63)) (List.replicate (2 ^ 63 + 1) []) sampleWorld) =
      [Event.MessageResponse
        { Source := "db", Target := "sut", Header := "SQL Result",
          Body := "Rows returned: -9223372036854775808", Timestamp := 0 }] ∧
    "Rows returned: -9223372036854775808" ≠ "Rows returned: " ++ Nat.repr (2 ^ 63) := by
  refine ⟨sampleRows_yields _, ?_, by decide⟩
  rcases iterateAndClose_yielding RecordingRows.Next RecordingRows.Close rowsNext_spec
      rowsClose_spec (sampleRecordingRows (2 ^ 63)) (sampleRows (2 ^ 63)) (2 ^ 63)
      (List.replicate (2 ^ 63 + 1) []) sampleWorld rfl rfl rfl (sampleRows_yields _)
      (List.length_replicate _ _) (by decide) with ⟨w1, hrun, hev, _, _⟩
  have hbody : fmtInt (wrapInt ((2 ^ 63 : Nat) : Int)) = "-9223372036854775808" := by decide
  rw [eventsAfter, hrun, hev, hbody]
  rfl

/-- C9 (amended): for every `N` below `2 ^ 63`, on a fresh rows proxy with a non-nil
recorder whose wrapped row set yields `N` rows and then `io.EOF`, after the `N + 1`
calls of `Next` (`N` returning nil, the last returning `io.EOF`) `Close` appends
exactly one `MessageResponse`, whose body is `Rows returned: N`, and returns the result
of closing the wrapped row set; in both packages. -/
theorem C9_rows_returned (rows : RecordingRows) (r : DriverRows) (n : Nat)
    (dests : List (List Value)) (w : World)
    (hrows : rows.Rows = some r) (hserved : r.served = 0) (hfound : rows.RowsFound = 0)
    (hyield : yieldsRows r n) (hlen : dests.length = n + 1)
    (hrec : rows.recorder ≠ RecorderPtr.nil) (hn : n < 2 ^ 63) :
    (∃ w1,
      iterateAndClose RecordingRows.Next RecordingRows.Close rows dests w =
        (Outcome.ret (List.replicate n none ++ [some Error.EOF], r.Close), w1) ∧
      w1.events = w.events ++ [Event.MessageResponse
        { Source := rows.sourceName, Target := w.SystemUnderTestDefaultName,
          Header := "SQL Result", Body := "Rows returned: " ++ Nat.repr n,
          Timestamp := w.clock }]) ∧
    (∃ w1,
      iterateAndClose Db.RecordingRows.Next Db.RecordingRows.Close rows dests w =
        (Outcome.ret (List.replicate n none ++ [some Error.EOF], r.Close), w1) ∧
      w1.events = w.events ++ [Event.MessageResponse
        { Source := rows.sourceName, Target := w.SystemUnderTestDefaultName,
          Header := "SQL Result", Body := "Rows returned: " ++ Nat.repr n,
          Timestamp := w.clock }]) := by
  have hbody : fmtInt (wrapInt n) = Nat.repr n := by
    rw [wrapInt_of_lt n hn, fmtInt_natCast]
  constructor
  · rcases iterateAndClose_yielding RecordingRows.Next RecordingRows.Close rowsNext_spec
      rowsClose_spec rows r n dests w hrows hserved hfound hyield hlen hrec with
      ⟨w1, hrun, hev, _, _⟩
    exact ⟨w1, hrun, by rw [hev, hbody]⟩
  · rcases iterateAndClose_yielding Db.RecordingRows.Next Db.RecordingRows.Close
      dbRowsNext_spec dbRowsClose_spec rows r n dests w hrows hserved hfound hyield hlen
      hrec with ⟨w1, hrun, hev, _, _⟩
    exact ⟨w1, hrun, by rw [hev, hbody]⟩

/-- C9 (amended) at a row set of three rows: the response reports `3`. -/
theorem C9_rows_returned_witness :
    (sampleRecordingRows 3).Rows = some (sampleRows 3) ∧
    (sampleRows 3).served = 0 ∧
    (sampleRecordingRows 3).RowsFound = 0 ∧
    yieldsRows (sampleRows 3) 3 ∧
    (List.replicate 4 ([] : List Value)).length = 3 + 1 ∧
    (sampleRecordingRows 3).recorder ≠ RecorderPtr.nil ∧
    3 < 2 ^ 63 ∧
    (∃ w1,
      iterateAndClose RecordingRows.Next RecordingRows.Close (sampleRecordingRows 3)
        (List.replicate 4 []) sampleWorld =
        (Outcome.ret (List.replicate 3 none ++ [some Error.EOF], (sampleRows 3).Close), w1) ∧
      w1.events = sampleWorld.events ++ [Event.MessageResponse
        { Source := "db", Target := "sut", Header := "SQL Result",
          Body := "Rows returned: 3", Timestamp := 0 }]) :=
  ⟨rfl, rfl, rfl, sampleRows_yields 3, rfl, by decide, by decide,
    (C9_rows_returned (sampleRecordingRows 3) (sampleRows 3) 3 (List.replicate 4 [])
      sampleWorld rfl rfl rfl (sampleRows_yields 3) rfl (by decide) (by decide)).1⟩

/-! ## The end-to-end scenario (C10) -/

/-- C10: for a driver whose connection implements exactly `Queryer` and `Execer`, and
a recorder that holds no event, the scenario `Open`; `Query(q1)` without arguments;
`Next` until `io.EOF` on a row set of `n` rows; `Close` of the rows; `Exec(q2)` without
arguments returning a result, leaves exactly four events in the recorder, in the order
request with body `q1`, response `Rows returned: n`, request with body `q2`, response
`Affected rows: m`; in both packages.  The count `n` is rendered from the Go `int`
`RowsFound`, which is `n` itself below `2 ^ 63`. -/
theorem C10_end_to_end (d : RecordingDriver) (drv : Driver) (c : DriverConn)
    (r : DriverRows) (res : DriverResult) (name q1 q2 : String) (n : Nat)
    (dests : List (List Value)) (w : World)
    (fq : String → List Value → Option DriverRows × Option Error)
    (fe : String → List Value → Option DriverResult × Option Error)
    (hd : d.Driver = some drv) (hopen : drv.Open name = (some c, none))
    (hcaps : connCapabilities (some c) = [ConnCapability.Queryer, ConnCapability.Execer])
    (hrec : d.recorder ≠ RecorderPtr.nil) (hempty : w.events = [])
    (hq : c.Queryer = some fq) (hrows : fq q1 [] = (some r, none))
    (hserved : r.served = 0) (hyield : yieldsRows r n) (hlen : dests.length = n + 1)
    (he : c.Execer = some fe) (hres : fe q2 [] = (some res, none)) :
    (∃ out, endToEnd d name q1 q2 dests w = some out ∧
      out.1 = Outcome.ret (some res, none) ∧
      out.2.events =
        [Event.MessageRequest
          { Source := w.SystemUnderTestDefaultName, Target := d.sourceName,
            Header := "SQL Query", Body := q1, Timestamp := w.clock },
         Event.MessageResponse
          { Source := d.sourceName, Target := w.SystemUnderTestDefaultName,
            Header := "SQL Result", Body := "Rows returned: " ++ fmtInt (wrapInt n),
            Timestamp := w.clock + 1 },
         Event.MessageRequest
          { Source := w.SystemUnderTestDefaultName, Target := d.sourceName,
            Header := "SQL Query", Body := q2, Timestamp := w.clock + 2 },
         Event.MessageResponse
          { Source := d.sourceName, Target := w.SystemUnderTestDefaultName,
            Header := "SQL Result", Body := "Affected rows: " ++ fmtInt res.RowsAffected.1,
            Timestamp := w.clock + 3 }]) ∧
    (∃ out, Db.endToEnd d name q1 q2 dests w = some out ∧
      out.1 = Outcome.ret (some res, none) ∧
      out.2.events =
        [Event.MessageRequest
          { Source := w.SystemUnderTestDefaultName, Target := d.sourceName,
            Header := "SQL Query", Body := q1, Timestamp := w.clock },
         Event.MessageResponse
          { Source := d.sourceName, Target := w.SystemUnderTestDefaultName,
            Header := "SQL Result", Body := "Rows returned: " ++ fmtInt (wrapInt n),
            Timestamp := w.clock + 1 },
         Event.MessageRequest
          { Source := w.SystemUnderTestDefaultName, Target := d.sourceName,
            Header := "SQL Query", Body := q2, Timestamp := w.clock + 2 },
         Event.MessageResponse
          { Source := d.sourceName, Target := w.SystemUnderTestDefaultName,
            Header := "SQL Result", Body := "Affected rows: " ++ fmtInt res.RowsAffected.1,
            Timestamp := w.clock + 3 }]) ∧
    (n < 2 ^ 63 → fmtInt (wrapInt n) = Nat.repr n) := by
  have hqb : (some c).bind DriverConn.Queryer = some fq := by simp [hq]
  have heb : (some c).bind DriverConn.Execer = some fe := by simp [he]
  have hm : (ConnType.RecordingConnWithExecQuery.hasMethod ConnMethod.Query &&
      ConnType.RecordingConnWithExecQuery.hasMethod ConnMethod.Exec) = true := by decide
  refine ⟨?_, ?_, fun hn => by rw [wrapInt_of_lt n hn, fmtInt_natCast]⟩
  · rcases iterateAndClose_yielding RecordingRows.Next RecordingRows.Close rowsNext_spec
      rowsClose_spec
      { Rows := some r, recorder := d.recorder, sourceName := d.sourceName, RowsFound := 0 }
      r n dests
      (World.recordRequest
        ((((w.println "Driver Debug: Driver Open").forward (Call.DriverOpen name)).println
          "Driver Debug: Conn Query").forward (Call.ConnQuery q1 []))
        d.sourceName q1)
      rfl hserved rfl hyield hlen hrec with ⟨w3, hrun, hev, hclock, hsut⟩
    refine ⟨RecordingConnWithExec.Exec
      { Conn := some c, recorder := d.recorder, sourceName := d.sourceName } q2 [] w3,
      ?_, ?_, ?_⟩
    · simp only [endToEnd, RecordingDriver.Open, hd, hopen, openConnType_sync _ hcaps, hm,
        RecordingConnWithQuery.Query, hqb, hrows, hrec, recorderBody, ne_eq,
        not_true_eq_false, not_false_eq_true, if_true, if_false, List.length_nil, gt_iff_lt,
        lt_self_iff_false, hrun]
    · simp only [RecordingConnWithExec.Exec, heb, hres, ne_eq, not_true_eq_false, if_false]
    · simp only [RecordingConnWithExec.Exec, heb, hres, hrec, recorderBody, ne_eq,
        not_true_eq_false, not_false_eq_true, if_true, if_false, List.length_nil, gt_iff_lt,
        lt_self_iff_false, World.recordResult_some _ _ _ _ _ hrec]
      simp [hev, hclock, hsut, hempty, affectedRows]
  · rcases iterateAndClose_yielding Db.RecordingRows.Next Db.RecordingRows.Close
      dbRowsNext_spec dbRowsClose_spec
      { Rows := some r, recorder := d.recorder, sourceName := d.sourceName, RowsFound := 0 }
      r n dests
      (World.recordRequest ((w.forward (Call.DriverOpen name)).forward (Call.ConnQuery q1 []))
        d.sourceName q1)
      rfl hserved rfl hyield hlen hrec with ⟨w3, hrun, hev, hclock, hsut⟩
    refine ⟨Db.RecordingConnWithExec.Exec
      { Conn := some c, recorder := d.recorder, sourceName := d.sourceName } q2 [] w3,
      ?_, ?_, ?_⟩
    · simp only [Db.endToEnd, Db.RecordingDriver.Open, hd, hopen, openConnType_sync _ hcaps,
        hm, Db.RecordingConnWithQuery.Query, hqb, hrows, hrec, recorderBody, ne_eq,
        not_true_eq_false, not_false_eq_true, if_true, if_false, List.length_nil, gt_iff_lt,
        lt_self_iff_false, hrun]
    · simp only [Db.RecordingConnWithExec.Exec, heb, hres, ne_eq, not_true_eq_false,
        if_false]
    · simp only [Db.RecordingConnWithExec.Exec, heb, hres, hrec, recorderBody, ne_eq,
        not_true_eq_false, not_false_eq_true, if_true, if_false, List.length_nil, gt_iff_lt,
        lt_self_iff_false, World.recordResult_some _ _ _ _ _ hrec]
      simp [hev, hclock, hsut, hempty, affectedRows]

/-- C10 at the sample driver whose connection implements exactly `Queryer` and
`Execer`, with a row set of two rows and a result of one affected row. -/
theorem C10_end_to_end_witness :
    (sampleRecordingDriver sampleSyncConn).Driver = some (sampleDriver sampleSyncConn) ∧
    (sampleDriver sampleSyncConn).Open "dsn" = (some sampleSyncConn, none) ∧
    connCapabilities (some sampleSyncConn) =
      [ConnCapability.Queryer, ConnCapability.Execer] ∧
    (sampleRecordingDriver sampleSyncConn).recorder ≠ RecorderPtr.nil ∧
    sampleWorld.events = [] ∧
    yieldsRows (sampleRows 2) 2 ∧
    (∃ out,
      endToEnd (sampleRecordingDriver sampleSyncConn) "dsn" "SELECT id, name FROM users"
        "DELETE FROM users WHERE id = 1" (List.replicate 3 []) sampleWorld = some out ∧
      out.1 = Outcome.ret (some (sampleResult 1), none) ∧
      out.2.events =
        [Event.MessageRequest
          { Source := "sut", Target := "db", Header := "SQL Query",
            Body := "SELECT id, name FROM users", Timestamp := 0 },
         Event.MessageResponse
          { Source := "db", Target := "sut", Header := "SQL Result",
            Body := "Rows returned: 2", Timestamp := 1 },
         Event.MessageRequest
          { Source := "sut", Target := "db", Header := "SQL Query",
            Body := "DELETE FROM users WHERE id = 1", Timestamp := 2 },
         Event.MessageResponse
          { Source := "db", Target := "sut", Header := "SQL Result",
            Body := "Affected rows: 1", Timestamp := 3 }]) :=
  ⟨rfl, rfl, by decide, by decide, rfl, sampleRows_yields 2,
    (C10_end_to_end (sampleRecordingDriver sampleSyncConn) (sampleDriver sampleSyncConn)
      sampleSyncConn (sampleRows 2) (sampleResult 1) "dsn" "SELECT id, name FROM users"
      "DELETE FROM users WHERE id = 1" 2 (List.replicate 3 []) sampleWorld
      (fun _ _ => (some (sampleRows 2), none)) (fun _ _ => (some (sampleResult 1), none))
      rfl rfl (by decide) (by decide) rfl rfl rfl rfl (sampleRows_yields 2) rfl rfl rfl).1⟩

/-! ## The error an operation returns -/

theorem bind_capability {α β : Type} (o : Option α) (a : α) (cap : α → Option β) (f : β)
    (ho : o = some a) (hf : cap a = some f) : o.bind cap = some f := by
  simp [ho, hf]

theorem bind_no_capability {α β : Type} (o : Option α) (a : α) (cap : α → Option β)
    (ho : o = some a) (hf : cap a = none) : o.bind cap = none := by
  simp [ho, hf]

theorem error_transparent (d : RecordingDriver) (drv : Driver) (cn : RecordingConnector)
    (k : DriverConnector) (conn : RecordingConn) (c : DriverConn) (stmt : RecordingStmt)
    (s : DriverStmt) (rows : RecordingRows) (r : DriverRows) (name query : String)
    (args : List Value) (nargs : List NamedValue) (opts : TxOptions) (dest : List Value)
    (w : World) (hd : d.Driver = some drv) (hcn : cn.Connector = some k)
    (hconn : conn.Conn = some c) (hstmt : stmt.Stmt = some s) (hrows : rows.Rows = some r)
    (hpos : ∀ p ∈ nargs, p.Name = "") :
    (returnedError (RecordingDriver.Open d name w) = (drv.Open name).2 ∧
      returnedError (Db.RecordingDriver.Open d name w) = (drv.Open name).2) ∧
    (∀ f, drv.DriverContext = some f → 
      returnedError (RecordingDriverContext.OpenConnector d name w) = (f name).2 ∧
      returnedError (Db.RecordingDriverContext.OpenConnector d name w) = (f name).2) ∧
    (returnedError (RecordingConnector.Connect cn w) = k.Connect.2 ∧
      returnedError (Db.RecordingConnector.Connect cn w) = k.Connect.2) ∧
    (returnedError (RecordingConn.Prepare conn query w) = (c.Prepare query).2 ∧
      returnedError (Db.RecordingConn.Prepare conn query w) = (c.Prepare query).2) ∧
    (∀ f, c.ConnPrepareContext = some f → 
      returnedError (RecordingConnWithPrepareContext.PrepareContext conn query w) = (f query).2 ∧
      returnedError (Db.RecordingConnWithPrepareContext.PrepareContext conn query w) = (f query).2) ∧
    (∀ f, c.Queryer = some f → 
      returnedError (RecordingConnWithQuery.Query conn query args w) = (f query args).2 ∧
      returnedError (Db.RecordingConnWithQuery.Query conn query args w) = (f query args).2) ∧
    (∀ f, c.QueryerContext = some f → 
      (conn.recorder ≠ RecorderPtr.nil →
        returnedError (RecordingConnWithQueryContext.QueryContext conn query nargs w) = (f query nargs).2) ∧
      returnedError (Db.RecordingConnWithQueryContext.QueryContext conn query nargs w) = (f query nargs).2) ∧
    (∀ f, c.Execer = some f → 
      returnedError (RecordingConnWithExec.Exec conn query args w) = (f query args).2 ∧
      returnedError (Db.RecordingConnWithExec.Exec conn query args w) = (f query args).2) ∧
    (∀ f, c.ExecerContext = some f → 
      returnedError (RecordingConnWithExecContext.ExecContext conn query nargs w) = (f query nargs).2 ∧
      returnedError (Db.RecordingConnWithExecContext.ExecContext conn query nargs w) = (f query nargs).2) ∧
    (∀ f, c.ConnBeginTx = some f → 
      returnedError (RecordingConnWithBeginTx.BeginTx conn opts w) = (f opts).2 ∧
      returnedError (Db.RecordingConnWithBeginTx.BeginTx conn opts w) = (f opts).2) ∧
    (∀ f, c.Pinger = some f → 
      onlyError (RecordingConnWithPing.Ping conn w).1 = f ∧
      onlyError (Db.RecordingConnWithPing.Ping conn w).1 = f) ∧
    (returnedError (RecordingStmt.Exec stmt args w) = (s.Exec args).2 ∧
      returnedError (Db.RecordingStmt.Exec stmt args w) = (s.Exec args).2) ∧
    (returnedError (RecordingStmt.Query stmt args w) = (s.Query args).2 ∧
      returnedError (Db.RecordingStmt.Query stmt args w) = (s.Query args).2) ∧
    (∀ f, s.StmtExecContext = some f → 
      returnedError (RecordingStmtWithExecContext.ExecContext stmt nargs w) = (f nargs).2 ∧
      returnedError (Db.RecordingStmtWithExecContext.ExecContext stmt nargs w) = (f nargs).2) ∧
    (∀ f, s.StmtQueryContext = some f → 
      returnedError (RecordingStmtWithQueryContext.QueryContext stmt nargs w) = (f nargs).2 ∧
      returnedError (Db.RecordingStmtWithQueryContext.QueryContext stmt nargs w) = (f nargs).2) ∧
    (onlyError (RecordingRows.Next rows dest w).1 = r.Next r.served dest ∧
      onlyError (Db.RecordingRows.Next rows dest w).1 = r.Next r.served dest) ∧
    (onlyError (RecordingRows.Close rows w).1 = r.Close ∧
      onlyError (Db.RecordingRows.Close rows w).1 = r.Close) := by
  refine ⟨?_, ?_, ?_, ?_, ?_, ?_, ?_, ?_, ?_, ?_, ?_, ?_, ?_, ?_, ?_, ?_, ?_⟩
  · by_cases he : (drv.Open name).2 = none
    · simp [RecordingDriver.Open, Db.RecordingDriver.Open, hd, he, returnedError]
    · simp [RecordingDriver.Open, Db.RecordingDriver.Open, hd, he, returnedError]
  · intro f hf
    by_cases he : (f name).2 = none
    · simp [RecordingDriverContext.OpenConnector, Db.RecordingDriverContext.OpenConnector, hd, hf, he, returnedError]
    · simp [RecordingDriverContext.OpenConnector, Db.RecordingDriverContext.OpenConnector, hd, hf, he, returnedError]
  · by_cases he : k.Connect.2 = none
    · simp [RecordingConnector.Connect, Db.RecordingConnector.Connect, hcn, he, returnedError]
      split_ifs <;> rfl
    · simp [RecordingConnector.Connect, Db.RecordingConnector.Connect, hcn, he, returnedError]
  · by_cases he : (c.Prepare query).2 = none
    · simp [RecordingConn.Prepare, Db.RecordingConn.Prepare, hconn, he, returnedError]
    · simp [RecordingConn.Prepare, Db.RecordingConn.Prepare, hconn, he, returnedError]
  · intro f hf
    by_cases he : (f query).2 = none
    · simp [RecordingConnWithPrepareContext.PrepareContext, Db.RecordingConnWithPrepareContext.PrepareContext, hconn, hf, he, returnedError]
    · simp [RecordingConnWithPrepareContext.PrepareContext, Db.RecordingConnWithPrepareContext.PrepareContext, hconn, hf, he, returnedError]
  · intro f hf
    by_cases he : (f query args).2 = none
    · simp [RecordingConnWithQuery.Query, Db.RecordingConnWithQuery.Query, hconn, hf, he, returnedError]
    · simp [RecordingConnWithQuery.Query, Db.RecordingConnWithQuery.Query, hconn, hf, he, returnedError]
  · intro f hf
    refine ⟨fun hrec => ?_, ?_⟩
    · by_cases he : (f query nargs).2 = none
      · simp [RecordingConnWithQueryContext.QueryContext, hconn, hf, he, hrec, returnedError,
          recorderBodyNamed_positional _ _ hpos]
      · simp [RecordingConnWithQueryContext.QueryContext, hconn, hf, he, returnedError]
    · by_cases he : (f query nargs).2 = none
      · by_cases hrec : conn.recorder = RecorderPtr.nil
        · simp [Db.RecordingConnWithQueryContext.QueryContext, hconn, hf, he, hrec, returnedError]
        · simp [Db.RecordingConnWithQueryContext.QueryContext, hconn, hf, he, hrec, returnedError,
            recorderBodyNamed_positional _ _ hpos]
      · simp [Db.RecordingConnWithQueryContext.QueryContext, hconn, hf, he, returnedError]
  · intro f hf
    by_cases he : (f query args).2 = none
    · simp [RecordingConnWithExec.Exec, Db.RecordingConnWithExec.Exec, hconn, hf, he, returnedError]
    · simp [RecordingConnWithExec.Exec, Db.RecordingConnWithExec.Exec, hconn, hf, he, returnedError]
  · intro f hf
    constructor
    · by_cases he : (f query nargs).2 = none
      · by_cases hrec : conn.recorder = RecorderPtr.nil
        · simp [RecordingConnWithExecContext.ExecContext, hconn, hf, he, hrec, returnedError]
        · simp [RecordingConnWithExecContext.ExecContext, hconn, hf, he, hrec, returnedError,
            recorderBodyNamed_positional _ _ hpos]
      · simp [RecordingConnWithExecContext.ExecContext, hconn, hf, he, returnedError]
    · by_cases he : (f query nargs).2 = none
      · by_cases hrec : conn.recorder = RecorderPtr.nil
        · simp [Db.RecordingConnWithExecContext.ExecContext, hconn, hf, he, hrec, returnedError]
        · simp [Db.RecordingConnWithExecContext.ExecContext, hconn, hf, he, hrec, returnedError,
            recorderBodyNamed_positional _ _ hpos]
      · simp [Db.RecordingConnWithExecContext.ExecContext, hconn, hf, he, returnedError]
  · intro f hf
    simp [RecordingConnWithBeginTx.BeginTx, Db.RecordingConnWithBeginTx.BeginTx, hconn, hf, returnedError]
  · intro f hf
    simp [RecordingConnWithPing.Ping, Db.RecordingConnWithPing.Ping, hconn, hf, onlyError]
  · simp [RecordingStmt.Exec, Db.RecordingStmt.Exec, hstmt, returnedError]
  · simp [RecordingStmt.Query, Db.RecordingStmt.Query, hstmt, returnedError]
  · intro f hf
    constructor
    · by_cases he : (f nargs).2 = none
      · by_cases hrec : stmt.recorder = RecorderPtr.nil
        · simp [RecordingStmtWithExecContext.ExecContext, hstmt, hf, he, hrec, returnedError]
        · simp [RecordingStmtWithExecContext.ExecContext, hstmt, hf, he, hrec, returnedError,
            recorderBodyNamed_positional _ _ hpos]
      · simp [RecordingStmtWithExecContext.ExecContext, hstmt, hf, he, returnedError]
    · by_cases he : (f nargs).2 = none
      · by_cases hrec : stmt.recorder = RecorderPtr.nil
        · simp [Db.RecordingStmtWithExecContext.ExecContext, hstmt, hf, he, hrec, returnedError]
        · simp [Db.RecordingStmtWithExecContext.ExecContext, hstmt, hf, he, hrec, returnedError,
            recorderBodyNamed_positional _ _ hpos]
      · simp [Db.RecordingStmtWithExecContext.ExecContext, hstmt, hf, he, returnedError]
  · intro f hf
    constructor
    · by_cases he : (f nargs).2 = none
      · by_cases hrec : stmt.recorder = RecorderPtr.nil
        · simp [RecordingStmtWithQueryContext.QueryContext, hstmt, hf, he, hrec, returnedError]
        · simp [RecordingStmtWithQueryContext.QueryContext, hstmt, hf, he, hrec, returnedError,
            recorderBodyNamed_positional _ _ hpos]
      · simp [RecordingStmtWithQueryContext.QueryContext, hstmt, hf, he, returnedError]
    · by_cases he : (f nargs).2 = none
      · by_cases hrec : stmt.recorder = RecorderPtr.nil
        · simp [Db.RecordingStmtWithQueryContext.QueryContext, hstmt, hf, he, hrec, returnedError]
        · simp [Db.RecordingStmtWithQueryContext.QueryContext, hstmt, hf, he, hrec, returnedError,
            recorderBodyNamed_positional _ _ hpos]
      · simp [Db.RecordingStmtWithQueryContext.QueryContext, hstmt, hf, he, returnedError]
  · simp [RecordingRows.Next, Db.RecordingRows.Next, hrows, onlyError]
  · simp [RecordingRows.Close, Db.RecordingRows.Close, hrows, onlyError]


theorem not_implemented_error (conn : RecordingConn) (c : DriverConn) (stmt : RecordingStmt)
    (s : DriverStmt) (query : String) (args : List Value) (nargs : List NamedValue)
    (opts : TxOptions) (w : World) (hconn : conn.Conn = some c) (hstmt : stmt.Stmt = some s) :
    (c.Queryer = none →
      ((RecordingConnWithQuery.Query conn query args w).1 =
          Outcome.ret (RowsValue.nil, some (Error.New "Queryer not implemented")) ∧
        eventsAfter (RecordingConnWithQuery.Query conn query args w) = w.events) ∧
      ((Db.RecordingConnWithQuery.Query conn query args w).1 =
          Outcome.ret (RowsValue.nil, some (Error.New "Queryer not implemented")) ∧
        eventsAfter (Db.RecordingConnWithQuery.Query conn query args w) = w.events)) ∧
    (c.QueryerContext = none →
      (conn.recorder = RecorderPtr.nil →
        (RecordingConnWithQueryContext.QueryContext conn query nargs w).1 =
          Outcome.ret (RowsValue.nil, some (Error.New "QueryerContext not implemented")) ∧
        eventsAfter (RecordingConnWithQueryContext.QueryContext conn query nargs w) = w.events) ∧
      ((Db.RecordingConnWithQueryContext.QueryContext conn query nargs w).1 =
          Outcome.ret (RowsValue.nil, some (Error.New "QueryerContext not implemented")) ∧
        eventsAfter (Db.RecordingConnWithQueryContext.QueryContext conn query nargs w) = w.events)) ∧
    (c.Execer = none →
      ((RecordingConnWithExec.Exec conn query args w).1 =
          Outcome.ret (none, some (Error.New "Execer not implemented")) ∧
        eventsAfter (RecordingConnWithExec.Exec conn query args w) = w.events) ∧
      ((Db.RecordingConnWithExec.Exec conn query args w).1 =
          Outcome.ret (none, some (Error.New "Execer not implemented")) ∧
        eventsAfter (Db.RecordingConnWithExec.Exec conn query args w) = w.events)) ∧
    (c.ExecerContext = none →
      ((RecordingConnWithExecContext.ExecContext conn query nargs w).1 =
          Outcome.ret (none, some (Error.New "ExecerContext not implemented")) ∧
        eventsAfter (RecordingConnWithExecContext.ExecContext conn query nargs w) = w.events) ∧
      ((Db.RecordingConnWithExecContext.ExecContext conn query nargs w).1 =
          Outcome.ret (none, some (Error.New "ExecerContext not implemented")) ∧
        eventsAfter (Db.RecordingConnWithExecContext.ExecContext conn query nargs w) = w.events)) ∧
    (c.ConnPrepareContext = none →
      ((RecordingConnWithPrepareContext.PrepareContext conn query w).1 =
          Outcome.ret (StmtValue.nil, some (Error.New "ConnPrepareContext not implemented")) ∧
        eventsAfter (RecordingConnWithPrepareContext.PrepareContext conn query w) = w.events) ∧
      ((Db.RecordingConnWithPrepareContext.PrepareContext conn query w).1 =
          Outcome.ret (StmtValue.nil, some (Error.New "ConnPrepareContext not implemented")) ∧
        eventsAfter (Db.RecordingConnWithPrepareContext.PrepareContext conn query w) = w.events)) ∧
    (c.ConnBeginTx = none →
      ((RecordingConnWithBeginTx.BeginTx conn opts w).1 =
          Outcome.ret (none, some (Error.New "ConnBeginTx not implemented")) ∧
        eventsAfter (RecordingConnWithBeginTx.BeginTx conn opts w) = w.events) ∧
      ((Db.RecordingConnWithBeginTx.BeginTx conn opts w).1 =
          Outcome.ret (none, some (Error.New "ConnBeginTx not implemented")) ∧
        eventsAfter (Db.RecordingConnWithBeginTx.BeginTx conn opts w) = w.events)) ∧
    (c.Pinger = none →
      ((RecordingConnWithPing.Ping conn w).1 =
          Outcome.ret (some (Error.New "Pinger not implemented")) ∧
        eventsAfter (RecordingConnWithPing.Ping conn w) = w.events) ∧
      ((Db.RecordingConnWithPing.Ping conn w).1 =
          Outcome.ret (some (Error.New "Pinger not implemented")) ∧
        eventsAfter (Db.RecordingConnWithPing.Ping conn w) = w.events)) ∧
    (s.StmtExecContext = none →
      ((RecordingStmtWithExecContext.ExecContext stmt nargs w).1 =
          Outcome.ret (none, some (Error.New "StmtExecContext not implemented")) ∧
        eventsAfter (RecordingStmtWithExecContext.ExecContext stmt nargs w) = w.events) ∧
      ((Db.RecordingStmtWithExecContext.ExecContext stmt nargs w).1 =
          Outcome.ret (none, some (Error.New "StmtExecContext not implemented")) ∧
        eventsAfter (Db.RecordingStmtWithExecContext.ExecContext stmt nargs w) = w.events)) ∧
    (s.StmtQueryContext = none →
      ((RecordingStmtWithQueryContext.QueryContext stmt nargs w).1 =
          Outcome.ret (RowsValue.nil, some (Error.New "StmtQueryContext not implemented")) ∧
        eventsAfter (RecordingStmtWithQueryContext.QueryContext stmt nargs w) = w.events) ∧
      ((Db.RecordingStmtWithQueryContext.QueryContext stmt nargs w).1 =
          Outcome.ret (RowsValue.nil, some (Error.New "StmtQueryContext not implemented")) ∧
        eventsAfter (Db.RecordingStmtWithQueryContext.QueryContext stmt nargs w) = w.events)) := by
  refine ⟨?_, ?_, ?_, ?_, ?_, ?_, ?_, ?_, ?_⟩
  · intro hf
    simp [RecordingConnWithQuery.Query, Db.RecordingConnWithQuery.Query, hconn, hf, eventsAfter]
  · intro hf
    refine ⟨fun hrec => ?_, ?_⟩
    · simp [RecordingConnWithQueryContext.QueryContext, hconn, hf, hrec, eventsAfter]
    · simp [Db.RecordingConnWithQueryContext.QueryContext, hconn, hf, eventsAfter]
  · intro hf
    simp [RecordingConnWithExec.Exec, Db.RecordingConnWithExec.Exec, hconn, hf, eventsAfter]
  · intro hf
    simp [RecordingConnWithExecContext.ExecContext, Db.RecordingConnWithExecContext.ExecContext, hconn, hf, eventsAfter]
  · intro hf
    simp [RecordingConnWithPrepareContext.PrepareContext, Db.RecordingConnWithPrepareContext.PrepareContext, hconn, hf, eventsAfter]
  · intro hf
    simp [RecordingConnWithBeginTx.BeginTx, Db.RecordingConnWithBeginTx.BeginTx, hconn, hf, eventsAfter]
  · intro hf
    simp [RecordingConnWithPing.Ping, Db.RecordingConnWithPing.Ping, hconn, hf, eventsAfter]
  · intro hf
    simp [RecordingStmtWithExecContext.ExecContext, Db.RecordingStmtWithExecContext.ExecContext, hstmt, hf, eventsAfter]
  · intro hf
    simp [RecordingStmtWithQueryContext.QueryContext, Db.RecordingStmtWithQueryContext.QueryContext, hstmt, hf, eventsAfter]


/-! ## Results and arguments passed through -/

theorem recordResult_calls_append (w : World) (r : RecorderPtr) (s : String)
    (result : Option DriverResult) (body : Int → String) :
    ∃ rest, (w.recordResult r s result body).calls = w.calls ++ rest := by
  cases result with
  | none => exact ⟨[], by simp⟩
  | some res =>
    by_cases hr : r = RecorderPtr.nil
    · exact ⟨[], by simp [hr]⟩
    · refine ⟨[Call.ResultRowsAffected], ?_⟩
      rw [World.recordResult_some _ _ _ _ _ hr]
      simp

theorem passedThrough_recordResult (w w0 : World) (call : Call) (res : Option DriverResult)
    (r : RecorderPtr) (s : String) (result : Option DriverResult) (fmt : Int → String)
    (h : w0.calls = w.calls ++ [call]) :
    passedThrough w call res (Outcome.ret (res, none), w0.recordResult r s result fmt) := by
  rcases recordResult_calls_append w0 r s result fmt with ⟨rest, hrest⟩
  exact ⟨rfl, rest, by rw [hrest, h, List.append_assoc]; rfl⟩

/-! ## The response of the exec operations -/

theorem exec_response_events (conn : RecordingConn) (c : DriverConn) (stmt : RecordingStmt)
    (s : DriverStmt) (query : String) (args : List Value) (nargs : List NamedValue)
    (res : DriverResult) (w : World) (hconn : conn.Conn = some c)
    (hrec : conn.recorder ≠ RecorderPtr.nil) (hstmt : stmt.Stmt = some s)
    (hsrec : stmt.recorder ≠ RecorderPtr.nil) (hpos : ∀ p ∈ nargs, p.Name = "") :
    (∀ f, c.Execer = some f → f query args = (some res, none) →
      eventsAfter (RecordingConnWithExec.Exec conn query args w) =
        w.events ++
          [Event.MessageRequest
            { Source := w.SystemUnderTestDefaultName, Target := conn.sourceName,
              Header := "SQL Query", Body := recorderBody query args, Timestamp := w.clock },
           Event.MessageResponse
            { Source := conn.sourceName, Target := w.SystemUnderTestDefaultName,
              Header := "SQL Result", Body := "Affected rows: " ++ fmtInt res.RowsAffected.1,
              Timestamp := w.clock + 1 }] ∧
      eventsAfter (Db.RecordingConnWithExec.Exec conn query args w) =
        w.events ++
          [Event.MessageRequest
            { Source := w.SystemUnderTestDefaultName, Target := conn.sourceName,
              Header := "SQL Query", Body := recorderBody query args, Timestamp := w.clock },
           Event.MessageResponse
            { Source := conn.sourceName, Target := w.SystemUnderTestDefaultName,
              Header := "SQL Result", Body := "Affected rows: " ++ fmtInt res.RowsAffected.1,
              Timestamp := w.clock + 1 }]) ∧
    (∀ f, c.ExecerContext = some f → f query nargs = (some res, none) →
      eventsAfter (RecordingConnWithExecContext.ExecContext conn query nargs w) =
        w.events ++
          [Event.MessageRequest
            { Source := w.SystemUnderTestDefaultName, Target := conn.sourceName,
              Header := "SQL Query", Body := recorderBody query (nargs.map NamedValue.Value), Timestamp := w.clock },
           Event.MessageResponse
            { Source := conn.sourceName, Target := w.SystemUnderTestDefaultName,
              Header := "SQL Result", Body := "Affected rows: " ++ fmtInt res.RowsAffected.1,
              Timestamp := w.clock + 1 }] ∧
      eventsAfter (Db.RecordingConnWithExecContext.ExecContext conn query nargs w) =
        w.events ++
          [Event.MessageRequest
            { Source := w.SystemUnderTestDefaultName, Target := conn.sourceName,
              Header := "SQL Query", Body := recorderBody query (nargs.map NamedValue.Value), Timestamp := w.clock },
           Event.MessageResponse
            { Source := conn.sourceName, Target := w.SystemUnderTestDefaultName,
              Header := "SQL Result", Body := "Affected rows: " ++ fmtInt res.RowsAffected.1,
              Timestamp := w.clock + 1 }]) ∧
    (s.Exec args = (some res, none) →
      eventsAfter (RecordingStmt.Exec stmt args w) =
        w.events ++
          [Event.MessageRequest
            { Source := w.SystemUnderTestDefaultName, Target := stmt.sourceName,
              Header := "SQL Query", Body := recorderBody stmt.query args, Timestamp := w.clock },
           Event.MessageResponse
            { Source := stmt.sourceName, Target := w.SystemUnderTestDefaultName,
              Header := "SQL Result", Body := "Affected rows: " ++ fmtInt res.RowsAffected.1,
              Timestamp := w.clock + 1 }] ∧
      eventsAfter (Db.RecordingStmt.Exec stmt args w) =
        w.events ++
          [Event.MessageRequest
            { Source := w.SystemUnderTestDefaultName, Target := stmt.sourceName,
              Header := "SQL Query", Body := recorderBody stmt.query args, Timestamp := w.clock },
           Event.MessageResponse
            { Source := stmt.sourceName, Target := w.SystemUnderTestDefaultName,
              Header := "SQL Result", Body := "Affected rows: " ++ fmtInt res.RowsAffected.1,
              Timestamp := w.clock + 1 }]) ∧
    (∀ f, s.StmtExecContext = some f → f nargs = (some res, none) →
      eventsAfter (RecordingStmtWithExecContext.ExecContext stmt nargs w) =
        w.events ++
          [Event.MessageRequest
            { Source := w.SystemUnderTestDefaultName, Target := stmt.sourceName,
              Header := "SQL Query", Body := recorderBody stmt.query (nargs.map NamedValue.Value), Timestamp := w.clock },
           Event.MessageResponse
            { Source := stmt.sourceName, Target := w.SystemUnderTestDefaultName,
              Header := "SQL Result", Body := fmtInt res.RowsAffected.1,
              Timestamp := w.clock + 1 }] ∧
      eventsAfter (Db.RecordingStmtWithExecContext.ExecContext stmt nargs w) =
        w.events ++
          [Event.MessageRequest
            { Source := w.SystemUnderTestDefaultName, Target := stmt.sourceName,
              Header := "SQL Query", Body := recorderBody stmt.query (nargs.map NamedValue.Value), Timestamp := w.clock },
           Event.MessageResponse
            { Source := stmt.sourceName, Target := w.SystemUnderTestDefaultName,
              Header := "SQL Result", Body := "Affected rows: " ++ fmtInt res.RowsAffected.1,
              Timestamp := w.clock + 1 }]) := by
  refine ⟨?_, ?_, ?_, ?_⟩
  · intro f hf hres
    have hb := bind_capability _ _ _ _ hconn hf
    simp [eventsAfter, RecordingConnWithExec.Exec, Db.RecordingConnWithExec.Exec, hb, hres, hrec,
      World.recordResult_some, affectedRows]
  · intro f hf hres
    have hb := bind_capability _ _ _ _ hconn hf
    simp [eventsAfter, RecordingConnWithExecContext.ExecContext, Db.RecordingConnWithExecContext.ExecContext, hb, hres, hrec,
      World.recordResult_some, affectedRows, recorderBodyNamed_positional _ _ hpos]
  · intro hres
    simp [eventsAfter, RecordingStmt.Exec, Db.RecordingStmt.Exec, hstmt, hres, hsrec,
      World.recordResult_some, affectedRows]
  · intro f hf hres
    have hb := bind_capability _ _ _ _ hstmt hf
    simp [eventsAfter, RecordingStmtWithExecContext.ExecContext, Db.RecordingStmtWithExecContext.ExecContext, hb, hres, hsrec,
      World.recordResult_some, affectedRows, recorderBodyNamed_positional _ _ hpos]

/-! ## Attribution of the recorded events -/

theorem recordsFor_refl (s : String) (w : World) : recordsFor s w w :=
  ⟨rfl, [], by simp, by simp⟩

theorem recordsFor_println (s : String) (w w0 : World) (l : String)
    (h : recordsFor s w w0) : recordsFor s w (w0.println l) := h

theorem recordsFor_forward (s : String) (w w0 : World) (c : Call)
    (h : recordsFor s w w0) : recordsFor s w (w0.forward c) := h

theorem recordsFor_recordRequest (s : String) (w w0 : World) (b : String)
    (h : recordsFor s w w0) : recordsFor s w (w0.recordRequest s b) := by
  rcases h with ⟨hsut, appended, hev, hatt⟩
  refine ⟨hsut, appended ++ [Event.MessageRequest
    { Source := w0.SystemUnderTestDefaultName, Target := s, Header := "SQL Query",
      Body := b, Timestamp := w0.clock }], ?_, ?_⟩
  · rw [World.recordRequest_events, hev, List.append_assoc]
  · intro e he
    rcases List.mem_append.mp he with h1 | h1
    · exact hatt e h1
    · rw [List.mem_singleton.mp h1]
      exact ⟨hsut, rfl, rfl⟩

theorem recordsFor_recordResponse (s : String) (w w0 : World) (b : String)
    (h : recordsFor s w w0) : recordsFor s w (w0.recordResponse s b) := by
  rcases h with ⟨hsut, appended, hev, hatt⟩
  refine ⟨hsut, appended ++ [Event.MessageResponse
    { Source := s, Target := w0.SystemUnderTestDefaultName, Header := "SQL Result",
      Body := b, Timestamp := w0.clock }], ?_, ?_⟩
  · rw [World.recordResponse_events, hev, List.append_assoc]
  · intro e he
    rcases List.mem_append.mp he with h1 | h1
    · exact hatt e h1
    · rw [List.mem_singleton.mp h1]
      exact ⟨rfl, hsut, rfl⟩

theorem recordsFor_recordResult (s : String) (w w0 : World) (r : RecorderPtr)
    (result : Option DriverResult) (fmt : Int → String) (h : recordsFor s w w0) :
    recordsFor s w (w0.recordResult r s result fmt) := by
  cases result with
  | none => exact h
  | some res =>
    by_cases hr : r = RecorderPtr.nil
    · rw [hr, World.recordResult_nil]
      exact h
    · rw [World.recordResult_some _ _ _ _ _ hr]
      exact recordsFor_recordResponse s w _ _ (recordsFor_forward s w w0 _ h)

theorem recordsFor_of_eq (s : String) (w w1 : World)
    (h1 : w1.SystemUnderTestDefaultName = w.SystemUnderTestDefaultName)
    (h2 : w1.events = w.events) : recordsFor s w w1 :=
  ⟨h1, [], by simp [h2], by simp⟩

theorem recordsFor_request (s : String) (w w0 : World) (b : String)
    (h1 : w0.SystemUnderTestDefaultName = w.SystemUnderTestDefaultName)
    (h2 : w0.events = w.events) : recordsFor s w (w0.recordRequest s b) :=
  recordsFor_recordRequest s w w0 b (recordsFor_of_eq s w w0 h1 h2)

theorem recordsFor_response (s : String) (w w0 : World) (b : String)
    (h1 : w0.SystemUnderTestDefaultName = w.SystemUnderTestDefaultName)
    (h2 : w0.events = w.events) : recordsFor s w (w0.recordResponse s b) :=
  recordsFor_recordResponse s w w0 b (recordsFor_of_eq s w w0 h1 h2)

theorem recordsFor_result (s : String) (w w0 : World) (r : RecorderPtr)
    (result : Option DriverResult) (fmt : Int → String)
    (h1 : w0.SystemUnderTestDefaultName = w.SystemUnderTestDefaultName)
    (h2 : w0.events = w.events) : recordsFor s w (w0.recordResult r s result fmt) :=
  recordsFor_recordResult s w w0 r result fmt (recordsFor_of_eq s w w0 h1 h2)

theorem recordsFor_request_result (s : String) (w w0 : World) (b : String) (r : RecorderPtr)
    (result : Option DriverResult) (fmt : Int → String)
    (h1 : w0.SystemUnderTestDefaultName = w.SystemUnderTestDefaultName)
    (h2 : w0.events = w.events) :
    recordsFor s w ((w0.recordRequest s b).recordResult r s result fmt) :=
  recordsFor_recordResult s w _ r result fmt (recordsFor_request s w w0 b h1 h2)

theorem operations_record_attributed (conn : RecordingConn) (stmt : RecordingStmt)
    (rows : RecordingRows) (query : String) (args : List Value) (nargs : List NamedValue)
    (w : World) :
    recordsFor conn.sourceName w (RecordingConnWithQuery.Query conn query args w).2 ∧
    recordsFor conn.sourceName w (Db.RecordingConnWithQuery.Query conn query args w).2 ∧
    recordsFor conn.sourceName w (RecordingConnWithQueryContext.QueryContext conn query nargs w).2 ∧
    recordsFor conn.sourceName w (Db.RecordingConnWithQueryContext.QueryContext conn query nargs w).2 ∧
    recordsFor conn.sourceName w (RecordingConnWithExec.Exec conn query args w).2 ∧
    recordsFor conn.sourceName w (Db.RecordingConnWithExec.Exec conn query args w).2 ∧
    recordsFor conn.sourceName w (RecordingConnWithExecContext.ExecContext conn query nargs w).2 ∧
    recordsFor conn.sourceName w (Db.RecordingConnWithExecContext.ExecContext conn query nargs w).2 ∧
    recordsFor stmt.sourceName w (RecordingStmt.Exec stmt args w).2 ∧
    recordsFor stmt.sourceName w (Db.RecordingStmt.Exec stmt args w).2 ∧
    recordsFor stmt.sourceName w (RecordingStmt.Query stmt args w).2 ∧
    recordsFor stmt.sourceName w (Db.RecordingStmt.Query stmt args w).2 ∧
    recordsFor stmt.sourceName w (RecordingStmtWithExecContext.ExecContext stmt nargs w).2 ∧
    recordsFor stmt.sourceName w (Db.RecordingStmtWithExecContext.ExecContext stmt nargs w).2 ∧
    recordsFor stmt.sourceName w (RecordingStmtWithQueryContext.QueryContext stmt nargs w).2 ∧
    recordsFor stmt.sourceName w (Db.RecordingStmtWithQueryContext.QueryContext stmt nargs w).2 ∧
    recordsFor rows.sourceName w (RecordingRows.Close rows w).2 ∧
    recordsFor rows.sourceName w (Db.RecordingRows.Close rows w).2 := by
  refine ⟨?_, ?_, ?_, ?_, ?_, ?_, ?_, ?_, ?_, ?_, ?_, ?_, ?_, ?_, ?_, ?_, ?_, ?_⟩
  · simp only [RecordingConnWithQuery.Query]
    repeat' split
    all_goals
      first
        | exact recordsFor_request_result _ _ _ _ _ _ _ rfl rfl
        | exact recordsFor_request _ _ _ _ rfl rfl
        | exact recordsFor_response _ _ _ _ rfl rfl
        | exact recordsFor_forward _ _ _ _ (recordsFor_response _ _ _ _ rfl rfl)
        | exact recordsFor_result _ _ _ _ _ _ rfl rfl
        | exact recordsFor_of_eq _ _ _ rfl rfl
  · simp only [Db.RecordingConnWithQuery.Query]
    repeat' split
    all_goals
      first
        | exact recordsFor_request_result _ _ _ _ _ _ _ rfl rfl
        | exact recordsFor_request _ _ _ _ rfl rfl
        | exact recordsFor_response _ _ _ _ rfl rfl
        | exact recordsFor_forward _ _ _ _ (recordsFor_response _ _ _ _ rfl rfl)
        | exact recordsFor_result _ _ _ _ _ _ rfl rfl
        | exact recordsFor_of_eq _ _ _ rfl rfl
  · simp only [RecordingConnWithQueryContext.QueryContext]
    repeat' split
    all_goals
      first
        | exact recordsFor_request_result _ _ _ _ _ _ _ rfl rfl
        | exact recordsFor_request _ _ _ _ rfl rfl
        | exact recordsFor_response _ _ _ _ rfl rfl
        | exact recordsFor_forward _ _ _ _ (recordsFor_response _ _ _ _ rfl rfl)
        | exact recordsFor_result _ _ _ _ _ _ rfl rfl
        | exact recordsFor_of_eq _ _ _ rfl rfl
  · simp only [Db.RecordingConnWithQueryContext.QueryContext]
    repeat' split
    all_goals
      first
        | exact recordsFor_request_result _ _ _ _ _ _ _ rfl rfl
        | exact recordsFor_request _ _ _ _ rfl rfl
        | exact recordsFor_response _ _ _ _ rfl rfl
        | exact recordsFor_forward _ _ _ _ (recordsFor_response _ _ _ _ rfl rfl)
        | exact recordsFor_result _ _ _ _ _ _ rfl rfl
        | exact recordsFor_of_eq _ _ _ rfl rfl
  · simp only [RecordingConnWithExec.Exec]
    repeat' split
    all_goals
      first
        | exact recordsFor_request_result _ _ _ _ _ _ _ rfl rfl
        | exact recordsFor_request _ _ _ _ rfl rfl
        | exact recordsFor_response _ _ _ _ rfl rfl
        | exact recordsFor_forward _ _ _ _ (recordsFor_response _ _ _ _ rfl rfl)
        | exact recordsFor_result _ _ _ _ _ _ rfl rfl
        | exact recordsFor_of_eq _ _ _ rfl rfl
  · simp only [Db.RecordingConnWithExec.Exec]
    repeat' split
    all_goals
      first
        | exact recordsFor_request_result _ _ _ _ _ _ _ rfl rfl
        | exact recordsFor_request _ _ _ _ rfl rfl
        | exact recordsFor_response _ _ _ _ rfl rfl
        | exact recordsFor_forward _ _ _ _ (recordsFor_response _ _ _ _ rfl rfl)
        | exact recordsFor_result _ _ _ _ _ _ rfl rfl
        | exact recordsFor_of_eq _ _ _ rfl rfl
  · simp only [RecordingConnWithExecContext.ExecContext]
    repeat' split
    all_goals
      first
        | exact recordsFor_request_result _ _ _ _ _ _ _ rfl rfl
        | exact recordsFor_request _ _ _ _ rfl rfl
        | exact recordsFor_response _ _ _ _ rfl rfl
        | exact recordsFor_forward _ _ _ _ (recordsFor_response _ _ _ _ rfl rfl)
        | exact recordsFor_result _ _ _ _ _ _ rfl rfl
        | exact recordsFor_of_eq _ _ _ rfl rfl
  · simp only [Db.RecordingConnWithExecContext.ExecContext]
    repeat' split
    all_goals
      first
        | exact recordsFor_request_result _ _ _ _ _ _ _ rfl rfl
        | exact recordsFor_request _ _ _ _ rfl rfl
        | exact recordsFor_response _ _ _ _ rfl rfl
        | exact recordsFor_forward _ _ _ _ (recordsFor_response _ _ _ _ rfl rfl)
        | exact recordsFor_result _ _ _ _ _ _ rfl rfl
        | exact recordsFor_of_eq _ _ _ rfl rfl
  · simp only [RecordingStmt.Exec]
    repeat' split
    all_goals
      first
        | exact recordsFor_request_result _ _ _ _ _ _ _ rfl rfl
        | exact recordsFor_request _ _ _ _ rfl rfl
        | exact recordsFor_response _ _ _ _ rfl rfl
        | exact recordsFor_forward _ _ _ _ (recordsFor_response _ _ _ _ rfl rfl)
        | exact recordsFor_result _ _ _ _ _ _ rfl rfl
        | exact recordsFor_of_eq _ _ _ rfl rfl
  · simp only [Db.RecordingStmt.Exec]
    repeat' split
    all_goals
      first
        | exact recordsFor_request_result _ _ _ _ _ _ _ rfl rfl
        | exact recordsFor_request _ _ _ _ rfl rfl
        | exact recordsFor_response _ _ _ _ rfl rfl
        | exact recordsFor_forward _ _ _ _ (recordsFor_response _ _ _ _ rfl rfl)
        | exact recordsFor_result _ _ _ _ _ _ rfl rfl
        | exact recordsFor_of_eq _ _ _ rfl rfl
  · simp only [RecordingStmt.Query]
    repeat' split
    all_goals
      first
        | exact recordsFor_request_result _ _ _ _ _ _ _ rfl rfl
        | exact recordsFor_request _ _ _ _ rfl rfl
        | exact recordsFor_response _ _ _ _ rfl rfl
        | exact recordsFor_forward _ _ _ _ (recordsFor_response _ _ _ _ rfl rfl)
        | exact recordsFor_result _ _ _ _ _ _ rfl rfl
        | exact recordsFor_of_eq _ _ _ rfl rfl
  · simp only [Db.RecordingStmt.Query]
    repeat' split
    all_goals
      first
        | exact recordsFor_request_result _ _ _ _ _ _ _ rfl rfl
        | exact recordsFor_request _ _ _ _ rfl rfl
        | exact recordsFor_response _ _ _ _ rfl rfl
        | exact recordsFor_forward _ _ _ _ (recordsFor_response _ _ _ _ rfl rfl)
        | exact recordsFor_result _ _ _ _ _ _ rfl rfl
        | exact recordsFor_of_eq _ _ _ rfl rfl
  · simp only [RecordingStmtWithExecContext.ExecContext]
    repeat' split
    all_goals
      first
        | exact recordsFor_request_result _ _ _ _ _ _ _ rfl rfl
        | exact recordsFor_request _ _ _ _ rfl rfl
        | exact recordsFor_response _ _ _ _ rfl rfl
        | exact recordsFor_forward _ _ _ _ (recordsFor_response _ _ _ _ rfl rfl)
        | exact recordsFor_result _ _ _ _ _ _ rfl rfl
        | exact recordsFor_of_eq _ _ _ rfl rfl
  · simp only [Db.RecordingStmtWithExecContext.ExecContext]
    repeat' split
    all_goals
      first
        | exact recordsFor_request_result _ _ _ _ _ _ _ rfl rfl
        | exact recordsFor_request _ _ _ _ rfl rfl
        | exact recordsFor_response _ _ _ _ rfl rfl
        | exact recordsFor_forward _ _ _ _ (recordsFor_response _ _ _ _ rfl rfl)
        | exact recordsFor_result _ _ _ _ _ _ rfl rfl
        | exact recordsFor_of_eq _ _ _ rfl rfl
  · simp only [RecordingStmtWithQueryContext.QueryContext]
    repeat' split
    all_goals
      first
        | exact recordsFor_request_result _ _ _ _ _ _ _ rfl rfl
        | exact recordsFor_request _ _ _ _ rfl rfl
        | exact recordsFor_response _ _ _ _ rfl rfl
        | exact recordsFor_forward _ _ _ _ (recordsFor_response _ _ _ _ rfl rfl)
        | exact recordsFor_result _ _ _ _ _ _ rfl rfl
        | exact recordsFor_of_eq _ _ _ rfl rfl
  · simp only [Db.RecordingStmtWithQueryContext.QueryContext]
    repeat' split
    all_goals
      first
        | exact recordsFor_request_result _ _ _ _ _ _ _ rfl rfl
        | exact recordsFor_request _ _ _ _ rfl rfl
        | exact recordsFor_response _ _ _ _ rfl rfl
        | exact recordsFor_forward _ _ _ _ (recordsFor_response _ _ _ _ rfl rfl)
        | exact recordsFor_result _ _ _ _ _ _ rfl rfl
        | exact recordsFor_of_eq _ _ _ rfl rfl
  · simp only [RecordingRows.Close]
    repeat' split
    all_goals
      first
        | exact recordsFor_request_result _ _ _ _ _ _ _ rfl rfl
        | exact recordsFor_request _ _ _ _ rfl rfl
        | exact recordsFor_response _ _ _ _ rfl rfl
        | exact recordsFor_forward _ _ _ _ (recordsFor_response _ _ _ _ rfl rfl)
        | exact recordsFor_result _ _ _ _ _ _ rfl rfl
        | exact recordsFor_of_eq _ _ _ rfl rfl
  · simp only [Db.RecordingRows.Close]
    repeat' split
    all_goals
      first
        | exact recordsFor_request_result _ _ _ _ _ _ _ rfl rfl
        | exact recordsFor_request _ _ _ _ rfl rfl
        | exact recordsFor_response _ _ _ _ rfl rfl
        | exact recordsFor_forward _ _ _ _ (recordsFor_response _ _ _ _ rfl rfl)
        | exact recordsFor_result _ _ _ _ _ _ rfl rfl
        | exact recordsFor_of_eq _ _ _ rfl rfl

@[simp] theorem connValue_ofDriver_ne_proxy (c : Option DriverConn) (t : ConnType)
    (rc : RecordingConn) : ConnValue.ofDriver c ≠ ConnValue.proxy t rc := by
  cases c <;> simp [ConnValue.ofDriver]

@[simp] theorem stmtValue_ofDriver_ne_proxy (s : Option DriverStmt) (t : StmtType)
    (rs : RecordingStmt) : StmtValue.ofDriver s ≠ StmtValue.proxy t rs := by
  cases s <;> simp [StmtValue.ofDriver]

@[simp] theorem rowsValue_ofDriver_ne_proxy (r : Option DriverRows) (rows : RecordingRows) :
    RowsValue.ofDriver r ≠ RowsValue.proxy rows := by
  cases r <;> simp [RowsValue.ofDriver]

theorem derived_proxies_inherit (d : RecordingDriver) (cn : RecordingConnector)
    (conn : RecordingConn) (stmt : RecordingStmt) (rows : RecordingRows) (name query : String)
    (args : List Value) (nargs : List NamedValue) (dest : List Value) (w : World) :
    (∀ t rc e, (RecordingDriver.Open d name w).1 = Outcome.ret (ConnValue.proxy t rc, e) →
      rc.recorder = d.recorder ∧ rc.sourceName = d.sourceName) ∧
    (∀ t rc e, (Db.RecordingDriver.Open d name w).1 = Outcome.ret (ConnValue.proxy t rc, e) →
      rc.recorder = d.recorder ∧ rc.sourceName = d.sourceName) ∧
    (∀ rc e, (RecordingDriverContext.OpenConnector d name w).1 = Outcome.ret (some rc, e) →
      rc.recorder = d.recorder ∧ rc.sourceName = d.sourceName) ∧
    (∀ rc e, (Db.RecordingDriverContext.OpenConnector d name w).1 = Outcome.ret (some rc, e) →
      rc.recorder = d.recorder ∧ rc.sourceName = d.sourceName) ∧
    (∀ t rc e, (RecordingConnector.Connect cn w).1 = Outcome.ret (ConnValue.proxy t rc, e) →
      rc.recorder = cn.recorder ∧ rc.sourceName = cn.sourceName) ∧
    (∀ t rc e, (Db.RecordingConnector.Connect cn w).1 = Outcome.ret (ConnValue.proxy t rc, e) →
      rc.recorder = cn.recorder ∧ rc.sourceName = cn.sourceName) ∧
    (∀ t rs e, (RecordingConn.Prepare conn query w).1 = Outcome.ret (StmtValue.proxy t rs, e) →
      rs.recorder = conn.recorder ∧ rs.sourceName = conn.sourceName) ∧
    (∀ t rs e, (Db.RecordingConn.Prepare conn query w).1 = Outcome.ret (StmtValue.proxy t rs, e) →
      rs.recorder = conn.recorder ∧ rs.sourceName = conn.sourceName) ∧
    (∀ t rs e, (RecordingConnWithPrepareContext.PrepareContext conn query w).1 = Outcome.ret (StmtValue.proxy t rs, e) →
      rs.recorder = conn.recorder ∧ rs.sourceName = conn.sourceName) ∧
    (∀ t rs e, (Db.RecordingConnWithPrepareContext.PrepareContext conn query w).1 = Outcome.ret (StmtValue.proxy t rs, e) →
      rs.recorder = conn.recorder ∧ rs.sourceName = conn.sourceName) ∧
    (∀ rows1 e, (RecordingConnWithQuery.Query conn query args w).1 = Outcome.ret (RowsValue.proxy rows1, e) →
      rows1.recorder = conn.recorder ∧ rows1.sourceName = conn.sourceName) ∧
    (∀ rows1 e, (Db.RecordingConnWithQuery.Query conn query args w).1 = Outcome.ret (RowsValue.proxy rows1, e) →
      rows1.recorder = conn.recorder ∧ rows1.sourceName = conn.sourceName) ∧
    (∀ rows1 e, (RecordingConnWithQueryContext.QueryContext conn query nargs w).1 = Outcome.ret (RowsValue.proxy rows1, e) →
      rows1.recorder = conn.recorder ∧ rows1.sourceName = conn.sourceName) ∧
    (∀ rows1 e, (Db.RecordingConnWithQueryContext.QueryContext conn query nargs w).1 = Outcome.ret (RowsValue.proxy rows1, e) →
      rows1.recorder = conn.recorder ∧ rows1.sourceName = conn.sourceName) ∧
    (∀ rows1 e, (RecordingStmt.Query stmt args w).1 = Outcome.ret (RowsValue.proxy rows1, e) →
      rows1.recorder = stmt.recorder ∧ rows1.sourceName = stmt.sourceName) ∧
    (∀ rows1 e, (Db.RecordingStmt.Query stmt args w).1 = Outcome.ret (RowsValue.proxy rows1, e) →
      rows1.recorder = stmt.recorder ∧ rows1.sourceName = stmt.sourceName) ∧
    (∀ rows1 e, (RecordingStmtWithQueryContext.QueryContext stmt nargs w).1 = Outcome.ret (RowsValue.proxy rows1, e) →
      rows1.recorder = stmt.recorder ∧ rows1.sourceName = stmt.sourceName) ∧
    (∀ rows1 e, (Db.RecordingStmtWithQueryContext.QueryContext stmt nargs w).1 = Outcome.ret (RowsValue.proxy rows1, e) →
      rows1.recorder = stmt.recorder ∧ rows1.sourceName = stmt.sourceName) ∧
    ((RecordingRows.Next rows dest w).2.1.recorder = rows.recorder ∧
      (RecordingRows.Next rows dest w).2.1.sourceName = rows.sourceName) ∧
    ((Db.RecordingRows.Next rows dest w).2.1.recorder = rows.recorder ∧
      (Db.RecordingRows.Next rows dest w).2.1.sourceName = rows.sourceName) := by
  refine ⟨?_, ?_, ?_, ?_, ?_, ?_, ?_, ?_, ?_, ?_, ?_, ?_, ?_, ?_, ?_, ?_, ?_, ?_, ?_, ?_⟩
  · intro t rc e h
    simp only [RecordingDriver.Open] at h
    repeat' split at h
    all_goals
      first
        | (simp at h; done)
        | (simp at h; rcases h with ⟨⟨-, rfl⟩, -⟩; exact ⟨rfl, rfl⟩)
  · intro t rc e h
    simp only [Db.RecordingDriver.Open] at h
    repeat' split at h
    all_goals
      first
        | (simp at h; done)
        | (simp at h; rcases h with ⟨⟨-, rfl⟩, -⟩; exact ⟨rfl, rfl⟩)
  · intro rc e h
    simp only [RecordingDriverContext.OpenConnector] at h
    repeat' split at h
    all_goals
      first
        | (simp at h; done)
        | (simp at h; rcases h with ⟨⟨-, rfl⟩, -⟩; exact ⟨rfl, rfl⟩)
  · intro rc e h
    simp only [Db.RecordingDriverContext.OpenConnector] at h
    repeat' split at h
    all_goals
      first
        | (simp at h; done)
        | (simp at h; rcases h with ⟨⟨-, rfl⟩, -⟩; exact ⟨rfl, rfl⟩)
  · intro t rc e h
    simp only [RecordingConnector.Connect] at h
    repeat' split at h
    all_goals
      first
        | (simp at h; done)
        | (simp at h; rcases h with ⟨⟨-, rfl⟩, -⟩; exact ⟨rfl, rfl⟩)
  · intro t rc e h
    simp only [Db.RecordingConnector.Connect] at h
    repeat' split at h
    all_goals
      first
        | (simp at h; done)
        | (simp at h; rcases h with ⟨⟨-, rfl⟩, -⟩; exact ⟨rfl, rfl⟩)
  · intro t rs e h
    simp only [RecordingConn.Prepare] at h
    repeat' split at h
    all_goals
      first
        | (simp at h; done)
        | (simp at h; rcases h with ⟨⟨-, rfl⟩, -⟩; exact ⟨rfl, rfl⟩)
  · intro t rs e h
    simp only [Db.RecordingConn.Prepare] at h
    repeat' split at h
    all_goals
      first
        | (simp at h; done)
        | (simp at h; rcases h with ⟨⟨-, rfl⟩, -⟩; exact ⟨rfl, rfl⟩)
  · intro t rs e h
    simp only [RecordingConnWithPrepareContext.PrepareContext] at h
    repeat' split at h
    all_goals
      first
        | (simp at h; done)
        | (simp at h; rcases h with ⟨⟨-, rfl⟩, -⟩; exact ⟨rfl, rfl⟩)
  · intro t rs e h
    simp only [Db.RecordingConnWithPrepareContext.PrepareContext] at h
    repeat' split at h
    all_goals
      first
        | (simp at h; done)
        | (simp at h; rcases h with ⟨⟨-, rfl⟩, -⟩; exact ⟨rfl, rfl⟩)
  · intro rows1 e h
    simp only [RecordingConnWithQuery.Query] at h
    repeat' split at h
    all_goals
      first
        | (simp at h; done)
        | (simp at h; rcases h with ⟨⟨-, rfl⟩, -⟩; exact ⟨rfl, rfl⟩)
  · intro rows1 e h
    simp only [Db.RecordingConnWithQuery.Query] at h
    repeat' split at h
    all_goals
      first
        | (simp at h; done)
        | (simp at h; rcases h with ⟨⟨-, rfl⟩, -⟩; exact ⟨rfl, rfl⟩)
  · intro rows1 e h
    simp only [RecordingConnWithQueryContext.QueryContext] at h
    repeat' split at h
    all_goals
      first
        | (simp at h; done)
        | (simp at h; rcases h with ⟨⟨-, rfl⟩, -⟩; exact ⟨rfl, rfl⟩)
  · intro rows1 e h
    simp only [Db.RecordingConnWithQueryContext.QueryContext] at h
    repeat' split at h
    all_goals
      first
        | (simp at h; done)
        | (simp at h; rcases h with ⟨⟨-, rfl⟩, -⟩; exact ⟨rfl, rfl⟩)
  · intro rows1 e h
    simp only [RecordingStmt.Query] at h
    repeat' split at h
    all_goals
      first
        | (simp at h; done)
        | (simp at h; rcases h with ⟨⟨-, rfl⟩, -⟩; exact ⟨rfl, rfl⟩)
  · intro rows1 e h
    simp only [Db.RecordingStmt.Query] at h
    repeat' split at h
    all_goals
      first
        | (simp at h; done)
        | (simp at h; rcases h with ⟨⟨-, rfl⟩, -⟩; exact ⟨rfl, rfl⟩)
  · intro rows1 e h
    simp only [RecordingStmtWithQueryContext.QueryContext] at h
    repeat' split at h
    all_goals
      first
        | (simp at h; done)
        | (simp at h; rcases h with ⟨⟨-, rfl⟩, -⟩; exact ⟨rfl, rfl⟩)
  · intro rows1 e h
    simp only [Db.RecordingStmtWithQueryContext.QueryContext] at h
    repeat' split at h
    all_goals
      first
        | (simp at h; done)
        | (simp at h; rcases h with ⟨⟨-, rfl⟩, -⟩; exact ⟨rfl, rfl⟩)
  · simp only [RecordingRows.Next]
    repeat' split
    all_goals exact ⟨rfl, rfl⟩
  · simp only [Db.RecordingRows.Next]
    repeat' split
    all_goals exact ⟨rfl, rfl⟩

/-! ### The statement types chosen by `Prepare` and `PrepareContext` -/

/-- The statement type that `PrepareContext` chooses has a capability exactly when the
wrapped statement has it. -/
theorem prepareContextStmtType_implements (stmt : Option DriverStmt) (X : StmtCapability) :
    (prepareContextStmtType stmt).hasMethod X.method = stmtImplements stmt X := by
  unfold prepareContextStmtType
  cases X
  all_goals
    generalize stmtImplements stmt StmtCapability.StmtQueryContext = q
    generalize stmtImplements stmt StmtCapability.StmtExecContext = e
    cases q
    all_goals cases e
    all_goals decide

/-- The statement type that `Prepare` chooses has a capability exactly when the wrapped
statement has both. -/
theorem prepareStmtType_implements (stmt : Option DriverStmt) (X : StmtCapability) :
    (prepareStmtType stmt).hasMethod X.method =
      (stmtImplements stmt StmtCapability.StmtQueryContext &&
        stmtImplements stmt StmtCapability.StmtExecContext) := by
  unfold prepareStmtType
  cases X
  all_goals
    generalize stmtImplements stmt StmtCapability.StmtQueryContext = q
    generalize stmtImplements stmt StmtCapability.StmtExecContext = e
    cases q
    all_goals cases e
    all_goals decide

/-! ### `sqlDriverNameToDriver` and `WrapWithRecorder` -/

/-- For a name that is not registered `sqlDriverNameToDriver` returns nil. -/
theorem sqlDriverNameToDriver_unregistered (drivers : String → Option Driver)
    (driverOf : DriverConnector → Option Driver) (driverName : String) (w : World)
    (hreg : drivers driverName = none) :
    sqlDriverNameToDriver drivers driverOf driverName w = (Outcome.ret none, w) := by
  simp [sqlDriverNameToDriver, sqlOpen, hreg]

/-- For a registered driver without `driver.DriverContext`, `sqlDriverNameToDriver`
returns the driver. -/
theorem sqlDriverNameToDriver_plain (drivers : String → Option Driver)
    (driverOf : DriverConnector → Option Driver) (driverName : String) (w : World)
    (drv : Driver) (hreg : drivers driverName = some drv)
    (hctx : drv.DriverContext = none) :
    sqlDriverNameToDriver drivers driverOf driverName w = (Outcome.ret (some drv), w) := by
  simp [sqlDriverNameToDriver, sqlOpen, hreg, hctx, DB.Driver]

/-- For a registered driver whose `OpenConnector` accepts the empty data source name,
`sqlDriverNameToDriver` returns what the `Driver()` of the connector returns. -/
theorem sqlDriverNameToDriver_connector (drivers : String → Option Driver)
    (driverOf : DriverConnector → Option Driver) (driverName : String) (w : World)
    (drv : Driver) (oc : String → Option DriverConnector × Option Error)
    (k : DriverConnector) (hreg : drivers driverName = some drv)
    (hctx : drv.DriverContext = some oc) (hopen : oc "" = (some k, none)) :
    sqlDriverNameToDriver drivers driverOf driverName w =
      (Outcome.ret (driverOf k), w.forward (Call.DriverOpenConnector "")) := by
  simp [sqlDriverNameToDriver, sqlOpen, hreg, hctx, hopen, DB.Driver]

/-- For a registered driver whose `OpenConnector` refuses the empty data source name,
`sqlDriverNameToDriver` returns nil. -/
theorem sqlDriverNameToDriver_refused (drivers : String → Option Driver)
    (driverOf : DriverConnector → Option Driver) (driverName : String) (w : World)
    (drv : Driver) (oc : String → Option DriverConnector × Option Error)
    (hreg : drivers driverName = some drv) (hctx : drv.DriverContext = some oc)
    (herr : (oc "").2 ≠ none) :
    sqlDriverNameToDriver drivers driverOf driverName w =
      (Outcome.ret none, w.forward (Call.DriverOpenConnector "")) := by
  simp [sqlDriverNameToDriver, sqlOpen, hreg, hctx, herr]

/-- What `WrapWithRecorder` (root package and `x/db`) wraps for a registered driver
whose `OpenConnector` accepts the empty data source name: the driver that the
`Driver()` of the connector returns, as a `RecordingDriverContext` when that driver
implements `driver.DriverContext` and as a plain `RecordingDriver` otherwise. -/
theorem wrap_connector_driver (drivers : String → Option Driver)
    (driverOf : DriverConnector → Option Driver) (driverName : String)
    (recorder : RecorderPtr) (w : World) (drv : Driver)
    (oc : String → Option DriverConnector × Option Error) (k : DriverConnector)
    (hreg : drivers driverName = some drv) (hctx : drv.DriverContext = some oc)
    (hopen : oc "" = (some k, none)) :
    WrapWithRecorder drivers driverOf driverName recorder w =
      (Outcome.ret
        (DriverValue.mk
          (if ((driverOf k).bind Driver.DriverContext).isSome then
            DriverType.RecordingDriverContext
          else DriverType.RecordingDriver)
          { sourceName := driverName, Driver := driverOf k, recorder := recorder }),
        w.forward (Call.DriverOpenConnector "")) ∧
    Db.WrapWithRecorder drivers driverOf driverName recorder w =
      (Outcome.ret
        (DriverValue.mk
          (if ((driverOf k).bind Driver.DriverContext).isSome then
            DriverType.RecordingDriverContext
          else DriverType.RecordingDriver)
          { sourceName := driverName, Driver := driverOf k, recorder := recorder }),
        w.forward (Call.DriverOpenConnector "")) := by
  have h := sqlDriverNameToDriver_connector drivers driverOf driverName w drv oc k hreg hctx
    hopen
  constructor
  · simp only [WrapWithRecorder, h]
    split_ifs <;> rfl
  · simp only [Db.WrapWithRecorder, h]
    split_ifs <;> rfl

/-- For a driver registered under `driverName` whose `OpenConnector`, if it has one,
accepts the empty data source name and hands back a connector that answers `Driver()`
with the registered driver, `WrapWithRecorder` (root package and `x/db`) returns a
driver proxy over that driver, with the recorder given and `driverName` as source
name; the proxy implements `Open`, its `Open` calls the `Open` of the registered
driver, and it implements `OpenConnector` exactly when the registered driver does. -/
theorem wrap_registered_driver (drivers : String → Option Driver)
    (driverOf : DriverConnector → Option Driver) (driverName : String)
    (recorder : RecorderPtr) (w : World) (drv : Driver)
    (hreg : drivers driverName = some drv)
    (hround : ∀ oc, drv.DriverContext = some oc →
      ∃ k, oc "" = (some k, none) ∧ driverOf k = some drv) :
    ∃ t w1,
      WrapWithRecorder drivers driverOf driverName recorder w =
          (Outcome.ret
            { goType := t,
              recordingDriver :=
                { sourceName := driverName, Driver := some drv, recorder := recorder } },
           w1) ∧
        Db.WrapWithRecorder drivers driverOf driverName recorder w =
          (Outcome.ret
            { goType := t,
              recordingDriver :=
                { sourceName := driverName, Driver := some drv, recorder := recorder } },
           w1) ∧
        t.hasMethod DriverMethod.Open = true ∧
        t.hasMethod DriverMethod.OpenConnector = drv.DriverContext.isSome ∧
        ∀ name w2,
          callsAfter
              (RecordingDriver.Open
                { sourceName := driverName, Driver := some drv, recorder := recorder }
                name w2) = w2.calls ++ [Call.DriverOpen name] ∧
            callsAfter
              (Db.RecordingDriver.Open
                { sourceName := driverName, Driver := some drv, recorder := recorder }
                name w2) = w2.calls ++ [Call.DriverOpen name] := by
  have hcalls : ∀ name w2,
      callsAfter
          (RecordingDriver.Open
            { sourceName := driverName, Driver := some drv, recorder := recorder }
            name w2) = w2.calls ++ [Call.DriverOpen name] ∧
        callsAfter
          (Db.RecordingDriver.Open
            { sourceName := driverName, Driver := some drv, recorder := recorder }
            name w2) = w2.calls ++ [Call.DriverOpen name] := by
    intro name w2
    constructor
    · simp only [RecordingDriver.Open, callsAfter]
      split_ifs
      all_goals simp
    · simp only [Db.RecordingDriver.Open, callsAfter]
      split_ifs
      all_goals simp
  cases hctx : drv.DriverContext with
  | none =>
    have h := sqlDriverNameToDriver_plain drivers driverOf driverName w drv hreg hctx
    refine ⟨DriverType.RecordingDriver, w, ?_, ?_, by decide, rfl, hcalls⟩
    · simp [WrapWithRecorder, h, hctx]
    · simp [Db.WrapWithRecorder, h, hctx]
  | some oc =>
    obtain ⟨k, hk, hdrv⟩ := hround oc hctx
    have h := wrap_connector_driver drivers driverOf driverName recorder w drv oc k hreg
      hctx hk
    refine ⟨DriverType.RecordingDriverContext, w.forward (Call.DriverOpenConnector ""),
      ?_, ?_, by decide, rfl, hcalls⟩
    · rw [h.1, hdrv]
      simp [hctx]
    · rw [h.2, hdrv]
      simp [hctx]

/-- A connector that answers `Driver()` with another driver: the driver registered as
`connector` implements `driver.DriverContext`, and `WrapWithRecorder` wraps the driver
its connector answers with, which does not. -/
theorem wrap_foreign_driver :
    ((sampleRegistry "connector").bind Driver.DriverContext).isSome = true ∧
    (WrapWithRecorder sampleRegistry sampleForeignDriverOf "connector" RecorderPtr.run
      sampleWorld).1 =
      Outcome.ret
        (DriverValue.mk DriverType.RecordingDriver
          { sourceName := "connector", Driver := some (sampleDriver sampleConn),
            recorder := RecorderPtr.run }) ∧
    (Db.WrapWithRecorder sampleRegistry sampleForeignDriverOf "connector" RecorderPtr.run
      sampleWorld).1 =
      Outcome.ret
        (DriverValue.mk DriverType.RecordingDriver
          { sourceName := "connector", Driver := some (sampleDriver sampleConn),
            recorder := RecorderPtr.run }) := by
  have hreg : sampleRegistry "connector" = some sampleConnectorDriver := by
    simp [sampleRegistry]
  have h := wrap_connector_driver sampleRegistry sampleForeignDriverOf "connector"
    RecorderPtr.run sampleWorld sampleConnectorDriver _ (sampleConnector sampleConn) hreg
    rfl rfl
  refine ⟨?_, ?_, ?_⟩
  · rw [hreg]
    rfl
  · rw [h.1]
    rfl
  · rw [h.2]
    rfl

/-! ## Success and failure of the proxied calls (C11, C12, C13) -/

/-- C11 fails on `QueryContext` of `db.go`: on a connection proxy without a recorder
whose wrapped connection implements `driver.QueryerContext` and returns rows and a nil
error, the proxy returns the error `QueryerContext not implemented`.  The copy in
`x/db` returns a nil error on the same input. -/
theorem C11_root_QueryContext_without_recorder :
    sampleSilentRecordingConn.recorder = RecorderPtr.nil ∧
    (sampleSilentRecordingConn.Conn.bind DriverConn.QueryerContext).map
      (fun f => (f "SELECT id FROM users" []).2) = some none ∧
    returnedError (RecordingConnWithQueryContext.QueryContext sampleSilentRecordingConn
      "SELECT id FROM users" [] sampleWorld) =
        some (Error.New "QueryerContext not implemented") ∧
    returnedError (Db.RecordingConnWithQueryContext.QueryContext sampleSilentRecordingConn
      "SELECT id FROM users" [] sampleWorld) = none := by
  refine ⟨rfl, rfl, rfl, rfl⟩

/-- C12: at every layer (`Open`, `OpenConnector`, `Connect`, `Prepare`,
`PrepareContext`, `Query`, `QueryContext`, `Exec`, `ExecContext`, `BeginTx`, `Ping`, the
four statement operations, `Next` and `Close` of the rows), in both packages, when the
operation of the wrapped object returns a non-nil error `e`, the proxy returns `e`
itself. -/
theorem C12_delegate_error_returned (d : RecordingDriver) (drv : Driver)
    (cn : RecordingConnector) (k : DriverConnector) (conn : RecordingConn) (c : DriverConn) (stmt : RecordingStmt)
    (s : DriverStmt) (rows : RecordingRows) (r : DriverRows) (name query : String)
    (args : List Value) (nargs : List NamedValue) (opts : TxOptions) (dest : List Value)
    (w : World) (hd : d.Driver = some drv) (hcn : cn.Connector = some k)
    (hconn : conn.Conn = some c) (hstmt : stmt.Stmt = some s) (hrows : rows.Rows = some r) :
    (∀ e, (drv.Open name).2 = some e →
      returnedError (RecordingDriver.Open d name w) = some e ∧
      returnedError (Db.RecordingDriver.Open d name w) = some e) ∧
    (∀ f, drv.DriverContext = some f → ∀ e, (f name).2 = some e →
      returnedError (RecordingDriverContext.OpenConnector d name w) = some e ∧
      returnedError (Db.RecordingDriverContext.OpenConnector d name w) = some e) ∧
    (∀ e, k.Connect.2 = some e →
      returnedError (RecordingConnector.Connect cn w) = some e ∧
      returnedError (Db.RecordingConnector.Connect cn w) = some e) ∧
    (∀ e, (c.Prepare query).2 = some e →
      returnedError (RecordingConn.Prepare conn query w) = some e ∧
      returnedError (Db.RecordingConn.Prepare conn query w) = some e) ∧
    (∀ f, c.ConnPrepareContext = some f → ∀ e, (f query).2 = some e →
      returnedError (RecordingConnWithPrepareContext.PrepareContext conn query w) = some e ∧
      returnedError (Db.RecordingConnWithPrepareContext.PrepareContext conn query w) = some e) ∧
    (∀ f, c.Queryer = some f → ∀ e, (f query args).2 = some e →
      returnedError (RecordingConnWithQuery.Query conn query args w) = some e ∧
      returnedError (Db.RecordingConnWithQuery.Query conn query args w) = some e) ∧
    (∀ f, c.QueryerContext = some f → ∀ e, (f query nargs).2 = some e →
      returnedError (RecordingConnWithQueryContext.QueryContext conn query nargs w) = some e ∧
      returnedError (Db.RecordingConnWithQueryContext.QueryContext conn query nargs w) = some e) ∧
    (∀ f, c.Execer = some f → ∀ e, (f query args).2 = some e →
      returnedError (RecordingConnWithExec.Exec conn query args w) = some e ∧
      returnedError (Db.RecordingConnWithExec.Exec conn query args w) = some e) ∧
    (∀ f, c.ExecerContext = some f → ∀ e, (f query nargs).2 = some e →
      returnedError (RecordingConnWithExecContext.ExecContext conn query nargs w) = some e ∧
      returnedError (Db.RecordingConnWithExecContext.ExecContext conn query nargs w) = some e) ∧
    (∀ f, c.ConnBeginTx = some f → ∀ e, (f opts).2 = some e →
      returnedError (RecordingConnWithBeginTx.BeginTx conn opts w) = some e ∧
      returnedError (Db.RecordingConnWithBeginTx.BeginTx conn opts w) = some e) ∧
    (∀ f, c.Pinger = some f → ∀ e, f = some e →
      onlyError (RecordingConnWithPing.Ping conn w).1 = some e ∧
      onlyError (Db.RecordingConnWithPing.Ping conn w).1 = some e) ∧
    (∀ e, (s.Exec args).2 = some e →
      returnedError (RecordingStmt.Exec stmt args w) = some e ∧
      returnedError (Db.RecordingStmt.Exec stmt args w) = some e) ∧
    (∀ e, (s.Query args).2 = some e →
      returnedError (RecordingStmt.Query stmt args w) = some e ∧
      returnedError (Db.RecordingStmt.Query stmt args w) = some e) ∧
    (∀ f, s.StmtExecContext = some f → ∀ e, (f nargs).2 = some e →
      returnedError (RecordingStmtWithExecContext.ExecContext stmt nargs w) = some e ∧
      returnedError (Db.RecordingStmtWithExecContext.ExecContext stmt nargs w) = some e) ∧
    (∀ f, s.StmtQueryContext = some f → ∀ e, (f nargs).2 = some e →
      returnedError (RecordingStmtWithQueryContext.QueryContext stmt nargs w) = some e ∧
      returnedError (Db.RecordingStmtWithQueryContext.QueryContext stmt nargs w) = some e) ∧
    (∀ e, r.Next r.served dest = some e →
      onlyError (RecordingRows.Next rows dest w).1 = some e ∧
      onlyError (Db.RecordingRows.Next rows dest w).1 = some e) ∧
    (∀ e, r.Close = some e →
      onlyError (RecordingRows.Close rows w).1 = some e ∧
      onlyError (Db.RecordingRows.Close rows w).1 = some e) := by
  refine ⟨?_, ?_, ?_, ?_, ?_, ?_, ?_, ?_, ?_, ?_, ?_, ?_, ?_, ?_, ?_, ?_, ?_⟩
  · intro e he
    simp [RecordingDriver.Open, Db.RecordingDriver.Open, hd, he,
      returnedError]
  · intro f hf e he
    simp [RecordingDriverContext.OpenConnector, Db.RecordingDriverContext.OpenConnector, hd, hf, he,
      returnedError]
  · intro e he
    simp [RecordingConnector.Connect, Db.RecordingConnector.Connect, hcn, he,
      returnedError]
  · intro e he
    simp [RecordingConn.Prepare, Db.RecordingConn.Prepare, hconn, he,
      returnedError]
  · intro f hf e he
    simp [RecordingConnWithPrepareContext.PrepareContext, Db.RecordingConnWithPrepareContext.PrepareContext, hconn, hf, he,
      returnedError]
  · intro f hf e he
    simp [RecordingConnWithQuery.Query, Db.RecordingConnWithQuery.Query, hconn, hf, he,
      returnedError]
  · intro f hf e he
    simp [RecordingConnWithQueryContext.QueryContext, Db.RecordingConnWithQueryContext.QueryContext, hconn, hf, he,
      returnedError]
  · intro f hf e he
    simp [RecordingConnWithExec.Exec, Db.RecordingConnWithExec.Exec, hconn, hf, he,
      returnedError]
  · intro f hf e he
    simp [RecordingConnWithExecContext.ExecContext, Db.RecordingConnWithExecContext.ExecContext, hconn, hf, he,
      returnedError]
  · intro f hf e he
    simp [RecordingConnWithBeginTx.BeginTx, Db.RecordingConnWithBeginTx.BeginTx, hconn, hf, he,
      returnedError]
  · intro f hf e he
    simp [RecordingConnWithPing.Ping, Db.RecordingConnWithPing.Ping, hconn, hf, he,
      onlyError]
  · intro e he
    simp [RecordingStmt.Exec, Db.RecordingStmt.Exec, hstmt, he,
      returnedError]
  · intro e he
    simp [RecordingStmt.Query, Db.RecordingStmt.Query, hstmt, he,
      returnedError]
  · intro f hf e he
    simp [RecordingStmtWithExecContext.ExecContext, Db.RecordingStmtWithExecContext.ExecContext, hstmt, hf, he,
      returnedError]
  · intro f hf e he
    simp [RecordingStmtWithQueryContext.QueryContext, Db.RecordingStmtWithQueryContext.QueryContext, hstmt, hf, he,
      returnedError]
  · intro e he
    simp [RecordingRows.Next, Db.RecordingRows.Next, hrows, he,
      onlyError]
  · intro e he
    simp [RecordingRows.Close, Db.RecordingRows.Close, hrows, he,
      onlyError]

/-- C12 at a driver and a connector that refuse to open, a connection whose
`ExecContext` fails, a statement whose `Exec` and `Query` fail, and a row set that is
at its end. -/
theorem C12_delegate_error_returned_witness :
    sampleRefusingRecordingDriver.Driver = some sampleRefusingDriver ∧
    sampleRefusingRecordingConnector.Connector = some sampleRefusingConnector ∧
    sampleFailingRecordingConn.Conn = some sampleFailingConn ∧
    sampleFailingRecordingStmt.Stmt = some sampleFailingStmt ∧
    (sampleRecordingRows 0).Rows = some (sampleRows 0) ∧
    returnedError (RecordingDriver.Open sampleRefusingRecordingDriver "dsn" sampleWorld) =
      some (Error.New "refused") ∧
    returnedError (Db.RecordingDriverContext.OpenConnector sampleRefusingRecordingDriver "dsn"
      sampleWorld) = some (Error.New "refused") ∧
    returnedError (RecordingConnector.Connect sampleRefusingRecordingConnector sampleWorld) =
      some (Error.New "refused") ∧
    returnedError (RecordingConnWithExecContext.ExecContext sampleFailingRecordingConn
      "DELETE FROM users" sampleNamedArgs sampleWorld) = some (Error.New "boom") ∧
    returnedError (Db.RecordingStmt.Query sampleFailingRecordingStmt [] sampleWorld) =
      some (Error.New "boom") ∧
    onlyError (RecordingRows.Next (sampleRecordingRows 0) [] sampleWorld).1 =
      some Error.EOF :=
  have h := C12_delegate_error_returned sampleRefusingRecordingDriver sampleRefusingDriver
    sampleRefusingRecordingConnector sampleRefusingConnector sampleFailingRecordingConn
    sampleFailingConn sampleFailingRecordingStmt sampleFailingStmt (sampleRecordingRows 0)
    (sampleRows 0) "dsn" "DELETE FROM users" [] sampleNamedArgs
    { Isolation := 0, ReadOnly := false } [] sampleWorld rfl rfl rfl rfl rfl
  ⟨rfl, rfl, rfl, rfl, rfl, (h.1 _ rfl).1, (h.2.1 _ rfl _ rfl).2, (h.2.2.1 _ rfl).1,
    (h.2.2.2.2.2.2.2.2.1 _ rfl _ rfl).1, (h.2.2.2.2.2.2.2.2.2.2.2.2.1 _ rfl).2,
    (h.2.2.2.2.2.2.2.2.2.2.2.2.2.2.2.1 _ rfl).1⟩

/-- C13 fails on `QueryContext` of `db.go`: on a connection proxy with a recorder
whose wrapped connection does not implement `driver.QueryerContext`, the call appends a
`MessageRequest` and returns a rows proxy and a nil error.  The copy in `x/db` returns
no rows and the error `QueryerContext not implemented`, and appends nothing. -/
theorem C13_root_QueryContext_not_implemented :
    sampleConn.implements ConnCapability.QueryerContext = false ∧
    samplePlainRecordingConn.Conn = some sampleConn ∧
    returnedError (RecordingConnWithQueryContext.QueryContext samplePlainRecordingConn
      "SELECT id FROM users" [] sampleWorld) = none ∧
    (RecordingConnWithQueryContext.QueryContext samplePlainRecordingConn
      "SELECT id FROM users" [] sampleWorld).1 =
      Outcome.ret
        (RowsValue.proxy
          { Rows := none, recorder := RecorderPtr.run, sourceName := "db", RowsFound := 0 },
         none) ∧
    eventsAfter (RecordingConnWithQueryContext.QueryContext samplePlainRecordingConn
      "SELECT id FROM users" [] sampleWorld) =
      [Event.MessageRequest
        { Source := "sut", Target := "db", Header := "SQL Query",
          Body := "SELECT id FROM users", Timestamp := 0 }] ∧
    (Db.RecordingConnWithQueryContext.QueryContext samplePlainRecordingConn
      "SELECT id FROM users" [] sampleWorld).1 =
      Outcome.ret (RowsValue.nil, some (Error.New "QueryerContext not implemented")) ∧
    eventsAfter (Db.RecordingConnWithQueryContext.QueryContext samplePlainRecordingConn
      "SELECT id FROM users" [] sampleWorld) = [] := by
  refine ⟨rfl, rfl, rfl, rfl, ?_, rfl, rfl⟩
  decide

/-! ## Results and arguments passed through (C14) -/

/-- C14 as stated fails: `ExecContext` on a connection proxy with a recorder, given one
named parameter, forwards the call, whose result the wrapped connection returns with a
nil error, and returns no result and the named-parameter error. -/
theorem C14_counterexample :
    (sampleUncountedRecordingConn.Conn.bind DriverConn.ExecerContext).map
      (fun f => f "UPDATE users SET age = 1 WHERE id = :id" sampleNamedArgs) =
      some (some sampleResultWithoutCount, none) ∧
    (RecordingConnWithExecContext.ExecContext sampleUncountedRecordingConn
      "UPDATE users SET age = 1 WHERE id = :id" sampleNamedArgs sampleWorld).1 =
      Outcome.ret (none, some namedParametersError) ∧
    (Db.RecordingStmtWithExecContext.ExecContext sampleUncountedRecordingStmt sampleNamedArgs
      sampleWorld).1 = Outcome.ret (none, some namedParametersError) :=
  ⟨rfl, rfl, rfl⟩

/-- C14 (amended): an exec-family operation (connection `Exec` and `ExecContext`,
statement `Exec` and `ExecContext`, in both packages) whose wrapped operation, invoked
with the query text and the argument list given to the proxy, returns `(r, nil)`
returns `(r, nil)`, provided that for `ExecContext` the recorder is nil or no parameter
of the argument list has a name; `Columns` of a rows proxy returns the `Columns` of
the wrapped row set; every `Next` returns the error of the wrapped `Next`, invoked with
the same destination. -/
theorem C14_results_pass_through (conn : RecordingConn) (c : DriverConn)
    (stmt : RecordingStmt) (s : DriverStmt) (rows : RecordingRows) (r : DriverRows)
    (query : String) (args : List Value) (nargs : List NamedValue) (dest : List Value)
    (res : Option DriverResult) (w : World) (hconn : conn.Conn = some c)
    (hstmt : stmt.Stmt = some s) (hrows : rows.Rows = some r) :
    (∀ f, c.Execer = some f → f query args = (res, none) →
      passedThrough w (Call.ConnExec query args) res (RecordingConnWithExec.Exec conn query args w) ∧
      passedThrough w (Call.ConnExec query args) res (Db.RecordingConnWithExec.Exec conn query args w)) ∧
    (s.Exec args = (res, none) →
      passedThrough w (Call.StmtExec args) res (RecordingStmt.Exec stmt args w) ∧
      passedThrough w (Call.StmtExec args) res (Db.RecordingStmt.Exec stmt args w)) ∧
    (∀ f, c.ExecerContext = some f → f query nargs = (res, none) →
      (conn.recorder = RecorderPtr.nil ∨ ∀ p ∈ nargs, p.Name = "") →
      passedThrough w (Call.ConnExecContext query nargs) res (RecordingConnWithExecContext.ExecContext conn query nargs w) ∧
      passedThrough w (Call.ConnExecContext query nargs) res (Db.RecordingConnWithExecContext.ExecContext conn query nargs w)) ∧
    (∀ f, s.StmtExecContext = some f → f nargs = (res, none) →
      (stmt.recorder = RecorderPtr.nil ∨ ∀ p ∈ nargs, p.Name = "") →
      passedThrough w (Call.StmtExecContext nargs) res (RecordingStmtWithExecContext.ExecContext stmt nargs w) ∧
      passedThrough w (Call.StmtExecContext nargs) res (Db.RecordingStmtWithExecContext.ExecContext stmt nargs w)) ∧
    ((RecordingRows.Columns rows w).1 = Outcome.ret r.Columns ∧
      (Db.RecordingRows.Columns rows w).1 = Outcome.ret r.Columns) ∧
    ((RecordingRows.Next rows dest w).1 = Outcome.ret (r.Next r.served dest) ∧
      (RecordingRows.Next rows dest w).2.2.calls = w.calls ++ [Call.RowsNext dest] ∧
      (Db.RecordingRows.Next rows dest w).1 = Outcome.ret (r.Next r.served dest) ∧
      (Db.RecordingRows.Next rows dest w).2.2.calls = w.calls ++ [Call.RowsNext dest]) := by
  refine ⟨?_, ?_, ?_, ?_, ?_, ?_⟩
  · intro f hf hres
    have hb := bind_capability _ _ _ _ hconn hf
    constructor
    · simp only [RecordingConnWithExec.Exec, hb, hres, ne_eq, not_true_eq_false, if_false]
      split_ifs
      all_goals exact passedThrough_recordResult _ _ _ _ _ _ _ _ rfl
    · simp only [Db.RecordingConnWithExec.Exec, hb, hres, ne_eq, not_true_eq_false, if_false]
      split_ifs
      all_goals exact passedThrough_recordResult _ _ _ _ _ _ _ _ rfl
  · intro hres
    constructor
    · simp only [RecordingStmt.Exec, hstmt, hres, ne_eq, not_true_eq_false, if_false]
      split_ifs
      all_goals exact passedThrough_recordResult _ _ _ _ _ _ _ _ rfl
    · simp only [Db.RecordingStmt.Exec, hstmt, hres, ne_eq, not_true_eq_false, if_false]
      split_ifs
      all_goals exact passedThrough_recordResult _ _ _ _ _ _ _ _ rfl
  · intro f hf hres hcond
    have hb := bind_capability _ _ _ _ hconn hf
    constructor
    · simp only [RecordingConnWithExecContext.ExecContext, hb, hres, ne_eq, not_true_eq_false, if_false]
      by_cases hrec : conn.recorder = RecorderPtr.nil
      · simp only [hrec, not_true_eq_false, if_false]
        exact passedThrough_recordResult _ _ _ _ _ _ _ _ rfl
      · rcases hcond with h | h
        · exact absurd h hrec
        · simp only [hrec, not_false_eq_true, if_true, recorderBodyNamed_positional _ _ h]
          exact passedThrough_recordResult _ _ _ _ _ _ _ _ rfl
    · simp only [Db.RecordingConnWithExecContext.ExecContext, hb, hres, ne_eq, not_true_eq_false, if_false]
      by_cases hrec : conn.recorder = RecorderPtr.nil
      · simp only [hrec, not_true_eq_false, if_false]
        exact passedThrough_recordResult _ _ _ _ _ _ _ _ rfl
      · rcases hcond with h | h
        · exact absurd h hrec
        · simp only [hrec, not_false_eq_true, if_true, recorderBodyNamed_positional _ _ h]
          exact passedThrough_recordResult _ _ _ _ _ _ _ _ rfl
  · intro f hf hres hcond
    have hb := bind_capability _ _ _ _ hstmt hf
    constructor
    · simp only [RecordingStmtWithExecContext.ExecContext, hb, hres, ne_eq, not_true_eq_false, if_false]
      by_cases hrec : stmt.recorder = RecorderPtr.nil
      · simp only [hrec, not_true_eq_false, if_false]
        exact passedThrough_recordResult _ _ _ _ _ _ _ _ rfl
      · rcases hcond with h | h
        · exact absurd h hrec
        · simp only [hrec, not_false_eq_true, if_true, recorderBodyNamed_positional _ _ h]
          exact passedThrough_recordResult _ _ _ _ _ _ _ _ rfl
    · simp only [Db.RecordingStmtWithExecContext.ExecContext, hb, hres, ne_eq, not_true_eq_false, if_false]
      by_cases hrec : stmt.recorder = RecorderPtr.nil
      · simp only [hrec, not_true_eq_false, if_false]
        exact passedThrough_recordResult _ _ _ _ _ _ _ _ rfl
      · rcases hcond with h | h
        · exact absurd h hrec
        · simp only [hrec, not_false_eq_true, if_true, recorderBodyNamed_positional _ _ h]
          exact passedThrough_recordResult _ _ _ _ _ _ _ _ rfl
  · simp [RecordingRows.Columns, Db.RecordingRows.Columns, hrows]
  · simp [RecordingRows.Next, Db.RecordingRows.Next, hrows]

/-- C14 (amended) at a connection and a statement that implement every optional
interface, with two positional parameters, and at a row set of three rows. -/
theorem C14_results_pass_through_witness :
    sampleUncountedRecordingConn.Conn = some sampleUncountedConn ∧
    sampleUncountedRecordingStmt.Stmt = some sampleUncountedStmt ∧
    (sampleRecordingRows 3).Rows = some (sampleRows 3) ∧
    (∀ p ∈ samplePeterNamedArgs, p.Name = "") ∧
    passedThrough sampleWorld
      (Call.ConnExec "INSERT INTO users(name, age) VALUES(?, ?)" samplePeterArgs)
      (some sampleResultWithoutCount)
      (RecordingConnWithExec.Exec sampleUncountedRecordingConn
        "INSERT INTO users(name, age) VALUES(?, ?)" samplePeterArgs sampleWorld) ∧
    passedThrough sampleWorld
      (Call.ConnExecContext "INSERT INTO users(name, age) VALUES(?, ?)" samplePeterNamedArgs)
      (some sampleResultWithoutCount)
      (RecordingConnWithExecContext.ExecContext sampleUncountedRecordingConn
        "INSERT INTO users(name, age) VALUES(?, ?)" samplePeterNamedArgs sampleWorld) ∧
    passedThrough sampleWorld (Call.StmtExec samplePeterArgs) (some sampleResultWithoutCount)
      (Db.RecordingStmt.Exec sampleUncountedRecordingStmt samplePeterArgs sampleWorld) ∧
    passedThrough sampleWorld (Call.StmtExecContext samplePeterNamedArgs)
      (some sampleResultWithoutCount)
      (Db.RecordingStmtWithExecContext.ExecContext sampleUncountedRecordingStmt
        samplePeterNamedArgs sampleWorld) ∧
    (RecordingRows.Columns (sampleRecordingRows 3) sampleWorld).1 =
      Outcome.ret ["id", "name"] ∧
    (RecordingRows.Next (sampleRecordingRows 3) [] sampleWorld).1 = Outcome.ret none :=
  have hpos : ∀ p ∈ samplePeterNamedArgs, p.Name = "" := by decide
  have h := C14_results_pass_through sampleUncountedRecordingConn sampleUncountedConn
    sampleUncountedRecordingStmt sampleUncountedStmt (sampleRecordingRows 3) (sampleRows 3)
    "INSERT INTO users(name, age) VALUES(?, ?)" samplePeterArgs samplePeterNamedArgs []
    (some sampleResultWithoutCount) sampleWorld rfl rfl rfl
  ⟨rfl, rfl, rfl, hpos, (h.1 _ rfl rfl).1, (h.2.2.1 _ rfl rfl (Or.inr hpos)).1,
    (h.2.1 rfl).2, (h.2.2.2.1 _ rfl rfl (Or.inr hpos)).2, h.2.2.2.2.1.1,
    h.2.2.2.2.2.1⟩

/-! ## The body of the response of the exec operations (C15) -/

/-- C15 fails on the statement `ExecContext` of `db.go`: for a result that reports one
affected row the response it records has the body `1`, not `Affected rows: 1`.  The
copy in `x/db` records `Affected rows: 1` on the same input. -/
theorem C15_root_stmt_ExecContext_body :
    eventsAfter (RecordingStmtWithExecContext.ExecContext sampleContextRecordingStmt []
      sampleWorld) =
      [Event.MessageRequest
        { Source := "sut", Target := "db", Header := "SQL Query",
          Body := "DELETE FROM users WHERE id = 1", Timestamp := 0 },
       Event.MessageResponse
        { Source := "db", Target := "sut", Header := "SQL Result", Body := "1",
          Timestamp := 1 }] ∧
    eventsAfter (Db.RecordingStmtWithExecContext.ExecContext sampleContextRecordingStmt []
      sampleWorld) =
      [Event.MessageRequest
        { Source := "sut", Target := "db", Header := "SQL Query",
          Body := "DELETE FROM users WHERE id = 1", Timestamp := 0 },
       Event.MessageResponse
        { Source := "db", Target := "sut", Header := "SQL Result",
          Body := "Affected rows: 1", Timestamp := 1 }] := by
  constructor <;> decide

/-! ## Attribution across the layers (C16) -/

/-- C16: every proxy an operation hands back (`Open`, `OpenConnector`, `Connect`,
`Prepare`, `PrepareContext`, the four query operations; `Next` for the rows proxy it
moves on) has the recorder and the source name of the proxy it was derived from; and
every operation that records (the eight query and exec operations and `Close` of the
rows, in both packages) only appends events attributed to the source name `s` of its
proxy: a `MessageRequest` has `Source = SystemUnderTestDefaultName`, `Target = s` and
`Header = "SQL Query"`, a `MessageResponse` has `Source = s`,
`Target = SystemUnderTestDefaultName` and `Header = "SQL Result"`. -/
theorem C16_attribution (d : RecordingDriver) (cn : RecordingConnector)
    (conn : RecordingConn) (stmt : RecordingStmt) (rows : RecordingRows) (name query : String)
    (args : List Value) (nargs : List NamedValue) (dest : List Value) (w : World) :
    (∀ t rc e, (RecordingDriver.Open d name w).1 = Outcome.ret (ConnValue.proxy t rc, e) →
      rc.recorder = d.recorder ∧ rc.sourceName = d.sourceName) ∧
    (∀ t rc e, (Db.RecordingDriver.Open d name w).1 = Outcome.ret (ConnValue.proxy t rc, e) →
      rc.recorder = d.recorder ∧ rc.sourceName = d.sourceName) ∧
    (∀ rc e, (RecordingDriverContext.OpenConnector d name w).1 = Outcome.ret (some rc, e) →
      rc.recorder = d.recorder ∧ rc.sourceName = d.sourceName) ∧
    (∀ rc e, (Db.RecordingDriverContext.OpenConnector d name w).1 = Outcome.ret (some rc, e) →
      rc.recorder = d.recorder ∧ rc.sourceName = d.sourceName) ∧
    (∀ t rc e, (RecordingConnector.Connect cn w).1 = Outcome.ret (ConnValue.proxy t rc, e) →
      rc.recorder = cn.recorder ∧ rc.sourceName = cn.sourceName) ∧
    (∀ t rc e, (Db.RecordingConnector.Connect cn w).1 = Outcome.ret (ConnValue.proxy t rc, e) →
      rc.recorder = cn.recorder ∧ rc.sourceName = cn.sourceName) ∧
    (∀ t rs e, (RecordingConn.Prepare conn query w).1 = Outcome.ret (StmtValue.proxy t rs, e) →
      rs.recorder = conn.recorder ∧ rs.sourceName = conn.sourceName) ∧
    (∀ t rs e, (Db.RecordingConn.Prepare conn query w).1 = Outcome.ret (StmtValue.proxy t rs, e) →
      rs.recorder = conn.recorder ∧ rs.sourceName = conn.sourceName) ∧
    (∀ t rs e, (RecordingConnWithPrepareContext.PrepareContext conn query w).1 = Outcome.ret (StmtValue.proxy t rs, e) →
      rs.recorder = conn.recorder ∧ rs.sourceName = conn.sourceName) ∧
    (∀ t rs e, (Db.RecordingConnWithPrepareContext.PrepareContext conn query w).1 = Outcome.ret (StmtValue.proxy t rs, e) →
      rs.recorder = conn.recorder ∧ rs.sourceName = conn.sourceName) ∧
    (∀ rows1 e, (RecordingConnWithQuery.Query conn query args w).1 = Outcome.ret (RowsValue.proxy rows1, e) →
      rows1.recorder = conn.recorder ∧ rows1.sourceName = conn.sourceName) ∧
    (∀ rows1 e, (Db.RecordingConnWithQuery.Query conn query args w).1 = Outcome.ret (RowsValue.proxy rows1, e) →
      rows1.recorder = conn.recorder ∧ rows1.sourceName = conn.sourceName) ∧
    (∀ rows1 e, (RecordingConnWithQueryContext.QueryContext conn query nargs w).1 = Outcome.ret (RowsValue.proxy rows1, e) →
      rows1.recorder = conn.recorder ∧ rows1.sourceName = conn.sourceName) ∧
    (∀ rows1 e, (Db.RecordingConnWithQueryContext.QueryContext conn query nargs w).1 = Outcome.ret (RowsValue.proxy rows1, e) →
      rows1.recorder = conn.recorder ∧ rows1.sourceName = conn.sourceName) ∧
    (∀ rows1 e, (RecordingStmt.Query stmt args w).1 = Outcome.ret (RowsValue.proxy rows1, e) →
      rows1.recorder = stmt.recorder ∧ rows1.sourceName = stmt.sourceName) ∧
    (∀ rows1 e, (Db.RecordingStmt.Query stmt args w).1 = Outcome.ret (RowsValue.proxy rows1, e) →
      rows1.recorder = stmt.recorder ∧ rows1.sourceName = stmt.sourceName) ∧
    (∀ rows1 e, (RecordingStmtWithQueryContext.QueryContext stmt nargs w).1 = Outcome.ret (RowsValue.proxy rows1, e) →
      rows1.recorder = stmt.recorder ∧ rows1.sourceName = stmt.sourceName) ∧
    (∀ rows1 e, (Db.RecordingStmtWithQueryContext.QueryContext stmt nargs w).1 = Outcome.ret (RowsValue.proxy rows1, e) →
      rows1.recorder = stmt.recorder ∧ rows1.sourceName = stmt.sourceName) ∧
    ((RecordingRows.Next rows dest w).2.1.recorder = rows.recorder ∧
      (RecordingRows.Next rows dest w).2.1.sourceName = rows.sourceName) ∧
    ((Db.RecordingRows.Next rows dest w).2.1.recorder = rows.recorder ∧
      (Db.RecordingRows.Next rows dest w).2.1.sourceName = rows.sourceName) ∧
    recordsFor conn.sourceName w (RecordingConnWithQuery.Query conn query args w).2 ∧
    recordsFor conn.sourceName w (Db.RecordingConnWithQuery.Query conn query args w).2 ∧
    recordsFor conn.sourceName w (RecordingConnWithQueryContext.QueryContext conn query nargs w).2 ∧
    recordsFor conn.sourceName w (Db.RecordingConnWithQueryContext.QueryContext conn query nargs w).2 ∧
    recordsFor conn.sourceName w (RecordingConnWithExec.Exec conn query args w).2 ∧
    recordsFor conn.sourceName w (Db.RecordingConnWithExec.Exec conn query args w).2 ∧
    recordsFor conn.sourceName w (RecordingConnWithExecContext.ExecContext conn query nargs w).2 ∧
    recordsFor conn.sourceName w (Db.RecordingConnWithExecContext.ExecContext conn query nargs w).2 ∧
    recordsFor stmt.sourceName w (RecordingStmt.Exec stmt args w).2 ∧
    recordsFor stmt.sourceName w (Db.RecordingStmt.Exec stmt args w).2 ∧
    recordsFor stmt.sourceName w (RecordingStmt.Query stmt args w).2 ∧
    recordsFor stmt.sourceName w (Db.RecordingStmt.Query stmt args w).2 ∧
    recordsFor stmt.sourceName w (RecordingStmtWithExecContext.ExecContext stmt nargs w).2 ∧
    recordsFor stmt.sourceName w (Db.RecordingStmtWithExecContext.ExecContext stmt nargs w).2 ∧
    recordsFor stmt.sourceName w (RecordingStmtWithQueryContext.QueryContext stmt nargs w).2 ∧
    recordsFor stmt.sourceName w (Db.RecordingStmtWithQueryContext.QueryContext stmt nargs w).2 ∧
    recordsFor rows.sourceName w (RecordingRows.Close rows w).2 ∧
    recordsFor rows.sourceName w (Db.RecordingRows.Close rows w).2 :=
  have h1 := derived_proxies_inherit d cn conn stmt rows name query args nargs dest w
  have h2 := operations_record_attributed conn stmt rows query args nargs w
  ⟨h1.1,
    h1.2.1,
    h1.2.2.1,
    h1.2.2.2.1,
    h1.2.2.2.2.1,
    h1.2.2.2.2.2.1,
    h1.2.2.2.2.2.2.1,
    h1.2.2.2.2.2.2.2.1,
    h1.2.2.2.2.2.2.2.2.1,
    h1.2.2.2.2.2.2.2.2.2.1,
    h1.2.2.2.2.2.2.2.2.2.2.1,
    h1.2.2.2.2.2.2.2.2.2.2.2.1,
    h1.2.2.2.2.2.2.2.2.2.2.2.2.1,
    h1.2.2.2.2.2.2.2.2.2.2.2.2.2.1,
    h1.2.2.2.2.2.2.2.2.2.2.2.2.2.2.1,
    h1.2.2.2.2.2.2.2.2.2.2.2.2.2.2.2.1,
    h1.2.2.2.2.2.2.2.2.2.2.2.2.2.2.2.2.1,
    h1.2.2.2.2.2.2.2.2.2.2.2.2.2.2.2.2.2.1,
    h1.2.2.2.2.2.2.2.2.2.2.2.2.2.2.2.2.2.2.1,
    h1.2.2.2.2.2.2.2.2.2.2.2.2.2.2.2.2.2.2.2,
    h2⟩

/-- C16 at the sample driver: the connection proxy `Open` hands back, the rows proxy
`Query` hands back, and the events of `Exec` and of `Close`. -/
theorem C16_attribution_witness :
    (∃ t rc,
      (RecordingDriver.Open (sampleRecordingDriver sampleSyncConn) "dsn" sampleWorld).1 =
        Outcome.ret (ConnValue.proxy t rc, none) ∧
      rc.recorder = (sampleRecordingDriver sampleSyncConn).recorder ∧
      rc.sourceName = (sampleRecordingDriver sampleSyncConn).sourceName) ∧
    (∃ rows1,
      (RecordingConnWithQuery.Query sampleUncountedRecordingConn "SELECT id FROM users" []
        sampleWorld).1 = Outcome.ret (RowsValue.proxy rows1, none) ∧
      rows1.recorder = sampleUncountedRecordingConn.recorder ∧
      rows1.sourceName = sampleUncountedRecordingConn.sourceName) ∧
    recordsFor "db" sampleWorld
      (RecordingConnWithExec.Exec sampleUncountedRecordingConn "SELECT id FROM users" []
        sampleWorld).2 ∧
    recordsFor "db" sampleWorld (Db.RecordingRows.Close (sampleRecordingRows 3) sampleWorld).2 :=
  have h := C16_attribution (sampleRecordingDriver sampleSyncConn)
    sampleRefusingRecordingConnector sampleUncountedRecordingConn
    sampleUncountedRecordingStmt (sampleRecordingRows 3) "dsn" "SELECT id FROM users" [] []
    [] sampleWorld
  ⟨⟨_, _, rfl, h.1 _ _ _ rfl⟩,
    ⟨_, rfl, h.2.2.2.2.2.2.2.2.2.2.1 _ _ rfl⟩,
    h.2.2.2.2.2.2.2.2.2.2.2.2.2.2.2.2.2.2.2.2.2.2.2.2.1,
    h.2.2.2.2.2.2.2.2.2.2.2.2.2.2.2.2.2.2.2.2.2.2.2.2.2.2.2.2.2.2.2.2.2.2.2.2.2⟩

/-- C17 fails on a registered driver that refuses the empty data source name.  The
driver registered as `strict` implements `driver.DriverContext`; `WrapWithRecorder`
(root package and `x/db`) returns for it a plain `RecordingDriver`, which does not
implement `OpenConnector`, over a nil driver, whatever the connectors answer to
`Driver()`; the `Open` of that proxy panics instead of calling the registered
driver. -/
theorem C17_strict_driver_not_wrapped (driverOf : DriverConnector → Option Driver) :
    ((sampleRegistry "strict").bind Driver.DriverContext).isSome = true ∧
    (∃ v w1,
      WrapWithRecorder sampleRegistry driverOf "strict" RecorderPtr.run sampleWorld =
          (Outcome.ret v, w1) ∧
        v.goType.hasMethod DriverMethod.OpenConnector = false ∧
        v.recordingDriver.Driver.isSome = false ∧
        (RecordingDriver.Open v.recordingDriver "dsn" w1).1 = Outcome.panic) ∧
    (∃ v w1,
      Db.WrapWithRecorder sampleRegistry driverOf "strict" RecorderPtr.run sampleWorld =
          (Outcome.ret v, w1) ∧
        v.goType.hasMethod DriverMethod.OpenConnector = false ∧
        v.recordingDriver.Driver.isSome = false ∧
        (Db.RecordingDriver.Open v.recordingDriver "dsn" w1).1 = Outcome.panic) := by
  have hreg : sampleRegistry "strict" = some sampleStrictDriver := by
    simp [sampleRegistry]
  have h := sqlDriverNameToDriver_refused sampleRegistry driverOf "strict" sampleWorld
    sampleStrictDriver _ hreg rfl (by simp)
  refine ⟨?_, ⟨DriverValue.mk DriverType.RecordingDriver
        { sourceName := "strict", Driver := none, recorder := RecorderPtr.run },
      sampleWorld.forward (Call.DriverOpenConnector ""), ?_, by decide, rfl, rfl⟩,
    ⟨DriverValue.mk DriverType.RecordingDriver
        { sourceName := "strict", Driver := none, recorder := RecorderPtr.run },
      sampleWorld.forward (Call.DriverOpenConnector ""), ?_, by decide, rfl, rfl⟩⟩
  · rw [hreg]
    rfl
  · simp [WrapWithRecorder, h]
  · simp [Db.WrapWithRecorder, h]

/-- C18: when the `PrepareContext` of the wrapped connection returns a statement without
error, `RecordingConnWithPrepareContext.PrepareContext` (root package and `x/db`)
returns a statement proxy over that statement with a nil error, and the proxy
implements `StmtExecContext`, and `StmtQueryContext`, exactly when the statement does
(all four combinations). -/
theorem C18_PrepareContext_capabilities (conn : RecordingConn) (c : DriverConn)
    (f : String → Option DriverStmt × Option Error) (query : String) (w : World)
    (hconn : conn.Conn = some c) (hf : c.ConnPrepareContext = some f)
    (hok : (f query).2 = none) :
    (∃ t s,
      (RecordingConnWithPrepareContext.PrepareContext conn query w).1 =
          Outcome.ret (StmtValue.proxy t s, none) ∧
        s.Stmt = (f query).1 ∧
        ∀ X, (StmtValue.proxy t s).implements X = stmtImplements (f query).1 X) ∧
    (∃ t s,
      (Db.RecordingConnWithPrepareContext.PrepareContext conn query w).1 =
          Outcome.ret (StmtValue.proxy t s, none) ∧
        s.Stmt = (f query).1 ∧
        ∀ X, (StmtValue.proxy t s).implements X = stmtImplements (f query).1 X) := by
  have hb := bind_capability _ _ _ _ hconn hf
  refine ⟨⟨prepareContextStmtType (f query).1,
      { Stmt := (f query).1, recorder := conn.recorder, query := query,
        sourceName := conn.sourceName }, ?_, rfl, ?_⟩,
    ⟨prepareContextStmtType (f query).1,
      { Stmt := (f query).1, recorder := conn.recorder, query := query,
        sourceName := conn.sourceName }, ?_, rfl, ?_⟩⟩
  · simp [RecordingConnWithPrepareContext.PrepareContext, hb, hok]
  · intro X
    exact prepareContextStmtType_implements _ X
  · simp [Db.RecordingConnWithPrepareContext.PrepareContext, hb, hok]
  · intro X
    exact prepareContextStmtType_implements _ X

/-- Witness of C18: a statement with `StmtExecContext` alone keeps it and gains
nothing. -/
theorem C18_PrepareContext_capabilities_witness :
    (∃ t s,
      (RecordingConnWithPrepareContext.PrepareContext sampleExecOnlyRecordingConn
          "SELECT 1" sampleWorld).1 = Outcome.ret (StmtValue.proxy t s, none) ∧
        s.Stmt = some sampleExecOnlyStmt ∧
        ∀ X, (StmtValue.proxy t s).implements X =
          stmtImplements (some sampleExecOnlyStmt) X) ∧
    (∃ t s,
      (Db.RecordingConnWithPrepareContext.PrepareContext sampleExecOnlyRecordingConn
          "SELECT 1" sampleWorld).1 = Outcome.ret (StmtValue.proxy t s, none) ∧
        s.Stmt = some sampleExecOnlyStmt ∧
        ∀ X, (StmtValue.proxy t s).implements X =
          stmtImplements (some sampleExecOnlyStmt) X) :=
  C18_PrepareContext_capabilities sampleExecOnlyRecordingConn sampleExecOnlyConn
    (fun _ => (some sampleExecOnlyStmt, none)) "SELECT 1" sampleWorld rfl rfl rfl

/-- C19: `RecordingConn.Prepare` (root package and `x/db`) on a statement that
implements `StmtExecContext` alone returns a statement proxy that does not implement
it, while `PrepareContext` on the same statement returns one that does. -/
theorem C19_Prepare_drops_capability :
    stmtImplements (sampleExecOnlyConn.Prepare "SELECT 1").1
        StmtCapability.StmtExecContext = true ∧
    (∃ t s,
      (RecordingConn.Prepare sampleExecOnlyRecordingConn "SELECT 1" sampleWorld).1 =
          Outcome.ret (StmtValue.proxy t s, none) ∧
        s.Stmt = some sampleExecOnlyStmt ∧
        (StmtValue.proxy t s).implements StmtCapability.StmtExecContext = false) ∧
    (∃ t s,
      (Db.RecordingConn.Prepare sampleExecOnlyRecordingConn "SELECT 1" sampleWorld).1 =
          Outcome.ret (StmtValue.proxy t s, none) ∧
        s.Stmt = some sampleExecOnlyStmt ∧
        (StmtValue.proxy t s).implements StmtCapability.StmtExecContext = false) ∧
    (∃ t s,
      (RecordingConnWithPrepareContext.PrepareContext sampleExecOnlyRecordingConn
          "SELECT 1" sampleWorld).1 = Outcome.ret (StmtValue.proxy t s, none) ∧
        s.Stmt = some sampleExecOnlyStmt ∧
        (StmtValue.proxy t s).implements StmtCapability.StmtExecContext = true) := by
  exact ⟨by decide,
    ⟨StmtType.RecordingStmt,
      { Stmt := some sampleExecOnlyStmt, recorder := RecorderPtr.run, query := "SELECT 1",
        sourceName := "db" }, rfl, rfl, by decide⟩,
    ⟨StmtType.RecordingStmt,
      { Stmt := some sampleExecOnlyStmt, recorder := RecorderPtr.run, query := "SELECT 1",
        sourceName := "db" }, rfl, rfl, by decide⟩,
    ⟨StmtType.RecordingStmtWithExecContext,
      { Stmt := some sampleExecOnlyStmt, recorder := RecorderPtr.run, query := "SELECT 1",
        sourceName := "db" }, rfl, rfl, by decide⟩⟩

/-- C20 (counterexample): no driver is registered as `missing`, and `WrapWithRecorder`
(root package and `x/db`) returns normally a driver proxy whose `Driver` is nil; the
first `Open` on it panics. -/
theorem C20_counterexample :
    sampleRegistry "missing" = none ∧
    (∃ v w1,
      WrapWithRecorder sampleRegistry sampleDriverOf "missing" RecorderPtr.run sampleWorld =
          (Outcome.ret v, w1) ∧
        v.recordingDriver.Driver.isSome = false ∧
        (RecordingDriver.Open v.recordingDriver "dsn" w1).1 = Outcome.panic) ∧
    (∃ v w1,
      Db.WrapWithRecorder sampleRegistry sampleDriverOf "missing" RecorderPtr.run sampleWorld =
          (Outcome.ret v, w1) ∧
        v.recordingDriver.Driver.isSome = false ∧
        (Db.RecordingDriver.Open v.recordingDriver "dsn" w1).1 = Outcome.panic) := by
  have hreg : sampleRegistry "missing" = none := by
    simp [sampleRegistry]
  have h := sqlDriverNameToDriver_unregistered sampleRegistry sampleDriverOf "missing" sampleWorld
    hreg
  refine ⟨hreg, ⟨DriverValue.mk DriverType.RecordingDriver
        { sourceName := "missing", Driver := none, recorder := RecorderPtr.run },
      sampleWorld, ?_, rfl, rfl⟩,
    ⟨DriverValue.mk DriverType.RecordingDriver
        { sourceName := "missing", Driver := none, recorder := RecorderPtr.run },
      sampleWorld, ?_, rfl, rfl⟩⟩
  · simp [WrapWithRecorder, h]
  · simp [Db.WrapWithRecorder, h]

/-- C20 (amended): for a driver name that is not registered, `WrapWithRecorder` (root
package and `x/db`) reports nothing: it returns a plain `RecordingDriver` whose
`Driver` is nil, with the recorder and the name given, and leaves the world as it
was; every `Open` on that proxy panics. -/
theorem C20_wrap_unregistered (drivers : String → Option Driver)
    (driverOf : DriverConnector → Option Driver) (driverName : String)
    (recorder : RecorderPtr) (w : World) (hreg : drivers driverName = none) :
    WrapWithRecorder drivers driverOf driverName recorder w =
        (Outcome.ret
          { goType := DriverType.RecordingDriver,
            recordingDriver :=
              { sourceName := driverName, Driver := none, recorder := recorder } },
         w) ∧
      Db.WrapWithRecorder drivers driverOf driverName recorder w =
        (Outcome.ret
          { goType := DriverType.RecordingDriver,
            recordingDriver :=
              { sourceName := driverName, Driver := none, recorder := recorder } },
         w) ∧
      ∀ name w2,
        (RecordingDriver.Open
            { sourceName := driverName, Driver := none, recorder := recorder }
            name w2).1 = Outcome.panic ∧
          (Db.RecordingDriver.Open
            { sourceName := driverName, Driver := none, recorder := recorder }
            name w2).1 = Outcome.panic := by
  have h := sqlDriverNameToDriver_unregistered drivers driverOf driverName w hreg
  refine ⟨?_, ?_, fun name w2 => ⟨rfl, rfl⟩⟩
  · simp [WrapWithRecorder, h]
  · simp [Db.WrapWithRecorder, h]

/-- Witness of C20: the name `missing` in the sample registry. -/
theorem C20_wrap_unregistered_witness :
    WrapWithRecorder sampleRegistry sampleDriverOf "missing" RecorderPtr.nil sampleWorld =
        (Outcome.ret
          { goType := DriverType.RecordingDriver,
            recordingDriver :=
              { sourceName := "missing", Driver := none, recorder := RecorderPtr.nil } },
         sampleWorld) ∧
      Db.WrapWithRecorder sampleRegistry sampleDriverOf "missing" RecorderPtr.nil sampleWorld =
        (Outcome.ret
          { goType := DriverType.RecordingDriver,
            recordingDriver :=
              { sourceName := "missing", Driver := none, recorder := RecorderPtr.nil } },
         sampleWorld) ∧
      ∀ name w2,
        (RecordingDriver.Open
            { sourceName := "missing", Driver := none, recorder := RecorderPtr.nil }
            name w2).1 = Outcome.panic ∧
          (Db.RecordingDriver.Open
            { sourceName := "missing", Driver := none, recorder := RecorderPtr.nil }
            name w2).1 = Outcome.panic :=
  C20_wrap_unregistered sampleRegistry sampleDriverOf "missing" RecorderPtr.nil sampleWorld
    (by simp [sampleRegistry])

/-! ## The capabilities of the proxies that `Open` builds (C21) -/

/-- A capability the connection implements gives the method the operation calls. -/
theorem connImplements_bind (o : Option DriverConn) :
    (connImplements o ConnCapability.Queryer = true →
      ∃ f, o.bind DriverConn.Queryer = some f) ∧
    (connImplements o ConnCapability.QueryerContext = true →
      ∃ f, o.bind DriverConn.QueryerContext = some f) ∧
    (connImplements o ConnCapability.Execer = true →
      ∃ f, o.bind DriverConn.Execer = some f) ∧
    (connImplements o ConnCapability.ExecerContext = true →
      ∃ f, o.bind DriverConn.ExecerContext = some f) ∧
    (connImplements o ConnCapability.ConnPrepareContext = true →
      ∃ f, o.bind DriverConn.ConnPrepareContext = some f) ∧
    (connImplements o ConnCapability.ConnBeginTx = false →
      o.bind DriverConn.ConnBeginTx = none) ∧
    (connImplements o ConnCapability.Pinger = false →
      o.bind DriverConn.Pinger = none) := by
  cases o with
  | none => simp [connImplements]
  | some c =>
    simp only [connImplements, DriverConn.implements, Option.some_bind]
    refine ⟨Option.isSome_iff_exists.mp, Option.isSome_iff_exists.mp,
      Option.isSome_iff_exists.mp, Option.isSome_iff_exists.mp,
      Option.isSome_iff_exists.mp, ?_, ?_⟩
    · intro h
      cases hx : c.ConnBeginTx with
      | none => rfl
      | some f => simp [hx] at h
    · intro h
      cases hx : c.Pinger with
      | none => rfl
      | some f => simp [hx] at h

/-- The call log after `recordResult` still starts with the call forwarded first. -/
theorem calls_recordResult (w w0 : World) (call : Call) (r : RecorderPtr) (s : String)
    (result : Option DriverResult) (fmt : Int → String)
    (h : w0.calls = w.calls ++ [call]) :
    ∃ rest, (w0.recordResult r s result fmt).calls = w.calls ++ call :: rest := by
  rcases recordResult_calls_append w0 r s result fmt with ⟨rest, hrest⟩
  exact ⟨rest, by rw [hrest, h, List.append_assoc]; rfl⟩

/-- An optional operation whose capability the connection implements calls the
wrapped operation, with the query and the arguments it was given. -/
theorem delegate_invoked (conn : RecordingConn) (query : String) (args : List Value)
    (nargs : List NamedValue) (w : World) :
    (connImplements conn.Conn ConnCapability.Queryer = true →
      invoked w (Call.ConnQuery query args) (RecordingConnWithQuery.Query conn query args w) ∧
      invoked w (Call.ConnQuery query args) (Db.RecordingConnWithQuery.Query conn query args w)) ∧
    (connImplements conn.Conn ConnCapability.QueryerContext = true →
      invoked w (Call.ConnQueryContext query nargs) (RecordingConnWithQueryContext.QueryContext conn query nargs w) ∧
      invoked w (Call.ConnQueryContext query nargs) (Db.RecordingConnWithQueryContext.QueryContext conn query nargs w)) ∧
    (connImplements conn.Conn ConnCapability.Execer = true →
      invoked w (Call.ConnExec query args) (RecordingConnWithExec.Exec conn query args w) ∧
      invoked w (Call.ConnExec query args) (Db.RecordingConnWithExec.Exec conn query args w)) ∧
    (connImplements conn.Conn ConnCapability.ExecerContext = true →
      invoked w (Call.ConnExecContext query nargs) (RecordingConnWithExecContext.ExecContext conn query nargs w) ∧
      invoked w (Call.ConnExecContext query nargs) (Db.RecordingConnWithExecContext.ExecContext conn query nargs w)) ∧
    (connImplements conn.Conn ConnCapability.ConnPrepareContext = true →
      invoked w (Call.ConnPrepareContext query) (RecordingConnWithPrepareContext.PrepareContext conn query w) ∧
      invoked w (Call.ConnPrepareContext query) (Db.RecordingConnWithPrepareContext.PrepareContext conn query w)) := by
  refine ⟨?_, ?_, ?_, ?_, ?_⟩
  · intro h
    obtain ⟨f, hb⟩ := (connImplements_bind conn.Conn).1 h
    constructor
    · simp only [invoked, RecordingConnWithQuery.Query, hb]
      repeat' split
      all_goals
        first
          | exact ⟨[], rfl⟩
    · simp only [invoked, Db.RecordingConnWithQuery.Query, hb]
      repeat' split
      all_goals
        first
          | exact ⟨[], rfl⟩
  · intro h
    obtain ⟨f, hb⟩ := (connImplements_bind conn.Conn).2.1 h
    constructor
    · simp only [invoked, RecordingConnWithQueryContext.QueryContext, hb]
      repeat' split
      all_goals
        first
          | exact ⟨[], rfl⟩
    · simp only [invoked, Db.RecordingConnWithQueryContext.QueryContext, hb]
      repeat' split
      all_goals
        first
          | exact ⟨[], rfl⟩
  · intro h
    obtain ⟨f, hb⟩ := (connImplements_bind conn.Conn).2.2.1 h
    constructor
    · simp only [invoked, RecordingConnWithExec.Exec, hb]
      repeat' split
      all_goals
        first
          | exact ⟨[], rfl⟩
          | exact calls_recordResult _ _ _ _ _ _ _ rfl
    · simp only [invoked, Db.RecordingConnWithExec.Exec, hb]
      repeat' split
      all_goals
        first
          | exact ⟨[], rfl⟩
          | exact calls_recordResult _ _ _ _ _ _ _ rfl
  · intro h
    obtain ⟨f, hb⟩ := (connImplements_bind conn.Conn).2.2.2.1 h
    constructor
    · simp only [invoked, RecordingConnWithExecContext.ExecContext, hb]
      repeat' split
      all_goals
        first
          | exact ⟨[], rfl⟩
          | exact calls_recordResult _ _ _ _ _ _ _ rfl
    · simp only [invoked, Db.RecordingConnWithExecContext.ExecContext, hb]
      repeat' split
      all_goals
        first
          | exact ⟨[], rfl⟩
          | exact calls_recordResult _ _ _ _ _ _ _ rfl
  · intro h
    obtain ⟨f, hb⟩ := (connImplements_bind conn.Conn).2.2.2.2.1 h
    constructor
    · simp only [invoked, RecordingConnWithPrepareContext.PrepareContext, hb]
      repeat' split
      all_goals
        first
          | exact ⟨[], rfl⟩
    · simp only [invoked, Db.RecordingConnWithPrepareContext.PrepareContext, hb]
      repeat' split
      all_goals
        first
          | exact ⟨[], rfl⟩

/-- A method among `Query`, `QueryContext`, `Exec`, `ExecContext` and `PrepareContext`
that the proxy type chosen by `Open` has is backed by the connection. -/
theorem openConnType_probed (c : Option DriverConn) (X : ConnCapability)
    (hX : X ∈ [ConnCapability.Queryer, ConnCapability.QueryerContext,
      ConnCapability.Execer, ConnCapability.ExecerContext,
      ConnCapability.ConnPrepareContext])
    (h : (openConnType c).hasMethod X.method = true) : connImplements c X = true := by
  unfold openConnType at h
  simp only [List.mem_cons, List.mem_singleton, List.not_mem_nil, or_false] at hX
  rcases hX with rfl | rfl | rfl | rfl | rfl
  all_goals
    revert h
    generalize connImplements c ConnCapability.Queryer = q
    generalize connImplements c ConnCapability.QueryerContext = qc
    generalize connImplements c ConnCapability.Execer = e
    generalize connImplements c ConnCapability.ExecerContext = ec
    generalize connImplements c ConnCapability.ConnPrepareContext = pc
    revert q qc e ec pc
    decide

/-- The proxy type chosen by `Open` has `BeginTx` and `Ping` exactly when it has
`QueryContext`, whatever the connection implements of them. -/
theorem openConnType_unprobed (c : Option DriverConn) :
    (openConnType c).hasMethod ConnMethod.BeginTx =
      (connImplements c ConnCapability.QueryerContext &&
        connImplements c ConnCapability.ExecerContext &&
        connImplements c ConnCapability.ConnPrepareContext) ∧
    (openConnType c).hasMethod ConnMethod.Ping =
      (connImplements c ConnCapability.QueryerContext &&
        connImplements c ConnCapability.ExecerContext &&
        connImplements c ConnCapability.ConnPrepareContext) := by
  unfold openConnType
  generalize connImplements c ConnCapability.Queryer = q
  generalize connImplements c ConnCapability.QueryerContext = qc
  generalize connImplements c ConnCapability.Execer = e
  generalize connImplements c ConnCapability.ExecerContext = ec
  generalize connImplements c ConnCapability.ConnPrepareContext = pc
  revert q qc e ec pc
  decide


/-! ## The append-only recorder (C22) -/

theorem appendsSuffix_of_eq (w w1 : World) (h : w1.events = w.events) :
    appendsSuffix w w1 :=
  ⟨[], by simp [h], rfl⟩

theorem appendsSuffix_request (w w0 : World) (s b : String) (h : w0.events = w.events) :
    appendsSuffix w (w0.recordRequest s b) :=
  ⟨[Event.MessageRequest
      { Source := w0.SystemUnderTestDefaultName, Target := s, Header := "SQL Query",
        Body := b, Timestamp := w0.clock }],
    by rw [World.recordRequest_events, h], rfl⟩

theorem appendsSuffix_response (w w0 : World) (s b : String) (h : w0.events = w.events) :
    appendsSuffix w (w0.recordResponse s b) :=
  ⟨[Event.MessageResponse
      { Source := s, Target := w0.SystemUnderTestDefaultName, Header := "SQL Result",
        Body := b, Timestamp := w0.clock }],
    by rw [World.recordResponse_events, h], rfl⟩

theorem appendsSuffix_response_forward (w w0 : World) (s b : String) (c : Call)
    (h : w0.events = w.events) : appendsSuffix w ((w0.recordResponse s b).forward c) :=
  appendsSuffix_response w w0 s b h

theorem appendsSuffix_result (w w0 : World) (r : RecorderPtr) (s : String)
    (result : Option DriverResult) (fmt : Int → String) (h : w0.events = w.events) :
    appendsSuffix w (w0.recordResult r s result fmt) := by
  cases result with
  | none => exact appendsSuffix_of_eq _ _ h
  | some res =>
    by_cases hr : r = RecorderPtr.nil
    · rw [hr, World.recordResult_nil]
      exact appendsSuffix_of_eq _ _ h
    · rw [World.recordResult_some _ _ _ _ _ hr]
      exact appendsSuffix_response _ _ _ _ h

theorem appendsSuffix_request_result (w w0 : World) (s b : String) (r : RecorderPtr)
    (result : Option DriverResult) (fmt : Int → String) (h : w0.events = w.events) :
    appendsSuffix w ((w0.recordRequest s b).recordResult r s result fmt) := by
  cases result with
  | none => exact appendsSuffix_request _ _ _ _ h
  | some res =>
    by_cases hr : r = RecorderPtr.nil
    · rw [hr, World.recordResult_nil]
      exact appendsSuffix_request _ _ _ _ h
    · rw [World.recordResult_some _ _ _ _ _ hr]
      refine ⟨[Event.MessageRequest
          { Source := w0.SystemUnderTestDefaultName, Target := s, Header := "SQL Query",
            Body := b, Timestamp := w0.clock },
        Event.MessageResponse
          { Source := s, Target := w0.SystemUnderTestDefaultName, Header := "SQL Result",
            Body := fmt res.RowsAffected.1, Timestamp := w0.clock + 1 }], ?_, rfl⟩
      simp [h]

/-- The operations that do not record leave the events as they were. -/
theorem quiet_operations (d : RecordingDriver) (cn : RecordingConnector)
    (driverOf : DriverConnector → Option Driver) (conn : RecordingConn)
    (stmt : RecordingStmt) (rows : RecordingRows) (name query : String)
    (dest : List Value) (opts : TxOptions) (w : World) :
    eventsAfter (RecordingDriver.Open d name w) = w.events ∧
    eventsAfter (Db.RecordingDriver.Open d name w) = w.events ∧
    eventsAfter (RecordingDriverContext.OpenConnector d name w) = w.events ∧
    eventsAfter (Db.RecordingDriverContext.OpenConnector d name w) = w.events ∧
    eventsAfter (RecordingConnector.Connect cn w) = w.events ∧
    eventsAfter (Db.RecordingConnector.Connect cn w) = w.events ∧
    eventsAfter (RecordingConnector.Driver cn driverOf w) = w.events ∧
    eventsAfter (Db.RecordingConnector.Driver cn driverOf w) = w.events ∧
    eventsAfter (RecordingConn.Prepare conn query w) = w.events ∧
    eventsAfter (Db.RecordingConn.Prepare conn query w) = w.events ∧
    eventsAfter (RecordingConn.Close conn w) = w.events ∧
    eventsAfter (Db.RecordingConn.Close conn w) = w.events ∧
    eventsAfter (RecordingConn.Begin conn w) = w.events ∧
    eventsAfter (Db.RecordingConn.Begin conn w) = w.events ∧
    eventsAfter (RecordingConnWithPrepareContext.PrepareContext conn query w) = w.events ∧
    eventsAfter (Db.RecordingConnWithPrepareContext.PrepareContext conn query w) = w.events ∧
    eventsAfter (RecordingConnWithBeginTx.BeginTx conn opts w) = w.events ∧
    eventsAfter (Db.RecordingConnWithBeginTx.BeginTx conn opts w) = w.events ∧
    eventsAfter (RecordingConnWithPing.Ping conn w) = w.events ∧
    eventsAfter (Db.RecordingConnWithPing.Ping conn w) = w.events ∧
    eventsAfter (RecordingStmt.Close stmt w) = w.events ∧
    eventsAfter (Db.RecordingStmt.Close stmt w) = w.events ∧
    eventsAfter (RecordingStmt.NumInput stmt w) = w.events ∧
    eventsAfter (Db.RecordingStmt.NumInput stmt w) = w.events ∧
    eventsAfter (RecordingRows.Columns rows w) = w.events ∧
    eventsAfter (Db.RecordingRows.Columns rows w) = w.events ∧
    (RecordingRows.Next rows dest w).2.2.events = w.events ∧
    (Db.RecordingRows.Next rows dest w).2.2.events = w.events := by
  refine ⟨?_, ?_, ?_, ?_, ?_, ?_, ?_, ?_, ?_, ?_, ?_, ?_, ?_, ?_, ?_, ?_, ?_, ?_, ?_, ?_, ?_, ?_, ?_, ?_, ?_, ?_, ?_, ?_⟩
  · simp only [eventsAfter, RecordingDriver.Open]
    repeat' split
    all_goals rfl
  · simp only [eventsAfter, Db.RecordingDriver.Open]
    repeat' split
    all_goals rfl
  · simp only [eventsAfter, RecordingDriverContext.OpenConnector]
    repeat' split
    all_goals rfl
  · simp only [eventsAfter, Db.RecordingDriverContext.OpenConnector]
    repeat' split
    all_goals rfl
  · simp only [eventsAfter, RecordingConnector.Connect]
    repeat' split
    all_goals rfl
  · simp only [eventsAfter, Db.RecordingConnector.Connect]
    repeat' split
    all_goals rfl
  · simp only [eventsAfter, RecordingConnector.Driver]
    repeat' split
    all_goals rfl
  · simp only [eventsAfter, Db.RecordingConnector.Driver]
    repeat' split
    all_goals rfl
  · simp only [eventsAfter, RecordingConn.Prepare]
    repeat' split
    all_goals rfl
  · simp only [eventsAfter, Db.RecordingConn.Prepare]
    repeat' split
    all_goals rfl
  · simp only [eventsAfter, RecordingConn.Close]
    repeat' split
    all_goals rfl
  · simp only [eventsAfter, Db.RecordingConn.Close]
    repeat' split
    all_goals rfl
  · simp only [eventsAfter, RecordingConn.Begin]
    repeat' split
    all_goals rfl
  · simp only [eventsAfter, Db.RecordingConn.Begin]
    repeat' split
    all_goals rfl
  · simp only [eventsAfter, RecordingConnWithPrepareContext.PrepareContext]
    repeat' split
    all_goals rfl
  · simp only [eventsAfter, Db.RecordingConnWithPrepareContext.PrepareContext]
    repeat' split
    all_goals rfl
  · simp only [eventsAfter, RecordingConnWithBeginTx.BeginTx]
    repeat' split
    all_goals rfl
  · simp only [eventsAfter, Db.RecordingConnWithBeginTx.BeginTx]
    repeat' split
    all_goals rfl
  · simp only [eventsAfter, RecordingConnWithPing.Ping]
    repeat' split
    all_goals rfl
  · simp only [eventsAfter, Db.RecordingConnWithPing.Ping]
    repeat' split
    all_goals rfl
  · simp only [eventsAfter, RecordingStmt.Close]
    repeat' split
    all_goals rfl
  · simp only [eventsAfter, Db.RecordingStmt.Close]
    repeat' split
    all_goals rfl
  · simp only [eventsAfter, RecordingStmt.NumInput]
    repeat' split
    all_goals rfl
  · simp only [eventsAfter, Db.RecordingStmt.NumInput]
    repeat' split
    all_goals rfl
  · simp only [eventsAfter, RecordingRows.Columns]
    repeat' split
    all_goals rfl
  · simp only [eventsAfter, Db.RecordingRows.Columns]
    repeat' split
    all_goals rfl
  · simp only [RecordingRows.Next]
    repeat' split
    all_goals rfl
  · simp only [Db.RecordingRows.Next]
    repeat' split
    all_goals rfl

/-- The operations that record append a suffix of one of the four shapes. -/
theorem recording_operations (conn : RecordingConn) (stmt : RecordingStmt)
    (rows : RecordingRows) (query : String) (args : List Value) (nargs : List NamedValue)
    (w : World) :
    appendsSuffix w (RecordingConnWithQuery.Query conn query args w).2 ∧
    appendsSuffix w (Db.RecordingConnWithQuery.Query conn query args w).2 ∧
    appendsSuffix w (RecordingConnWithQueryContext.QueryContext conn query nargs w).2 ∧
    appendsSuffix w (Db.RecordingConnWithQueryContext.QueryContext conn query nargs w).2 ∧
    appendsSuffix w (RecordingConnWithExec.Exec conn query args w).2 ∧
    appendsSuffix w (Db.RecordingConnWithExec.Exec conn query args w).2 ∧
    appendsSuffix w (RecordingConnWithExecContext.ExecContext conn query nargs w).2 ∧
    appendsSuffix w (Db.RecordingConnWithExecContext.ExecContext conn query nargs w).2 ∧
    appendsSuffix w (RecordingStmt.Exec stmt args w).2 ∧
    appendsSuffix w (Db.RecordingStmt.Exec stmt args w).2 ∧
    appendsSuffix w (RecordingStmt.Query stmt args w).2 ∧
    appendsSuffix w (Db.RecordingStmt.Query stmt args w).2 ∧
    appendsSuffix w (RecordingStmtWithExecContext.ExecContext stmt nargs w).2 ∧
    appendsSuffix w (Db.RecordingStmtWithExecContext.ExecContext stmt nargs w).2 ∧
    appendsSuffix w (RecordingStmtWithQueryContext.QueryContext stmt nargs w).2 ∧
    appendsSuffix w (Db.RecordingStmtWithQueryContext.QueryContext stmt nargs w).2 ∧
    appendsSuffix w (RecordingRows.Close rows w).2 ∧
    appendsSuffix w (Db.RecordingRows.Close rows w).2 := by
  refine ⟨?_, ?_, ?_, ?_, ?_, ?_, ?_, ?_, ?_, ?_, ?_, ?_, ?_, ?_, ?_, ?_, ?_, ?_⟩
  · simp only [RecordingConnWithQuery.Query]
    repeat' split
    all_goals
      first
        | exact appendsSuffix_of_eq _ _ rfl
        | exact appendsSuffix_request _ _ _ _ rfl
  · simp only [Db.RecordingConnWithQuery.Query]
    repeat' split
    all_goals
      first
        | exact appendsSuffix_of_eq _ _ rfl
        | exact appendsSuffix_request _ _ _ _ rfl
  · simp only [RecordingConnWithQueryContext.QueryContext]
    repeat' split
    all_goals
      first
        | exact appendsSuffix_of_eq _ _ rfl
        | exact appendsSuffix_request _ _ _ _ rfl
  · simp only [Db.RecordingConnWithQueryContext.QueryContext]
    repeat' split
    all_goals
      first
        | exact appendsSuffix_of_eq _ _ rfl
        | exact appendsSuffix_request _ _ _ _ rfl
  · simp only [RecordingConnWithExec.Exec]
    repeat' split
    all_goals
      first
        | exact appendsSuffix_of_eq _ _ rfl
        | exact appendsSuffix_request _ _ _ _ rfl
        | exact appendsSuffix_result _ _ _ _ _ _ rfl
        | exact appendsSuffix_request_result _ _ _ _ _ _ _ rfl
  · simp only [Db.RecordingConnWithExec.Exec]
    repeat' split
    all_goals
      first
        | exact appendsSuffix_of_eq _ _ rfl
        | exact appendsSuffix_request _ _ _ _ rfl
        | exact appendsSuffix_result _ _ _ _ _ _ rfl
        | exact appendsSuffix_request_result _ _ _ _ _ _ _ rfl
  · simp only [RecordingConnWithExecContext.ExecContext]
    repeat' split
    all_goals
      first
        | exact appendsSuffix_of_eq _ _ rfl
        | exact appendsSuffix_request _ _ _ _ rfl
        | exact appendsSuffix_result _ _ _ _ _ _ rfl
        | exact appendsSuffix_request_result _ _ _ _ _ _ _ rfl
  · simp only [Db.RecordingConnWithExecContext.ExecContext]
    repeat' split
    all_goals
      first
        | exact appendsSuffix_of_eq _ _ rfl
        | exact appendsSuffix_request _ _ _ _ rfl
        | exact appendsSuffix_result _ _ _ _ _ _ rfl
        | exact appendsSuffix_request_result _ _ _ _ _ _ _ rfl
  · simp only [RecordingStmt.Exec]
    repeat' split
    all_goals
      first
        | exact appendsSuffix_of_eq _ _ rfl
        | exact appendsSuffix_request _ _ _ _ rfl
        | exact appendsSuffix_result _ _ _ _ _ _ rfl
        | exact appendsSuffix_request_result _ _ _ _ _ _ _ rfl
  · simp only [Db.RecordingStmt.Exec]
    repeat' split
    all_goals
      first
        | exact appendsSuffix_of_eq _ _ rfl
        | exact appendsSuffix_request _ _ _ _ rfl
        | exact appendsSuffix_result _ _ _ _ _ _ rfl
        | exact appendsSuffix_request_result _ _ _ _ _ _ _ rfl
  · simp only [RecordingStmt.Query]
    repeat' split
    all_goals
      first
        | exact appendsSuffix_of_eq _ _ rfl
        | exact appendsSuffix_request _ _ _ _ rfl
  · simp only [Db.RecordingStmt.Query]
    repeat' split
    all_goals
      first
        | exact appendsSuffix_of_eq _ _ rfl
        | exact appendsSuffix_request _ _ _ _ rfl
  · simp only [RecordingStmtWithExecContext.ExecContext]
    repeat' split
    all_goals
      first
        | exact appendsSuffix_of_eq _ _ rfl
        | exact appendsSuffix_request _ _ _ _ rfl
        | exact appendsSuffix_result _ _ _ _ _ _ rfl
        | exact appendsSuffix_request_result _ _ _ _ _ _ _ rfl
  · simp only [Db.RecordingStmtWithExecContext.ExecContext]
    repeat' split
    all_goals
      first
        | exact appendsSuffix_of_eq _ _ rfl
        | exact appendsSuffix_request _ _ _ _ rfl
        | exact appendsSuffix_result _ _ _ _ _ _ rfl
        | exact appendsSuffix_request_result _ _ _ _ _ _ _ rfl
  · simp only [RecordingStmtWithQueryContext.QueryContext]
    repeat' split
    all_goals
      first
        | exact appendsSuffix_of_eq _ _ rfl
        | exact appendsSuffix_request _ _ _ _ rfl
  · simp only [Db.RecordingStmtWithQueryContext.QueryContext]
    repeat' split
    all_goals
      first
        | exact appendsSuffix_of_eq _ _ rfl
        | exact appendsSuffix_request _ _ _ _ rfl
  · simp only [RecordingRows.Close]
    repeat' split
    all_goals
      first
        | exact appendsSuffix_of_eq _ _ rfl
        | exact appendsSuffix_request _ _ _ _ rfl
        | exact appendsSuffix_result _ _ _ _ _ _ rfl
        | exact appendsSuffix_request_result _ _ _ _ _ _ _ rfl
        | exact appendsSuffix_response _ _ _ _ rfl
  · simp only [Db.RecordingRows.Close]
    repeat' split
    all_goals
      first
        | exact appendsSuffix_of_eq _ _ rfl
        | exact appendsSuffix_request _ _ _ _ rfl
        | exact appendsSuffix_result _ _ _ _ _ _ rfl
        | exact appendsSuffix_request_result _ _ _ _ _ _ _ rfl
        | exact appendsSuffix_response _ _ _ _ rfl


/-! ## The count of the rows proxy (C23) -/

/-- After any run of `Next` calls on a proxy over a row set, `RowsFound` has grown,
with the wrap-around of a Go `int`, by the number of calls that returned anything but
`io.EOF`. -/
theorem nextAll_rowsFound
    (next : NextOp)
    (hnext : NextSpec next) (dests : List (List Value)) :
    ∀ (rows : RecordingRows) (r : DriverRows) (w : World) (x : Int),
      rows.Rows = some r → rows.RowsFound = wrapInt x →
      ∃ errs rows1 w1,
        nextAll next rows dests w = (Outcome.ret errs, rows1, w1) ∧
        errs.length = dests.length ∧
        rows1.RowsFound = wrapInt (x + notEOF errs) := by
  induction dests with
  | nil =>
    intro rows r w x _ hfound
    exact ⟨[], rows, w, rfl, rfl, by simp [hfound, notEOF]⟩
  | cons dest rest ih =>
    intro rows r w x hrows hfound
    rcases hnext rows r dest w hrows with ⟨w1, hstep, -, -, -⟩
    by_cases heof : r.Next r.served dest = some Error.EOF
    · rw [heof] at hstep
      simp only [ne_eq, not_true_eq_false, if_false] at hstep
      rcases ih { rows with Rows := some { r with served := r.served + 1 } }
        { r with served := r.served + 1 } w1 x rfl hfound with
        ⟨errs, rows2, w2, hrun, hlen, hf2⟩
      refine ⟨some Error.EOF :: errs, rows2, w2, ?_, by simp [hlen], ?_⟩
      · unfold nextAll
        rw [hstep]
        simp only
        rw [hrun]
      · rw [hf2]
        simp [notEOF]
    · rw [if_pos heof] at hstep
      rcases ih
        { rows with
          Rows := some { r with served := r.served + 1 },
          RowsFound := wrapInt (rows.RowsFound + 1) }
        { r with served := r.served + 1 } w1 (x + 1) rfl
        (by simp only [hfound]; exact wrapInt_succ x) with
        ⟨errs, rows2, w2, hrun, hlen, hf2⟩
      refine ⟨r.Next r.served dest :: errs, rows2, w2, ?_, by simp [hlen], ?_⟩
      · unfold nextAll
        rw [hstep]
        simp only
        rw [hrun]
      · rw [hf2]
        simp only [notEOF, List.countP_cons, heof, ne_eq, not_false_eq_true, decide_True,
          if_true]
        push_cast
        congr 1
        omega


/-! ## The two copies of `Connect` (C24) -/

/-- The proxy `Connect` of `db.go` returns implements `ConnPrepareContext` when the
connection does, and no other optional interface. -/
theorem rootConnect_implements (cn : RecordingConnector) (k : DriverConnector)
    (c : Option DriverConn) (w : World) (hcn : cn.Connector = some k)
    (hk : k.Connect = (c, none)) :
    ∃ v, (RecordingConnector.Connect cn w).1 = Outcome.ret (v, none) ∧
      ∀ X, v.implements X =
        (decide (X = ConnCapability.ConnPrepareContext) &&
          connImplements c ConnCapability.ConnPrepareContext) := by
  by_cases hp : connImplements c ConnCapability.ConnPrepareContext = true
  · refine ⟨ConnValue.proxy ConnType.RecordingConnWithPrepareContext
      (RecordingConn.mk c cn.recorder cn.sourceName), ?_, ?_⟩
    · simp [RecordingConnector.Connect, hcn, hk, hp]
    · intro X
      rw [hp]
      simp only [ConnValue.implements]
      cases X <;> decide
  · refine ⟨ConnValue.proxy ConnType.RecordingConn
      (RecordingConn.mk c cn.recorder cn.sourceName), ?_, ?_⟩
    · simp [RecordingConnector.Connect, hcn, hk, hp]
    · intro X
      rw [Bool.not_eq_true] at hp
      rw [hp]
      simp only [ConnValue.implements]
      cases X <;> decide

/-- The proxy `Connect` of `x/db` returns has the type of the proxy `Open` (of both
packages) returns for the same connection. -/
theorem dbConnect_as_open (cn : RecordingConnector) (k : DriverConnector)
    (d : RecordingDriver) (drv : Driver) (name : String) (c : Option DriverConn)
    (w w2 : World) (hcn : cn.Connector = some k) (hk : k.Connect = (c, none))
    (hd : d.Driver = some drv) (hopen : drv.Open name = (c, none)) :
    (Db.RecordingConnector.Connect cn w).1 =
      Outcome.ret (ConnValue.proxy (openConnType c)
        (RecordingConn.mk c cn.recorder cn.sourceName), none) ∧
    (RecordingDriver.Open d name w2).1 =
      Outcome.ret (ConnValue.proxy (openConnType c)
        (RecordingConn.mk c d.recorder d.sourceName), none) ∧
    (Db.RecordingDriver.Open d name w2).1 =
      Outcome.ret (ConnValue.proxy (openConnType c)
        (RecordingConn.mk c d.recorder d.sourceName), none) := by
  refine ⟨?_, ?_, ?_⟩
  · simp [Db.RecordingConnector.Connect, hcn, hk]
  · simp [RecordingDriver.Open, hd, hopen]
  · simp [Db.RecordingDriver.Open, hd, hopen]


/-! ## `namedValueToValue` and the statement `Exec` (C25, C26) -/

/-- The events `RecordingStmt.Exec` of both packages appends with a recorder: the
request, and the response when the wrapped call returned a result. -/
theorem stmtExec_events (stmt : RecordingStmt) (s : DriverStmt) (args : List Value)
    (w : World) (hstmt : stmt.Stmt = some s) (hrec : stmt.recorder ≠ RecorderPtr.nil) :
    eventsAfter (RecordingStmt.Exec stmt args w) =
      eventsAfter (Db.RecordingStmt.Exec stmt args w) ∧
    eventsAfter (Db.RecordingStmt.Exec stmt args w) =
      w.events ++
        Event.MessageRequest
          { Source := w.SystemUnderTestDefaultName, Target := stmt.sourceName,
            Header := "SQL Query", Body := recorderBody stmt.query args,
            Timestamp := w.clock } ::
        match (s.Exec args).1 with
        | none => []
        | some res =>
          [Event.MessageResponse
            { Source := stmt.sourceName, Target := w.SystemUnderTestDefaultName,
              Header := "SQL Result",
              Body := "Affected rows: " ++ fmtInt res.RowsAffected.1,
              Timestamp := w.clock + 1 }] := by
  constructor
  · simp [eventsAfter, RecordingStmt.Exec, Db.RecordingStmt.Exec, hstmt, hrec]
    cases hres : (s.Exec args).1 with
    | none => simp
    | some res => simp [World.recordResult_some _ _ _ _ _ hrec]
  · cases hres : (s.Exec args).1 with
    | none => simp [eventsAfter, Db.RecordingStmt.Exec, hstmt, hrec, hres]
    | some res =>
      simp [eventsAfter, Db.RecordingStmt.Exec, hstmt, hrec, hres,
        World.recordResult_some _ _ _ _ _ hrec, affectedRows]

/-! ## The capabilities of the proxies that `Open` builds (C21) -/

/-- C21 as stated fails on `BeginTx` and `Ping`: for a connection that implements
`QueryerContext`, `ExecerContext` and `ConnPrepareContext` but neither `ConnBeginTx`
nor `Pinger`, the proxy that `Open` of `db.go` returns, and the one that `Connect` of
`x/db` returns, has the methods `BeginTx` and `Ping`, and they return the errors
`ConnBeginTx not implemented` and `Pinger not implemented`. -/
theorem C21_counterexample :
    connImplements (some sampleContextConn) ConnCapability.ConnBeginTx = false ∧
    connImplements (some sampleContextConn) ConnCapability.Pinger = false ∧
    (∃ t rc,
      (RecordingDriver.Open (sampleRecordingDriver sampleContextConn) "dsn" sampleWorld).1 =
        Outcome.ret (ConnValue.proxy t rc, none) ∧
      rc.Conn = some sampleContextConn ∧
      t.hasMethod ConnMethod.BeginTx = true ∧
      t.hasMethod ConnMethod.Ping = true ∧
      (RecordingConnWithBeginTx.BeginTx rc (TxOptions.mk 0 false) sampleWorld).1 =
        Outcome.ret (none, some (Error.New "ConnBeginTx not implemented")) ∧
      (RecordingConnWithPing.Ping rc sampleWorld).1 =
        Outcome.ret (some (Error.New "Pinger not implemented"))) ∧
    (∃ t rc,
      (Db.RecordingConnector.Connect (sampleRecordingConnector sampleContextConn)
        sampleWorld).1 = Outcome.ret (ConnValue.proxy t rc, none) ∧
      rc.Conn = some sampleContextConn ∧
      t.hasMethod ConnMethod.BeginTx = true ∧
      t.hasMethod ConnMethod.Ping = true ∧
      (Db.RecordingConnWithBeginTx.BeginTx rc (TxOptions.mk 0 false) sampleWorld).1 =
        Outcome.ret (none, some (Error.New "ConnBeginTx not implemented")) ∧
      (Db.RecordingConnWithPing.Ping rc sampleWorld).1 =
        Outcome.ret (some (Error.New "Pinger not implemented"))) :=
  ⟨by decide, by decide,
    ⟨ConnType.RecordingConnWithExecQueryPrepareContext,
      RecordingConn.mk (some sampleContextConn) RecorderPtr.run "db", rfl, rfl, by decide,
      by decide, rfl, rfl⟩,
    ⟨ConnType.RecordingConnWithExecQueryPrepareContext,
      RecordingConn.mk (some sampleContextConn) RecorderPtr.run "db", rfl, rfl, by decide,
      by decide, rfl, rfl⟩⟩

/-- C21 (amended): for every connection `c` that the wrapped `Open` (or, in `x/db`,
the wrapped `Connect`) returns without error, the proxy that `Open` of both packages
and `Connect` of `x/db` return has a type `t` such that: each of `Query`,
`QueryContext`, `Exec`, `ExecContext` and `PrepareContext` that `t` has is backed by
the matching capability of `c`, and the operation then calls the wrapped operation
with the query and the arguments given; `t` has `BeginTx` and `Ping` exactly when it
has `QueryContext`, and on a connection without `ConnBeginTx` (`Pinger`) they return
the error `ConnBeginTx not implemented` (`Pinger not implemented`). -/
theorem C21_probed_capabilities (d : RecordingDriver) (drv : Driver)
    (cn : RecordingConnector) (k : DriverConnector) (name : String)
    (c : Option DriverConn) (w : World) (hd : d.Driver = some drv)
    (hopen : drv.Open name = (c, none)) (hcn : cn.Connector = some k)
    (hk : k.Connect = (c, none)) :
    ∃ t : ConnType,
      (RecordingDriver.Open d name w).1 =
        Outcome.ret (ConnValue.proxy t (RecordingConn.mk c d.recorder d.sourceName),
          none) ∧
      (Db.RecordingDriver.Open d name w).1 =
        Outcome.ret (ConnValue.proxy t (RecordingConn.mk c d.recorder d.sourceName),
          none) ∧
      (Db.RecordingConnector.Connect cn w).1 =
        Outcome.ret (ConnValue.proxy t (RecordingConn.mk c cn.recorder cn.sourceName),
          none) ∧
      (∀ X ∈ [ConnCapability.Queryer, ConnCapability.QueryerContext, ConnCapability.Execer,
          ConnCapability.ExecerContext, ConnCapability.ConnPrepareContext],
        t.hasMethod X.method = true → connImplements c X = true) ∧
      (∀ (conn : RecordingConn) (query : String) (args : List Value)
          (nargs : List NamedValue) (w2 : World), conn.Conn = c →
        (t.hasMethod ConnMethod.Query = true →
          invoked w2 (Call.ConnQuery query args) (RecordingConnWithQuery.Query conn query args w2) ∧
          invoked w2 (Call.ConnQuery query args) (Db.RecordingConnWithQuery.Query conn query args w2)) ∧
        (t.hasMethod ConnMethod.QueryContext = true →
          invoked w2 (Call.ConnQueryContext query nargs) (RecordingConnWithQueryContext.QueryContext conn query nargs w2) ∧
          invoked w2 (Call.ConnQueryContext query nargs) (Db.RecordingConnWithQueryContext.QueryContext conn query nargs w2)) ∧
        (t.hasMethod ConnMethod.Exec = true →
          invoked w2 (Call.ConnExec query args) (RecordingConnWithExec.Exec conn query args w2) ∧
          invoked w2 (Call.ConnExec query args) (Db.RecordingConnWithExec.Exec conn query args w2)) ∧
        (t.hasMethod ConnMethod.ExecContext = true →
          invoked w2 (Call.ConnExecContext query nargs) (RecordingConnWithExecContext.ExecContext conn query nargs w2) ∧
          invoked w2 (Call.ConnExecContext query nargs) (Db.RecordingConnWithExecContext.ExecContext conn query nargs w2)) ∧
        (t.hasMethod ConnMethod.PrepareContext = true →
          invoked w2 (Call.ConnPrepareContext query) (RecordingConnWithPrepareContext.PrepareContext conn query w2) ∧
          invoked w2 (Call.ConnPrepareContext query) (Db.RecordingConnWithPrepareContext.PrepareContext conn query w2))) ∧
      t.hasMethod ConnMethod.BeginTx = t.hasMethod ConnMethod.QueryContext ∧
      t.hasMethod ConnMethod.Ping = t.hasMethod ConnMethod.QueryContext ∧
      (∀ (conn : RecordingConn) (opts : TxOptions) (w2 : World), conn.Conn = c →
        (connImplements c ConnCapability.ConnBeginTx = false →
          (RecordingConnWithBeginTx.BeginTx conn opts w2).1 =
            Outcome.ret (none, some (Error.New "ConnBeginTx not implemented")) ∧
          (Db.RecordingConnWithBeginTx.BeginTx conn opts w2).1 =
            Outcome.ret (none, some (Error.New "ConnBeginTx not implemented"))) ∧
        (connImplements c ConnCapability.Pinger = false →
          (RecordingConnWithPing.Ping conn w2).1 =
            Outcome.ret (some (Error.New "Pinger not implemented")) ∧
          (Db.RecordingConnWithPing.Ping conn w2).1 =
            Outcome.ret (some (Error.New "Pinger not implemented")))) := by
  have hsame := dbConnect_as_open cn k d drv name c w w hcn hk hd hopen
  have hun := openConnType_unprobed c
  have hqc : (openConnType c).hasMethod ConnMethod.QueryContext =
      (connImplements c ConnCapability.QueryerContext &&
        connImplements c ConnCapability.ExecerContext &&
        connImplements c ConnCapability.ConnPrepareContext) := by
    unfold openConnType
    generalize connImplements c ConnCapability.Queryer = q
    generalize connImplements c ConnCapability.QueryerContext = qc
    generalize connImplements c ConnCapability.Execer = e
    generalize connImplements c ConnCapability.ExecerContext = ec
    generalize connImplements c ConnCapability.ConnPrepareContext = pc
    revert q qc e ec pc
    decide
  refine ⟨openConnType c, hsame.2.1, hsame.2.2, hsame.1,
    fun X hX h => openConnType_probed c X hX h, ?_, hun.1.trans hqc.symm,
    hun.2.trans hqc.symm, ?_⟩
  · intro conn query args nargs w2 hc
    have hinv := delegate_invoked conn query args nargs w2
    exact ⟨
      (fun h => (hinv.1) (hc ▸ openConnType_probed c ConnCapability.Queryer (by decide) h)),
      (fun h => (hinv.2.1) (hc ▸ openConnType_probed c ConnCapability.QueryerContext (by decide) h)),
      (fun h => (hinv.2.2.1) (hc ▸ openConnType_probed c ConnCapability.Execer (by decide) h)),
      (fun h => (hinv.2.2.2.1) (hc ▸ openConnType_probed c ConnCapability.ExecerContext (by decide) h)),
      (fun h => (hinv.2.2.2.2) (hc ▸ openConnType_probed c ConnCapability.ConnPrepareContext (by decide) h))
      ⟩
  · intro conn opts w2 hc
    constructor
    · intro h
      have hb := (connImplements_bind conn.Conn).2.2.2.2.2.1 (hc ▸ h)
      simp [RecordingConnWithBeginTx.BeginTx, Db.RecordingConnWithBeginTx.BeginTx, hb]
    · intro h
      have hb := (connImplements_bind conn.Conn).2.2.2.2.2.2 (hc ▸ h)
      simp [RecordingConnWithPing.Ping, Db.RecordingConnWithPing.Ping, hb]

/-- Witness of C21: a connection with `QueryerContext`, `ExecerContext` and
`ConnPrepareContext` alone. -/
theorem C21_probed_capabilities_witness :
    ∃ t : ConnType,
      (RecordingDriver.Open (sampleRecordingDriver sampleContextConn) "dsn" sampleWorld).1 =
        Outcome.ret (ConnValue.proxy t (RecordingConn.mk (some sampleContextConn) (sampleRecordingDriver sampleContextConn).recorder (sampleRecordingDriver sampleContextConn).sourceName),
          none) ∧
      (Db.RecordingDriver.Open (sampleRecordingDriver sampleContextConn) "dsn" sampleWorld).1 =
        Outcome.ret (ConnValue.proxy t (RecordingConn.mk (some sampleContextConn) (sampleRecordingDriver sampleContextConn).recorder (sampleRecordingDriver sampleContextConn).sourceName),
          none) ∧
      (Db.RecordingConnector.Connect (sampleRecordingConnector sampleContextConn) sampleWorld).1 =
        Outcome.ret (ConnValue.proxy t (RecordingConn.mk (some sampleContextConn) (sampleRecordingConnector sampleContextConn).recorder (sampleRecordingConnector sampleContextConn).sourceName),
          none) ∧
      (∀ X ∈ [ConnCapability.Queryer, ConnCapability.QueryerContext, ConnCapability.Execer,
          ConnCapability.ExecerContext, ConnCapability.ConnPrepareContext],
        t.hasMethod X.method = true → connImplements (some sampleContextConn) X = true) ∧
      (∀ (conn : RecordingConn) (query : String) (args : List Value)
          (nargs : List NamedValue) (w2 : World), conn.Conn = (some sampleContextConn) →
        (t.hasMethod ConnMethod.Query = true →
          invoked w2 (Call.ConnQuery query args) (RecordingConnWithQuery.Query conn query args w2) ∧
          invoked w2 (Call.ConnQuery query args) (Db.RecordingConnWithQuery.Query conn query args w2)) ∧
        (t.hasMethod ConnMethod.QueryContext = true →
          invoked w2 (Call.ConnQueryContext query nargs) (RecordingConnWithQueryContext.QueryContext conn query nargs w2) ∧
          invoked w2 (Call.ConnQueryContext query nargs) (Db.RecordingConnWithQueryContext.QueryContext conn query nargs w2)) ∧
        (t.hasMethod ConnMethod.Exec = true →
          invoked w2 (Call.ConnExec query args) (RecordingConnWithExec.Exec conn query args w2) ∧
          invoked w2 (Call.ConnExec query args) (Db.RecordingConnWithExec.Exec conn query args w2)) ∧
        (t.hasMethod ConnMethod.ExecContext = true →
          invoked w2 (Call.ConnExecContext query nargs) (RecordingConnWithExecContext.ExecContext conn query nargs w2) ∧
          invoked w2 (Call.ConnExecContext query nargs) (Db.RecordingConnWithExecContext.ExecContext conn query nargs w2)) ∧
        (t.hasMethod ConnMethod.PrepareContext = true →
          invoked w2 (Call.ConnPrepareContext query) (RecordingConnWithPrepareContext.PrepareContext conn query w2) ∧
          invoked w2 (Call.ConnPrepareContext query) (Db.RecordingConnWithPrepareContext.PrepareContext conn query w2))) ∧
      t.hasMethod ConnMethod.BeginTx = t.hasMethod ConnMethod.QueryContext ∧
      t.hasMethod ConnMethod.Ping = t.hasMethod ConnMethod.QueryContext ∧
      (∀ (conn : RecordingConn) (opts : TxOptions) (w2 : World), conn.Conn = (some sampleContextConn) →
        (connImplements (some sampleContextConn) ConnCapability.ConnBeginTx = false →
          (RecordingConnWithBeginTx.BeginTx conn opts w2).1 =
            Outcome.ret (none, some (Error.New "ConnBeginTx not implemented")) ∧
          (Db.RecordingConnWithBeginTx.BeginTx conn opts w2).1 =
            Outcome.ret (none, some (Error.New "ConnBeginTx not implemented"))) ∧
        (connImplements (some sampleContextConn) ConnCapability.Pinger = false →
          (RecordingConnWithPing.Ping conn w2).1 =
            Outcome.ret (some (Error.New "Pinger not implemented")) ∧
          (Db.RecordingConnWithPing.Ping conn w2).1 =
            Outcome.ret (some (Error.New "Pinger not implemented")))) :=
  C21_probed_capabilities (sampleRecordingDriver sampleContextConn)
    (sampleDriver sampleContextConn) (sampleRecordingConnector sampleContextConn)
    (sampleConnector sampleContextConn) "dsn" (some sampleContextConn) sampleWorld rfl rfl
    rfl rfl


/-! ## The append-only recorder (C22) -/

/-- C22: every operation of every proxy, in both packages, leaves the events recorded
before it as they were and appends at most a request, a response, or a request and
then a response.  `Open`, `OpenConnector`, `Connect`, the connector's `Driver`,
`Prepare`, `PrepareContext`, `BeginTx`, `Ping`, `Close` and `Begin` of a connection,
`Close` and `NumInput` of a statement, `Columns` and `Next` of rows append nothing; the
eight query and exec operations and `Close` of rows append a suffix of one of the four
shapes. -/
theorem C22_append_only (d : RecordingDriver) (cn : RecordingConnector)
    (driverOf : DriverConnector → Option Driver) (conn : RecordingConn)
    (stmt : RecordingStmt) (rows : RecordingRows) (name query : String) (args : List Value)
    (nargs : List NamedValue) (dest : List Value) (opts : TxOptions) (w : World) :
    eventsAfter (RecordingDriver.Open d name w) = w.events ∧
    eventsAfter (Db.RecordingDriver.Open d name w) = w.events ∧
    eventsAfter (RecordingDriverContext.OpenConnector d name w) = w.events ∧
    eventsAfter (Db.RecordingDriverContext.OpenConnector d name w) = w.events ∧
    eventsAfter (RecordingConnector.Connect cn w) = w.events ∧
    eventsAfter (Db.RecordingConnector.Connect cn w) = w.events ∧
    eventsAfter (RecordingConnector.Driver cn driverOf w) = w.events ∧
    eventsAfter (Db.RecordingConnector.Driver cn driverOf w) = w.events ∧
    eventsAfter (RecordingConn.Prepare conn query w) = w.events ∧
    eventsAfter (Db.RecordingConn.Prepare conn query w) = w.events ∧
    eventsAfter (RecordingConn.Close conn w) = w.events ∧
    eventsAfter (Db.RecordingConn.Close conn w) = w.events ∧
    eventsAfter (RecordingConn.Begin conn w) = w.events ∧
    eventsAfter (Db.RecordingConn.Begin conn w) = w.events ∧
    eventsAfter (RecordingConnWithPrepareContext.PrepareContext conn query w) = w.events ∧
    eventsAfter (Db.RecordingConnWithPrepareContext.PrepareContext conn query w) = w.events ∧
    eventsAfter (RecordingConnWithBeginTx.BeginTx conn opts w) = w.events ∧
    eventsAfter (Db.RecordingConnWithBeginTx.BeginTx conn opts w) = w.events ∧
    eventsAfter (RecordingConnWithPing.Ping conn w) = w.events ∧
    eventsAfter (Db.RecordingConnWithPing.Ping conn w) = w.events ∧
    eventsAfter (RecordingStmt.Close stmt w) = w.events ∧
    eventsAfter (Db.RecordingStmt.Close stmt w) = w.events ∧
    eventsAfter (RecordingStmt.NumInput stmt w) = w.events ∧
    eventsAfter (Db.RecordingStmt.NumInput stmt w) = w.events ∧
    eventsAfter (RecordingRows.Columns rows w) = w.events ∧
    eventsAfter (Db.RecordingRows.Columns rows w) = w.events ∧
    (RecordingRows.Next rows dest w).2.2.events = w.events ∧
    (Db.RecordingRows.Next rows dest w).2.2.events = w.events ∧
    appendsSuffix w (RecordingConnWithQuery.Query conn query args w).2 ∧
    appendsSuffix w (Db.RecordingConnWithQuery.Query conn query args w).2 ∧
    appendsSuffix w (RecordingConnWithQueryContext.QueryContext conn query nargs w).2 ∧
    appendsSuffix w (Db.RecordingConnWithQueryContext.QueryContext conn query nargs w).2 ∧
    appendsSuffix w (RecordingConnWithExec.Exec conn query args w).2 ∧
    appendsSuffix w (Db.RecordingConnWithExec.Exec conn query args w).2 ∧
    appendsSuffix w (RecordingConnWithExecContext.ExecContext conn query nargs w).2 ∧
    appendsSuffix w (Db.RecordingConnWithExecContext.ExecContext conn query nargs w).2 ∧
    appendsSuffix w (RecordingStmt.Exec stmt args w).2 ∧
    appendsSuffix w (Db.RecordingStmt.Exec stmt args w).2 ∧
    appendsSuffix w (RecordingStmt.Query stmt args w).2 ∧
    appendsSuffix w (Db.RecordingStmt.Query stmt args w).2 ∧
    appendsSuffix w (RecordingStmtWithExecContext.ExecContext stmt nargs w).2 ∧
    appendsSuffix w (Db.RecordingStmtWithExecContext.ExecContext stmt nargs w).2 ∧
    appendsSuffix w (RecordingStmtWithQueryContext.QueryContext stmt nargs w).2 ∧
    appendsSuffix w (Db.RecordingStmtWithQueryContext.QueryContext stmt nargs w).2 ∧
    appendsSuffix w (RecordingRows.Close rows w).2 ∧
    appendsSuffix w (Db.RecordingRows.Close rows w).2 := by
  have hq := quiet_operations d cn driverOf conn stmt rows name query dest opts w
  have hr := recording_operations conn stmt rows query args nargs w
  exact ⟨hq.1,
    hq.2.1,
    hq.2.2.1,
    hq.2.2.2.1,
    hq.2.2.2.2.1,
    hq.2.2.2.2.2.1,
    hq.2.2.2.2.2.2.1,
    hq.2.2.2.2.2.2.2.1,
    hq.2.2.2.2.2.2.2.2.1,
    hq.2.2.2.2.2.2.2.2.2.1,
    hq.2.2.2.2.2.2.2.2.2.2.1,
    hq.2.2.2.2.2.2.2.2.2.2.2.1,
    hq.2.2.2.2.2.2.2.2.2.2.2.2.1,
    hq.2.2.2.2.2.2.2.2.2.2.2.2.2.1,
    hq.2.2.2.2.2.2.2.2.2.2.2.2.2.2.1,
    hq.2.2.2.2.2.2.2.2.2.2.2.2.2.2.2.1,
    hq.2.2.2.2.2.2.2.2.2.2.2.2.2.2.2.2.1,
    hq.2.2.2.2.2.2.2.2.2.2.2.2.2.2.2.2.2.1,
    hq.2.2.2.2.2.2.2.2.2.2.2.2.2.2.2.2.2.2.1,
    hq.2.2.2.2.2.2.2.2.2.2.2.2.2.2.2.2.2.2.2.1,
    hq.2.2.2.2.2.2.2.2.2.2.2.2.2.2.2.2.2.2.2.2.1,
    hq.2.2.2.2.2.2.2.2.2.2.2.2.2.2.2.2.2.2.2.2.2.1,
    hq.2.2.2.2.2.2.2.2.2.2.2.2.2.2.2.2.2.2.2.2.2.2.1,
    hq.2.2.2.2.2.2.2.2.2.2.2.2.2.2.2.2.2.2.2.2.2.2.2.1,
    hq.2.2.2.2.2.2.2.2.2.2.2.2.2.2.2.2.2.2.2.2.2.2.2.2.1,
    hq.2.2.2.2.2.2.2.2.2.2.2.2.2.2.2.2.2.2.2.2.2.2.2.2.2.1,
    hq.2.2.2.2.2.2.2.2.2.2.2.2.2.2.2.2.2.2.2.2.2.2.2.2.2.2.1,
    hq.2.2.2.2.2.2.2.2.2.2.2.2.2.2.2.2.2.2.2.2.2.2.2.2.2.2.2,
    hr⟩


/-! ## The count of the rows proxy (C23) -/

/-- C23 fails on a `Next` that returns an error other than `io.EOF`: on a fresh rows
proxy whose row set yields two rows and then fails, three calls of `Next` return nil,
nil and the error, `RowsFound` is 3, and `Close` reports `Rows returned: 3`; in both
packages. -/
theorem C23_failed_Next_counted :
    (nextAll RecordingRows.Next sampleBrokenRecordingRows [[], [], []] sampleWorld).1 =
      Outcome.ret [none, none, some (Error.New "connection lost")] ∧
    rowsYielded [none, none, some (Error.New "connection lost")] = 2 ∧
    (nextAll RecordingRows.Next sampleBrokenRecordingRows [[], [], []]
      sampleWorld).2.1.RowsFound = 3 ∧
    eventsAfter (iterateAndClose RecordingRows.Next RecordingRows.Close
      sampleBrokenRecordingRows [[], [], []] sampleWorld) =
      [Event.MessageResponse
        { Source := "db", Target := "sut", Header := "SQL Result",
          Body := "Rows returned: 3", Timestamp := 0 }] ∧
    (nextAll Db.RecordingRows.Next sampleBrokenRecordingRows [[], [], []] sampleWorld).1 =
      Outcome.ret [none, none, some (Error.New "connection lost")] ∧
    (nextAll Db.RecordingRows.Next sampleBrokenRecordingRows [[], [], []]
      sampleWorld).2.1.RowsFound = 3 ∧
    eventsAfter (iterateAndClose Db.RecordingRows.Next Db.RecordingRows.Close
      sampleBrokenRecordingRows [[], [], []] sampleWorld) =
      [Event.MessageResponse
        { Source := "db", Target := "sut", Header := "SQL Result",
          Body := "Rows returned: 3", Timestamp := 0 }] := by
  refine ⟨rfl, ?_, ?_, ?_, rfl, ?_, ?_⟩
  all_goals decide


/-! ## The two copies of `Connect` (C24) -/

/-- C24 fails on `Connect` of `db.go`.  For a connection with `Queryer` and `Execer`
it returns a proxy without optional interfaces, while `Connect` of `x/db` and `Open`
return one with `Queryer` and `Execer`; for a connection with the five context-aware
interfaces it returns a proxy with `ConnPrepareContext` alone, while `Connect` of
`x/db` returns one with the five. -/
theorem C24_root_Connect_capabilities :
    connCapabilities (some sampleSyncConn) =
      [ConnCapability.Queryer, ConnCapability.Execer] ∧
    (∃ v : ConnValue,
      (RecordingConnector.Connect (sampleRecordingConnector sampleSyncConn) sampleWorld).1 =
        Outcome.ret (v, none) ∧
      v.capabilities = []) ∧
    (∃ v : ConnValue,
      (Db.RecordingConnector.Connect (sampleRecordingConnector sampleSyncConn)
        sampleWorld).1 = Outcome.ret (v, none) ∧
      v.capabilities = [ConnCapability.Queryer, ConnCapability.Execer]) ∧
    (∃ v : ConnValue,
      (RecordingDriver.Open (sampleRecordingDriver sampleSyncConn) "dsn" sampleWorld).1 =
        Outcome.ret (v, none) ∧
      v.capabilities = [ConnCapability.Queryer, ConnCapability.Execer]) ∧
    (∃ v : ConnValue,
      (RecordingConnector.Connect (sampleRecordingConnector sampleFullContextConn)
        sampleWorld).1 = Outcome.ret (v, none) ∧
      v.capabilities = [ConnCapability.ConnPrepareContext]) ∧
    (∃ v : ConnValue,
      (Db.RecordingConnector.Connect (sampleRecordingConnector sampleFullContextConn)
        sampleWorld).1 = Outcome.ret (v, none) ∧
      v.capabilities =
        [ConnCapability.QueryerContext, ConnCapability.ExecerContext,
         ConnCapability.ConnPrepareContext, ConnCapability.ConnBeginTx,
         ConnCapability.Pinger]) :=
  ⟨by decide, ⟨_, rfl, by decide⟩, ⟨_, rfl, by decide⟩, ⟨_, rfl, by decide⟩,
    ⟨_, rfl, by decide⟩, ⟨_, rfl, by decide⟩⟩


/-! ## The synchronous statement `Exec` (C25) -/

/-- C25: `RecordingStmt.Exec` of both packages, with a recorder, returns what the
wrapped `Exec` returns and appends the request whatever the wrapped call returned;
for `(nil, err)` it appends the request alone, for `(result, err)` the request and
then the response, whether `err` is nil or not. -/
theorem C25_stmt_Exec_dangling_request (stmt : RecordingStmt) (s : DriverStmt)
    (args : List Value) (w : World) (hstmt : stmt.Stmt = some s)
    (hrec : stmt.recorder ≠ RecorderPtr.nil) :
    (RecordingStmt.Exec stmt args w).1 = Outcome.ret (s.Exec args) ∧
    (Db.RecordingStmt.Exec stmt args w).1 = Outcome.ret (s.Exec args) ∧
    (∀ err, s.Exec args = (none, err) →
      eventsAfter (RecordingStmt.Exec stmt args w) =
        w.events ++ [Event.MessageRequest
          { Source := w.SystemUnderTestDefaultName, Target := stmt.sourceName,
            Header := "SQL Query", Body := recorderBody stmt.query args,
            Timestamp := w.clock }] ∧
      eventsAfter (Db.RecordingStmt.Exec stmt args w) =
        w.events ++ [Event.MessageRequest
          { Source := w.SystemUnderTestDefaultName, Target := stmt.sourceName,
            Header := "SQL Query", Body := recorderBody stmt.query args,
            Timestamp := w.clock }]) ∧
    (∀ res err, s.Exec args = (some res, err) →
      eventsAfter (RecordingStmt.Exec stmt args w) =
        w.events ++ [Event.MessageRequest
          { Source := w.SystemUnderTestDefaultName, Target := stmt.sourceName,
            Header := "SQL Query", Body := recorderBody stmt.query args,
            Timestamp := w.clock },
          Event.MessageResponse
          { Source := stmt.sourceName, Target := w.SystemUnderTestDefaultName,
            Header := "SQL Result", Body := "Affected rows: " ++ fmtInt res.RowsAffected.1,
            Timestamp := w.clock + 1 }] ∧
      eventsAfter (Db.RecordingStmt.Exec stmt args w) =
        w.events ++ [Event.MessageRequest
          { Source := w.SystemUnderTestDefaultName, Target := stmt.sourceName,
            Header := "SQL Query", Body := recorderBody stmt.query args,
            Timestamp := w.clock },
          Event.MessageResponse
          { Source := stmt.sourceName, Target := w.SystemUnderTestDefaultName,
            Header := "SQL Result", Body := "Affected rows: " ++ fmtInt res.RowsAffected.1,
            Timestamp := w.clock + 1 }]) := by
  have h := stmtExec_events stmt s args w hstmt hrec
  refine ⟨?_, ?_, ?_, ?_⟩
  · simp [RecordingStmt.Exec, hstmt]
  · simp [Db.RecordingStmt.Exec, hstmt]
  · intro err he
    rw [h.1, h.2, he]
    exact ⟨rfl, rfl⟩
  · intro res err he
    rw [h.1, h.2, he]
    exact ⟨rfl, rfl⟩

/-- Witness of C25: a statement whose `Exec` returns a result and the error `boom`;
both events are appended and the error is returned. -/
theorem C25_stmt_Exec_dangling_request_witness :
    (RecordingStmt.Exec sampleHalfFailingRecordingStmt [] sampleWorld).1 =
      Outcome.ret (some (sampleResult 1), some (Error.New "boom")) ∧
    eventsAfter (RecordingStmt.Exec sampleHalfFailingRecordingStmt [] sampleWorld) =
      [Event.MessageRequest
        { Source := "sut", Target := "db", Header := "SQL Query",
          Body := "DELETE FROM users WHERE id = 1", Timestamp := 0 },
       Event.MessageResponse
        { Source := "db", Target := "sut", Header := "SQL Result",
          Body := "Affected rows: 1", Timestamp := 1 }] ∧
    eventsAfter (RecordingStmt.Exec sampleFailingRecordingStmt [] sampleWorld) =
      [Event.MessageRequest
        { Source := "sut", Target := "db", Header := "SQL Query",
          Body := "DELETE FROM users WHERE id = 1", Timestamp := 0 }] :=
  have h := C25_stmt_Exec_dangling_request sampleHalfFailingRecordingStmt
    sampleHalfFailingStmt [] sampleWorld rfl (by decide)
  have h2 := C25_stmt_Exec_dangling_request sampleFailingRecordingStmt
    sampleFailingStmt [] sampleWorld rfl (by decide)
  ⟨h.1, (h.2.2.2 (sampleResult 1) (some (Error.New "boom")) rfl).1,
    (h2.2.2.1 (some (Error.New "boom")) rfl).1⟩

/-! ## The conversion of the named parameters (C26) -/

/-- C26: `namedValueToValue` (the same function in both packages) returns an error
exactly when a parameter has a non-empty `Name`, and then the error is the
named-parameter error; otherwise it returns the `Value` of each parameter, in order
and as many as there were parameters, whatever their `Ordinal`; the empty list gives
the empty list and no error. -/
theorem C26_namedValueToValue (named : List NamedValue) :
    ((namedValueToValue named).2 ≠ none ↔ ∃ p ∈ named, p.Name ≠ "") ∧
    ((namedValueToValue named).2 ≠ none →
      (namedValueToValue named).2 = some namedParametersError) ∧
    ((namedValueToValue named).2 = none →
      (namedValueToValue named).1 = named.map NamedValue.Value ∧
      (namedValueToValue named).1.length = named.length ∧
      ∀ i (h : i < named.length),
        (namedValueToValue named).1[i]? = some (named.get ⟨i, h⟩).Value) ∧
    namedValueToValue [] = ([], none) := by
  by_cases hnamed : ∃ p ∈ named, p.Name ≠ ""
  · rw [namedValueToValue_named named hnamed]
    exact ⟨by simp [hnamed], by simp, by simp, rfl⟩
  · have hpos : ∀ p ∈ named, p.Name = "" := by
      intro p hp
      by_contra hne
      exact hnamed ⟨p, hp, hne⟩
    rw [namedValueToValue_positional named hpos]
    refine ⟨?_, ?_, ?_, rfl⟩
    · simp only [ne_eq, not_true_eq_false, false_iff]
      exact hnamed
    · simp
    · intro _
      refine ⟨rfl, by simp, ?_⟩
      intro i h
      simp [List.getElem?_eq_getElem h]

/-- Witness of C26: two positional parameters, whose ordinals are not in order, and a
list with a named one. -/
theorem C26_namedValueToValue_witness :
    namedValueToValue
        [{ Name := "", Ordinal := 2, Value := Value.string "Peter" },
         { Name := "", Ordinal := 1, Value := Value.int64 30 }] =
      ([Value.string "Peter", Value.int64 30], none) ∧
    (namedValueToValue
        [{ Name := "", Ordinal := 1, Value := Value.string "Peter" },
         { Name := "age", Ordinal := 2, Value := Value.int64 30 }]).2 =
      some namedParametersError :=
  have h := C26_namedValueToValue
    [{ Name := "", Ordinal := 2, Value := Value.string "Peter" },
     { Name := "", Ordinal := 1, Value := Value.int64 30 }]
  have h2 := C26_namedValueToValue
    [{ Name := "", Ordinal := 1, Value := Value.string "Peter" },
     { Name := "age", Ordinal := 2, Value := Value.int64 30 }]
  ⟨Prod.ext (h.2.2.1 rfl).1 rfl, h2.2.1 (by decide)⟩

end Apitest
